import Mathlib

/-!
Brick-breaker engine: the per-frame simulation.

A shallow embedding of the simulation code of the repository (`Scene.cpp`,
`Ball.cpp`, `Brick.h`, `Drop.cpp`, `Paddle.cpp`, `GameEntity.h`,
`Collision2DComponent.cpp`, `TransformComponent.cpp`).

Conventions of the embedding.

* The C++ `float` is read as an arbitrary linearly ordered field `F`
  (exact arithmetic).  Every definition is computable for a computable `F`
  such as `ℚ`; statements about `sqrt`, `atan2`, `cos`, `sin` are made at
  `F = ℝ`.
* An entity is its component map restricted to the two kinds the simulation
  reads and writes: the entry stored under `ComponentType::TransformComponent`
  and the one stored under `ComponentType::Collision2DComponent`.  `none` is an
  absent entry, for which `GetComponent` returns `nullptr`.
* `std::vector` is `List`; a `shared_ptr` held by exactly one container is the
  value it points to.
* `rand()` is the function `rand : ℕ → ℕ` of the host, giving the value of the
  `k`-th call, together with a counter of the calls made so far.
-/

set_option linter.unusedSectionVars false

namespace GameEngine

/-! ## Data model -/

/-- The SDL rectangle `SDL_FRect {x, y, w, h}`. -/
structure SDL_FRect (F : Type) where
  x : F
  y : F
  w : F
  h : F
deriving DecidableEq, Repr

/-- The state of `GameEntity` that the simulation uses: the Transform and
Collision2D entries of `mComponents` (each a rectangle), `mSpeed` and
`xPositiveDirection`. -/
structure GameEntity (F : Type) where
  transform : Option (SDL_FRect F)
  collider : Option (SDL_FRect F)
  mSpeed : F
  xPositiveDirection : Int
deriving DecidableEq, Repr

/-- The class `Ball : public GameEntity` with `velX`, `velY`. -/
structure Ball (F : Type) extends GameEntity F where
  velX : F
  velY : F
deriving DecidableEq, Repr

/-- The class `Brick : public GameEntity` with `active`, `unbreakable`. -/
structure Brick (F : Type) extends GameEntity F where
  active : Bool
  unbreakable : Bool
deriving DecidableEq, Repr

/-- The class `Drop : public GameEntity`. -/
structure Drop (F : Type) extends GameEntity F where
deriving DecidableEq, Repr

/-- The class `Paddle : public GameEntity` with `lastPosX`, `instantaneousVelocity`;
`input` is the `mSpeed` of the InputComponent entry of the component map, when
there is one. -/
structure Paddle (F : Type) extends GameEntity F where
  lastPosX : F
  instantaneousVelocity : F
  input : Option F
deriving DecidableEq, Repr

/-- The class `Scene`: the paddle, the three containers and the status flag. -/
structure Scene (F : Type) where
  mPlayerPaddle : Option (Paddle F)
  mBalls : List (Ball F)
  mBricks : List (Brick F)
  mDrops : List (Drop F)
  mSceneIsActive : Bool
deriving DecidableEq, Repr

/-- The functions of `<cmath>` that `Scene::Update` calls, and `M_PI`. -/
structure CMath (F : Type) where
  sqrt : F → F
  atan2 : F → F → F
  cos : F → F
  sin : F → F
  M_PI : F

/-- What the scene takes from its host: the math library, the values returned
by the successive calls of `rand()`, and the sizes `(w, h)` of the textures
`ball.bmp` and `drop.bmp` (read by `initComponents`). -/
structure Host (F : Type) where
  cmath : CMath F
  rand : Nat → Nat
  ballTexture : F × F
  dropTexture : F × F

section Model

variable {F : Type} [LinearOrderedField F]

/-! ## Components -/

/-- Source: `TransformComponent::move`: overwrite `x` and `y`, keep the size. -/
def TransformComponent.move (r : SDL_FRect F) (x y : F) : SDL_FRect F :=
  { r with x := x, y := y }

/-- Source: `Collision2DComponent::Update` of the collider owned by `e`: when the
entity has a Transform, the collision rectangle becomes the transform
rectangle.  An entity without a collider is unchanged (the callers test
`if (coll)`). -/
def Collision2DComponent.Update (e : GameEntity F) : GameEntity F :=
  match e.collider with
  | none => e
  | some _ =>
    match e.transform with
    | none => e
    | some r => { e with collider := some r }

/-- Source: `GameEntity::initComponents` for a texture of size `tex = (w, h)`: a
Transform and a Collision2D component, both `(0, 0, w, h)`. -/
def GameEntity.initComponents (e : GameEntity F) (tex : F × F) : GameEntity F :=
  { e with transform := some ⟨0, 0, tex.1, tex.2⟩,
           collider := some ⟨0, 0, tex.1, tex.2⟩ }

/-- The constructor `GameEntity(renderer, texturePath, speed)`: no component,
direction `1`. -/
def GameEntity.new (speed : F) : GameEntity F :=
  { transform := none, collider := none, mSpeed := speed, xPositiveDirection := 1 }

/-! ## Brick -/

/-- Source: `Brick::IsActive`. -/
def Brick.IsActive (b : Brick F) : Bool := b.active

/-- Source: `Brick::IsUnbreakable`. -/
def Brick.IsUnbreakable (b : Brick F) : Bool := b.unbreakable

/-- Source: `Brick::SetActive`: `if (!unbreakable) active = a;`. -/
def Brick.SetActive (b : Brick F) (a : Bool) : Brick F :=
  if !b.unbreakable then { b with active := a } else b

/-- A finite sequence of `SetActive` calls, in order. -/
def Brick.SetActiveSeq (b : Brick F) (args : List Bool) : Brick F :=
  args.foldl Brick.SetActive b

/-! ## Ball -/

/-- Source: `Ball::Ball(renderer, texturePath, speed)`: velocity `(250, 250)`. -/
def Ball.new (speed : F) : Ball F :=
  { GameEntity.new speed with velX := 250, velY := 250 }

/-- Source: `Ball::SetVelocity`. -/
def Ball.SetVelocity (b : Ball F) (vx vy : F) : Ball F :=
  { b with velX := vx, velY := vy }

/-- Source: `Ball::ReverseVelX`. -/
def Ball.ReverseVelX (b : Ball F) : Ball F := { b with velX := -b.velX }

/-- Source: `Ball::ReverseVelY`. -/
def Ball.ReverseVelY (b : Ball F) : Ball F := { b with velY := -b.velY }

/-- Source: `ball->GetTransform()->move(x, y)`: move the Transform of the ball when it
has one. -/
def Ball.moveTransform (b : Ball F) (x y : F) : Ball F :=
  { b with transform := b.transform.map (fun r => TransformComponent.move r x y) }

/-- Source: `Ball::Update`: integrate, bounce off the top, left and right walls, move
the Transform, then sync the collider.  Without a Transform the call returns
at once. -/
def Ball.Update (b : Ball F) (deltaTime : F) : Ball F :=
  match b.transform with
  | none => b
  | some tr =>
    let w := tr.w
    let x0 := tr.x + b.velX * deltaTime
    let y0 := tr.y + b.velY * deltaTime
    -- if (y <= 0) { y = 0; velY = -velY; }
    let y1 := if y0 ≤ 0 then 0 else y0
    let velY1 := if y0 ≤ 0 then -b.velY else b.velY
    -- if (x <= 0) { x = 0; velX = -velX; }
    let x1 := if x0 ≤ 0 then 0 else x0
    let velX1 := if x0 ≤ 0 then -b.velX else b.velX
    -- if (x + w >= 1600) { x = 1600 - w; velX = -velX; }
    let x2 := if x1 + w ≥ 1600 then 1600 - w else x1
    let velX2 := if x1 + w ≥ 1600 then -velX1 else velX1
    let moved : GameEntity F :=
      { b.toGameEntity with transform := some (TransformComponent.move tr x2 y1) }
    { toGameEntity := Collision2DComponent.Update moved, velX := velX2, velY := velY1 }

/-! ## Drop and Paddle -/

/-- The constructor `Drop(renderer, texturePath, speed)`. -/
def Drop.new (speed : F) : Drop F :=
  { GameEntity.new speed with }

/-- Source: `Drop::Update`: fall by `mSpeed * deltaTime`, then sync the collider. -/
def Drop.Update (d : Drop F) (deltaTime : F) : Drop F :=
  match d.transform with
  | none => d
  | some tr =>
    let x := tr.x
    let y := tr.y + d.mSpeed * deltaTime
    let moved : GameEntity F :=
      { d.toGameEntity with transform := some (TransformComponent.move tr x y) }
    { toGameEntity := Collision2DComponent.Update moved }

/-- Source: `Paddle::Update`: estimate the velocity from the last x, store the
current x, then sync the collider. -/
def Paddle.Update (p : Paddle F) (deltaTime : F) : Paddle F :=
  let p1 : Paddle F :=
    match p.transform with
    | none => p
    | some tr =>
      let currentX := tr.x
      { p with instantaneousVelocity := (currentX - p.lastPosX) / deltaTime,
               lastPosX := currentX }
  { p1 with toGameEntity := Collision2DComponent.Update p1.toGameEntity }

/-! ## Rectangle intersection -/

/-- Modelled from the spec: `SDL_FRectEmpty` is a function of the SDL2 library,
whose body is not among the repository sources; a rectangle is empty when its
width or its height is not positive. -/
def SDL_FRectEmpty (r : SDL_FRect F) : Bool :=
  decide (r.w ≤ 0) || decide (r.h ≤ 0)

/-- Modelled from the spec: `SDL_HasIntersectionF` is a function of the SDL2
library, whose body is not among the repository sources.  It is the standard
rectangle-intersection test of the spec, in which touching edges do not count:
empty rectangles never intersect, and otherwise the two spans must overlap in
a span of positive length on each axis. -/
def SDL_HasIntersectionF (A B : SDL_FRect F) : Bool :=
  if SDL_FRectEmpty A || SDL_FRectEmpty B then false
  else
    -- horizontal intersection
    let Amin := A.x
    let Amax := Amin + A.w
    let Bmin := B.x
    let Bmax := Bmin + B.w
    let Amin := if Bmin > Amin then Bmin else Amin
    let Amax := if Bmax < Amax then Bmax else Amax
    if Amax ≤ Amin then false
    else
      -- vertical intersection
      let Amin := A.y
      let Amax := Amin + A.h
      let Bmin := B.y
      let Bmax := Bmin + B.h
      let Amin := if Bmin > Amin then Bmin else Amin
      let Amax := if Bmax < Amax then Bmax else Amax
      if Amax ≤ Amin then false else true

/-- Source: `GameEntity::TestCollision` on the two collision rectangles (both
colliders present). -/
def GameEntity.TestCollisionRects (thisRect thatRect : SDL_FRect F) : Bool :=
  !(decide (thatRect.x + thatRect.w ≤ thisRect.x) ||
    decide (thisRect.x + thisRect.w ≤ thatRect.x) ||
    decide (thatRect.y + thatRect.h ≤ thisRect.y) ||
    decide (thisRect.y + thisRect.h ≤ thatRect.y))

/-- Source: `GameEntity::TestCollision`: false when either collider is missing. -/
def GameEntity.TestCollision (e other : GameEntity F) : Bool :=
  match e.collider, other.collider with
  | some thisRect, some thatRect => GameEntity.TestCollisionRects thisRect thatRect
  | _, _ => false

/-! ## Scene.Update: the drop-vs-paddle pass (lines 188-224) -/

/-- The body of the spawning loop of `Scene::Update` for index `i`: a new ball
with the components of `initComponents`, moved to 20 units right of
`mBalls[i]` when that ball has a Transform, with velocity `(100, 100)`.  (An
index outside the list is not reached by the loop and is read like a ball
without a Transform.) -/
def Scene.spawnBall (host : Host F) (balls : List (Ball F)) (i : Nat) : Ball F :=
  let fresh : Ball F := Ball.new 250
  let newBall : Ball F :=
    { fresh with toGameEntity := GameEntity.initComponents fresh.toGameEntity host.ballTexture }
  let origBallTrans : Option (SDL_FRect F) := (balls[i]?).bind (fun b => b.transform)
  let newBall : Ball F :=
    match origBallTrans with
    | some origRect => newBall.moveTransform (origRect.x + 20) origRect.y
    | none => newBall
  newBall.SetVelocity 100 100

/-- The loop `for (size_t i = 0; i < currentBallCount; ++i)` from index `i`
with `remaining = currentBallCount - i` iterations left: each iteration reads
`mBalls[i]` and pushes the new ball at the back. -/
def Scene.spawnLoop (host : Host F) : Nat → Nat → List (Ball F) → List (Ball F)
  | 0, _, balls => balls
  | remaining + 1, i, balls =>
    Scene.spawnLoop host remaining (i + 1) (balls ++ [Scene.spawnBall host balls i])

/-- What one picked-up drop does to the ball list: `currentBallCount` is the
size of `mBalls` at this moment. -/
def Scene.spawnBalls (host : Host F) (balls : List (Ball F)) : List (Ball F) :=
  Scene.spawnLoop host balls.length 0 balls

/-- The scan `for (auto it = mDrops.begin(); it != mDrops.end();)` with the
iterator as an index `it` into the vector: an intersecting drop is erased in
place (`it = mDrops.erase(it)`, the index stays), any other drop is stepped
over (`++it`).  `fuel` bounds the number of iterations. -/
def Scene.dropLoop (host : Host F) (paddleRect : SDL_FRect F) :
    Nat → Nat → List (Drop F) → List (Ball F) → List (Drop F) × List (Ball F)
  | 0, _, drops, balls => (drops, balls)
  | fuel + 1, it, drops, balls =>
    match drops[it]? with
    | none => (drops, balls)
    | some drop =>
      match drop.transform with
      | none => Scene.dropLoop host paddleRect fuel (it + 1) drops balls
      | some dropRect =>
        if SDL_HasIntersectionF paddleRect dropRect then
          Scene.dropLoop host paddleRect fuel it (drops.eraseIdx it)
            (Scene.spawnBalls host balls)
        else
          Scene.dropLoop host paddleRect fuel (it + 1) drops balls

/-- The drop-vs-paddle pass of `Scene::Update`: nothing happens without a
paddle or without a collider on it; otherwise the scan runs from
`mDrops.begin()`.  Every iteration erases a drop or advances the iterator, so
`mDrops.size()` iterations are enough. -/
def Scene.dropVsPaddle (host : Host F) (s : Scene F) : Scene F :=
  match s.mPlayerPaddle with
  | none => s
  | some paddle =>
    match paddle.collider with
    | none => s
    | some paddleRect =>
      let r := Scene.dropLoop host paddleRect s.mDrops.length 0 s.mDrops s.mBalls
      { s with mDrops := r.1, mBalls := r.2 }

/-- Whether the scan removes the drop: it has a Transform whose rectangle
intersects the paddle rectangle. -/
def Scene.dropIsPicked (paddleRect : SDL_FRect F) (d : Drop F) : Bool :=
  match d.transform with
  | none => false
  | some dropRect => SDL_HasIntersectionF paddleRect dropRect

/-! ## Scene.Update: the ball-vs-brick pass (lines 231-299) -/

/-- The state the ball-vs-brick pass works on, for one ball: the ball, the
brick and drop containers, and the number of `rand()` calls made so far. -/
structure BrickScan (F : Type) where
  ball : Ball F
  bricks : List (Brick F)
  drops : List (Drop F)
  randCalls : Nat

/-- The result of the ball-vs-brick pass over a list of balls. -/
structure BrickPass (F : Type) where
  balls : List (Ball F)
  bricks : List (Brick F)
  drops : List (Drop F)
  randCalls : Nat

/-- The drop created at lines 255-260: speed 200, the components of
`initComponents`, moved to the position of the brick. -/
def Scene.newDrop (host : Host F) (brickRect : SDL_FRect F) : Drop F :=
  let fresh : Drop F := Drop.new 200
  let init : GameEntity F := GameEntity.initComponents fresh.toGameEntity host.dropTexture
  { toGameEntity :=
      { init with transform :=
          init.transform.map (fun r => TransformComponent.move r brickRect.x brickRect.y) } }

/-- Lines 248-262: a breakable brick is deactivated and one `rand()` draw
decides whether a drop is pushed on `mDrops`; an unbreakable brick is left
alone and no draw is made.  Returns the brick, the drops and the call
counter. -/
def Scene.breakBrick (host : Host F) (brick : Brick F) (brickRect : SDL_FRect F)
    (drops : List (Drop F)) (randCalls : Nat) : Brick F × List (Drop F) × Nat :=
  if !brick.IsUnbreakable then
    let brick1 := brick.SetActive false
    if host.rand randCalls % 100 < 30 then
      (brick1, drops ++ [Scene.newDrop host brickRect], randCalls + 1)
    else
      (brick1, drops, randCalls + 1)
  else
    (brick, drops, randCalls)

/-- The value `overlapX` of lines 264-269. -/
def Scene.overlapX (ballRect brickRect : SDL_FRect F) : F :=
  let ballRight := ballRect.x + ballRect.w
  let brickRight := brickRect.x + brickRect.w
  min ballRight brickRight - max ballRect.x brickRect.x

/-- The value `overlapY` of lines 266-270. -/
def Scene.overlapY (ballRect brickRect : SDL_FRect F) : F :=
  let ballBottom := ballRect.y + ballRect.h
  let brickBottom := brickRect.y + brickRect.h
  min ballBottom brickBottom - max ballRect.y brickRect.y

/-- Lines 264-295: push the ball out along the axis of the smaller overlap and
reverse that velocity component. -/
def Scene.bounceOffBrick (ball : Ball F) (ballRect brickRect : SDL_FRect F) : Ball F :=
  if Scene.overlapX ballRect brickRect < Scene.overlapY ballRect brickRect then
    (if ballRect.x < brickRect.x then
      ball.moveTransform (brickRect.x - ballRect.w - 1) ballRect.y
    else
      ball.moveTransform (brickRect.x + brickRect.w + 1) ballRect.y).ReverseVelX
  else
    (if ballRect.y < brickRect.y then
      ball.moveTransform ballRect.x (brickRect.y - ballRect.h - 1)
    else
      ball.moveTransform ballRect.x (brickRect.y + brickRect.h + 1)).ReverseVelY

/-- The inner loop `for (auto &brick : mBricks)` for one ball with rectangle
`ballRect`: inactive bricks and bricks without a Transform are skipped, the
first intersecting brick is resolved and the loop is left (`break`). -/
def Scene.scanBricks (host : Host F) (ball : Ball F) (ballRect : SDL_FRect F) :
    List (Brick F) → List (Drop F) → Nat → BrickScan F
  | [], drops, randCalls => ⟨ball, [], drops, randCalls⟩
  | brick :: rest, drops, randCalls =>
    let next := Scene.scanBricks host ball ballRect rest drops randCalls
    let skip : BrickScan F := { next with bricks := brick :: next.bricks }
    if !brick.IsActive then skip
    else
      match brick.transform with
      | none => skip
      | some brickRect =>
        if SDL_HasIntersectionF ballRect brickRect then
          let broken := Scene.breakBrick host brick brickRect drops randCalls
          ⟨Scene.bounceOffBrick ball ballRect brickRect, broken.1 :: rest,
            broken.2.1, broken.2.2⟩
        else skip

/-- The body of the outer loop `for (auto &ball : mBalls)`: a ball without a
Transform is skipped (`continue`). -/
def Scene.ballStep (host : Host F) (ball : Ball F) (bricks : List (Brick F))
    (drops : List (Drop F)) (randCalls : Nat) : BrickScan F :=
  match ball.transform with
  | none => ⟨ball, bricks, drops, randCalls⟩
  | some ballRect => Scene.scanBricks host ball ballRect bricks drops randCalls

/-- The ball-vs-brick pass of `Scene::Update`: the balls are taken in container
order, each one sees the bricks as the balls before it left them. -/
def Scene.ballVsBrick (host : Host F) :
    List (Ball F) → List (Brick F) → List (Drop F) → Nat → BrickPass F
  | [], bricks, drops, randCalls => ⟨[], bricks, drops, randCalls⟩
  | ball :: rest, bricks, drops, randCalls =>
    let one := Scene.ballStep host ball bricks drops randCalls
    let more := Scene.ballVsBrick host rest one.bricks one.drops one.randCalls
    { more with balls := one.ball :: more.balls }

/-- The test the scan applies to a brick for a ball with rectangle `ballRect`:
the brick is active, has a Transform, and its rectangle intersects
`ballRect`. -/
def Scene.brickIsHit (ballRect : SDL_FRect F) (brick : Brick F) : Bool :=
  brick.IsActive &&
    (match brick.transform with
     | none => false
     | some brickRect => SDL_HasIntersectionF ballRect brickRect)

/-- The number of positions at which a brick is active in `before` and
inactive in `after`. -/
def Scene.deactivated (before after : List (Brick F)) : Nat :=
  ((before.zip after).filter (fun p => p.1.active && !p.2.active)).length

/-- What the ball-vs-brick pass may do to one brick: nothing, or
`SetActive(false)`. -/
def Scene.BrickKept (before after : Brick F) : Prop :=
  after = before ∨ after = before.SetActive false

/-! ## Scene.Update: the ball-vs-paddle pass (lines 306-349) -/

/-- Lines 324-333: the deflection bias and the updated `rand()` call counter.
A paddle slower than 0.01 draws the side from `rand() % 2`, otherwise the
side is the sign of the paddle velocity. -/
def Scene.bias (host : Host F) (paddleVel : F) (randCalls : Nat) : Int × Nat :=
  if |paddleVel| < 1 / 100 then
    ((if host.rand randCalls % 2 = 0 then 1 else -1), randCalls + 1)
  else
    ((if paddleVel > 0 then 1 else -1), randCalls)

/-- Lines 334-345: turn the velocity of the ball by `sign * 10` degrees. -/
def Scene.deflect (cm : CMath F) (sign : Int) (ball : Ball F) : Ball F :=
  let offsetDeg : F := 10
  let offsetRad : F := offsetDeg * (cm.M_PI / 180)
  let vx := ball.velX
  let vy := ball.velY
  let speed := cm.sqrt (vx * vx + vy * vy)
  let currentAngle := cm.atan2 vy vx
  let newAngle := currentAngle + (sign : F) * offsetRad
  ball.SetVelocity (speed * cm.cos newAngle) (speed * cm.sin newAngle)

/-- The body of the loop of the ball-vs-paddle pass (lines 314-346) for one
ball: returns the ball and the `rand()` call counter. -/
def Scene.paddleStep (host : Host F) (paddleVel : F) (paddleRect : SDL_FRect F)
    (ball : Ball F) (randCalls : Nat) : Ball F × Nat :=
  match ball.transform with
  | none => (ball, randCalls)
  | some ballRect =>
    if SDL_HasIntersectionF ballRect paddleRect then
      let newY := paddleRect.y - ballRect.h - 1
      let moved := (ball.moveTransform ballRect.x newY).ReverseVelY
      let side := Scene.bias host paddleVel randCalls
      (Scene.deflect host.cmath side.1 moved, side.2)
    else (ball, randCalls)

/-- The loop `for (auto &ball : mBalls)` of the ball-vs-paddle pass. -/
def Scene.paddleLoop (host : Host F) (paddleVel : F) (paddleRect : SDL_FRect F) :
    List (Ball F) → Nat → List (Ball F) × Nat
  | [], randCalls => ([], randCalls)
  | ball :: rest, randCalls =>
    let one := Scene.paddleStep host paddleVel paddleRect ball randCalls
    let more := Scene.paddleLoop host paddleVel paddleRect rest one.2
    (one.1 :: more.1, more.2)

/-- The ball-vs-paddle pass of `Scene::Update`: nothing happens without a
paddle or without a collider on it. -/
def Scene.ballVsPaddle (host : Host F) (s : Scene F) (randCalls : Nat) : Scene F × Nat :=
  match s.mPlayerPaddle with
  | none => (s, randCalls)
  | some paddle =>
    match paddle.collider with
    | none => (s, randCalls)
    | some paddleRect =>
      let r := Scene.paddleLoop host paddle.instantaneousVelocity paddleRect s.mBalls randCalls
      ({ s with mBalls := r.1 }, r.2)

/-! ## Scene.Update: cleanup, termination check, and the whole frame -/

/-- The cleanup scan of lines 351-362, with the iterator as an index: a ball
whose Transform has `y > 1000` is erased in place, any other ball is stepped
over.  `fuel` bounds the number of iterations. -/
def Scene.cleanupLoop : Nat → Nat → List (Ball F) → List (Ball F)
  | 0, _, balls => balls
  | fuel + 1, it, balls =>
    match balls[it]? with
    | none => balls
    | some ball =>
      match ball.transform with
      | none => Scene.cleanupLoop fuel (it + 1) balls
      | some tr =>
        if tr.y > 1000 then Scene.cleanupLoop fuel it (balls.eraseIdx it)
        else Scene.cleanupLoop fuel (it + 1) balls

/-- Lines 371-379: `allCleared` stays true unless some brick is active and
breakable. -/
def Scene.allCleared : List (Brick F) → Bool
  | [] => true
  | brick :: rest =>
    if brick.IsActive && !brick.IsUnbreakable then false else Scene.allCleared rest

/-- How a call of `Scene::Update` ends: the process exits with the game-over
message (`exit(0)`), or the call returns with a scene and the number of
`rand()` calls made so far. -/
inductive Outcome (F : Type) where
  | gameOver : Outcome F
  | running : Scene F → Nat → Outcome F

/-- Source: `Scene::Update`. -/
def Scene.Update (host : Host F) (s : Scene F) (randCalls : Nat) (deltaTime : F) :
    Outcome F :=
  -- lines 180-186: paddle and drops
  let s1 : Scene F :=
    { s with mPlayerPaddle := s.mPlayerPaddle.map (fun p => p.Update deltaTime) }
  let s2 : Scene F := { s1 with mDrops := s1.mDrops.map (fun d => d.Update deltaTime) }
  -- lines 188-224: drop-vs-paddle pass
  let s3 := Scene.dropVsPaddle host s2
  -- lines 226-229: first ball motion pass
  let s4 : Scene F := { s3 with mBalls := s3.mBalls.map (fun b => b.Update deltaTime) }
  -- lines 231-299: ball-vs-brick pass
  let bp := Scene.ballVsBrick host s4.mBalls s4.mBricks s4.mDrops randCalls
  let s5 : Scene F := { s4 with mBalls := bp.balls, mBricks := bp.bricks, mDrops := bp.drops }
  -- lines 301-304: second ball motion pass
  let s6 : Scene F := { s5 with mBalls := s5.mBalls.map (fun b => b.Update deltaTime) }
  -- lines 306-349: ball-vs-paddle pass
  let pp := Scene.ballVsPaddle host s6 bp.randCalls
  -- lines 351-362: cleanup
  let s8 : Scene F :=
    { pp.1 with mBalls := Scene.cleanupLoop pp.1.mBalls.length 0 pp.1.mBalls }
  -- lines 364-369: game over
  if s8.mBalls.isEmpty then Outcome.gameOver
  else if Scene.allCleared s8.mBricks then
    -- lines 380-384
    Outcome.running { s8 with mBalls := [], mSceneIsActive := false } pp.2
  else
    Outcome.running s8 pp.2

/-! ## Scene.Update by stages -/

/-- Source: `GameEntity::getX`: the x of the Transform, or 0 without one. -/
def GameEntity.getX (e : GameEntity F) : F :=
  match e.transform with
  | some tex => tex.x
  | none => 0

/-- Source: `GameEntity::getY`: the y of the Transform, or 0 without one. -/
def GameEntity.getY (e : GameEntity F) : F :=
  match e.transform with
  | some tex => tex.y
  | none => 0

/-- The scene of `Scene::Update` after line 229: paddle and drops updated, the
drop-vs-paddle pass done, the balls moved once. -/
def Scene.firstMotion (host : Host F) (s : Scene F) (deltaTime : F) : Scene F :=
  let s1 : Scene F :=
    { s with mPlayerPaddle := s.mPlayerPaddle.map (fun p => p.Update deltaTime) }
  let s2 : Scene F := { s1 with mDrops := s1.mDrops.map (fun d => d.Update deltaTime) }
  let s3 := Scene.dropVsPaddle host s2
  { s3 with mBalls := s3.mBalls.map (fun b => b.Update deltaTime) }

/-- The scene and the `rand()` call counter of `Scene::Update` after line 349:
the ball-vs-brick pass, the second ball motion pass and the ball-vs-paddle
pass done. -/
def Scene.passes (host : Host F) (s : Scene F) (randCalls : Nat) (deltaTime : F) :
    Scene F × Nat :=
  let s4 := Scene.firstMotion host s deltaTime
  let bp := Scene.ballVsBrick host s4.mBalls s4.mBricks s4.mDrops randCalls
  let s5 : Scene F := { s4 with mBalls := bp.balls, mBricks := bp.bricks, mDrops := bp.drops }
  let s6 : Scene F := { s5 with mBalls := s5.mBalls.map (fun b => b.Update deltaTime) }
  Scene.ballVsPaddle host s6 bp.randCalls

/-- The scene and the call counter of `Scene::Update` after the cleanup step
(line 362), before the termination checks. -/
def Scene.afterCleanup (host : Host F) (s : Scene F) (randCalls : Nat) (deltaTime : F) :
    Scene F × Nat :=
  let pp := Scene.passes host s randCalls deltaTime
  ({ pp.1 with mBalls := Scene.cleanupLoop pp.1.mBalls.length 0 pp.1.mBalls }, pp.2)

/-- The termination checks of lines 364-384 on the scene left by the cleanup
step. -/
def Scene.finish (st : Scene F × Nat) : Outcome F :=
  if st.1.mBalls.isEmpty then Outcome.gameOver
  else if Scene.allCleared st.1.mBricks then
    Outcome.running { st.1 with mBalls := [], mSceneIsActive := false } st.2
  else
    Outcome.running st.1 st.2

/-- Whether the cleanup step removes the ball: it has a Transform with
`y > 1000`. -/
def Scene.ballIsOut (b : Ball F) : Bool :=
  match b.transform with
  | none => false
  | some tr => decide (tr.y > 1000)

/-- The collider of the entity, when it has one and a Transform, equals the
Transform rectangle. -/
def GameEntity.Synced (e : GameEntity F) : Prop :=
  ∀ c t, e.collider = some c → e.transform = some t → c = t

/-- The scene and the `rand()` call counter of `Scene::Update` after line 304:
the ball-vs-brick pass and the second ball motion pass done, the
ball-vs-paddle pass not yet. -/
def Scene.secondMotion (host : Host F) (s : Scene F) (randCalls : Nat) (deltaTime : F) :
    Scene F × Nat :=
  let s4 := Scene.firstMotion host s deltaTime
  let bp := Scene.ballVsBrick host s4.mBalls s4.mBricks s4.mDrops randCalls
  let s5 : Scene F := { s4 with mBalls := bp.balls, mBricks := bp.bricks, mDrops := bp.drops }
  ({ s5 with mBalls := s5.mBalls.map (fun b => b.Update deltaTime) }, bp.randCalls)

/-- Whether the ball-vs-paddle pass (lines 306-349) repositions the ball: there
is a paddle with a collider, the ball has a Transform, and the rectangle of
the ball intersects the rectangle of the paddle collider. -/
def Scene.ballIsRepositioned (paddle : Option (Paddle F)) (ball : Ball F) : Bool :=
  match paddle with
  | none => false
  | some p =>
    match p.collider with
    | none => false
    | some paddleRect =>
      match ball.transform with
      | none => false
      | some ballRect => SDL_HasIntersectionF ballRect paddleRect

/-! ## Paddle input -/

/-- Source: `Paddle::Input`, which hands over to `InputComponent::Input` of the
paddle's InputComponent (speed `mSpeed`, owner the paddle).  `left` stands for
`keystate[SDL_SCANCODE_A] || keystate[SDL_SCANCODE_LEFT]` and `right` for
`keystate[SDL_SCANCODE_D] || keystate[SDL_SCANCODE_RIGHT]`. -/
def Paddle.Input (p : Paddle F) (left right : Bool) (deltaTime : F) : Paddle F :=
  match p.input with
  | none => p
  | some mSpeed =>
    match p.transform with
    | none => p
    | some tr =>
      let posX0 := tr.x
      -- if (A || LEFT) { posX -= mSpeed * deltaTime; dir = -1; }
      let posX1 := if left then posX0 - mSpeed * deltaTime else posX0
      let dir1 : Int := if left then -1 else 0
      -- if (D || RIGHT) { posX += mSpeed * deltaTime; dir = 1; }
      let posX2 := if right then posX1 + mSpeed * deltaTime else posX1
      let dir2 : Int := if right then 1 else dir1
      let windowWidth : F := 1600
      let paddleWidth := tr.w
      let posX3 := if posX2 < 0 then 0 else posX2
      let posX4 :=
        if posX3 > windowWidth - paddleWidth then windowWidth - paddleWidth else posX3
      { p with transform := some (TransformComponent.move tr posX4 tr.y),
               xPositiveDirection := dir2 }

/-- Source: `Scene::Input`. -/
def Scene.Input (s : Scene F) (left right : Bool) (deltaTime : F) : Scene F :=
  { s with mPlayerPaddle := s.mPlayerPaddle.map (fun p => p.Input left right deltaTime) }

/-! ## The base entity update -/

/-- Source: `GameEntity::Update`: move the Transform horizontally by
`xPositiveDirection * mSpeed * deltaTime` when there is one, then sync the
collider. -/
def GameEntity.Update (e : GameEntity F) (deltaTime : F) : GameEntity F :=
  let e1 : GameEntity F :=
    match e.transform with
    | none => e
    | some tex =>
      let newX := tex.x + (e.xPositiveDirection : F) * e.mSpeed * deltaTime
      { e with transform := some (TransformComponent.move tex newX tex.y) }
  Collision2DComponent.Update e1

/-! ## Scene.LoadFromFile -/

/-- What `Scene::LoadFromFile` takes from outside the repository: the sizes
`(w, h)` of the four textures, and the stream extraction of the C++ library
on a line: `entityType line` is the token read by `iss >> entityType`, and
`numbers line n` the `n` values read by the `n` extractions `iss >> x >> ...`
that follow, or `none` when one of them fails. -/
structure Loader (F : Type) where
  paddleTexture : F × F
  ballTexture : F × F
  brickTexture : F × F
  unbrickTexture : F × F
  entityType : String → String
  numbers : String → Nat → Option (List F)

/-- The paddle made by a `PADDLE x y` line: speed 500, the components of
`initComponents`, an InputComponent of speed 300, moved to `(x, y)`. -/
def Scene.loadPaddle (ld : Loader F) (x y : F) : Paddle F :=
  let e : GameEntity F := GameEntity.initComponents (GameEntity.new 500) ld.paddleTexture
  { toGameEntity :=
      { e with transform := e.transform.map (fun r => TransformComponent.move r x y) },
    lastPosX := 0, instantaneousVelocity := 0, input := some 300 }

/-- The ball made by a `BALL x y vX vY` line. -/
def Scene.loadBall (ld : Loader F) (x y vX vY : F) : Ball F :=
  let fresh : Ball F := Ball.new 250
  let ball : Ball F :=
    { fresh with toGameEntity := GameEntity.initComponents fresh.toGameEntity ld.ballTexture }
  (ball.moveTransform x y).SetVelocity vX vY

/-- The brick made by a `BRICK x y` or `UNBRICK x y` line from a texture of
size `tex`: active, moved to `(x, y)`, its Transform scaled by 1.5 in width
and height; the collider stays the one of `initComponents`. -/
def Scene.loadBrick (tex : F × F) (unbreakable : Bool) (x y : F) : Brick F :=
  let e : GameEntity F := GameEntity.initComponents (GameEntity.new 0) tex
  { toGameEntity :=
      { e with transform := e.transform.map (fun r =>
          let moved := TransformComponent.move r x y
          { moved with w := moved.w * (3 / 2), h := moved.h * (3 / 2) }) },
    active := true, unbreakable := unbreakable }

/-- The body of the loop `while (std::getline(infile, line))` of
`Scene::LoadFromFile` for one line. -/
def Scene.loadLine (ld : Loader F) (s : Scene F) (line : String) : Scene F :=
  if line.isEmpty || line.front == '#' then s
  else
    let entityType := ld.entityType line
    if entityType = "PADDLE" then
      match ld.numbers line 2 with
      | some [x, y] => { s with mPlayerPaddle := some (Scene.loadPaddle ld x y) }
      | _ => s
    else if entityType = "BALL" then
      match ld.numbers line 4 with
      | some [x, y, vX, vY] => { s with mBalls := s.mBalls ++ [Scene.loadBall ld x y vX vY] }
      | _ => s
    else if entityType = "BRICK" then
      match ld.numbers line 2 with
      | some [x, y] =>
        { s with mBricks := s.mBricks ++ [Scene.loadBrick ld.brickTexture false x y] }
      | _ => s
    else if entityType = "UNBRICK" then
      match ld.numbers line 2 with
      | some [x, y] =>
        { s with mBricks := s.mBricks ++ [Scene.loadBrick ld.unbrickTexture true x y] }
      | _ => s
    else s

/-- Source: `Scene::LoadFromFile`: the containers are emptied, then the lines
of the file are taken in order; `file = none` is a file that cannot be
opened. -/
def Scene.LoadFromFile (ld : Loader F) (s : Scene F) (file : Option (List String)) :
    Scene F :=
  let s0 : Scene F := { s with mPlayerPaddle := none, mBalls := [], mBricks := [], mDrops := [] }
  match file with
  | none => s0
  | some lines => lines.foldl (Scene.loadLine ld) s0

/-- A line that carries no entity: empty, starting with `#`, with an
unrecognised keyword, or with a recognised keyword and a failing extraction
of its numbers. -/
def Scene.lineIsSkipped (ld : Loader F) (line : String) : Bool :=
  line.isEmpty || line.front == '#' ||
    (if ld.entityType line = "PADDLE" ∨ ld.entityType line = "BRICK" ∨
        ld.entityType line = "UNBRICK" then (ld.numbers line 2).isNone
     else if ld.entityType line = "BALL" then (ld.numbers line 4).isNone
     else true)

/-! ## Application.update -/

/-- The state of `class Application` that `Application::update` uses. -/
structure Application (F : Type) where
  mScenes : List (Scene F)
  mCurrentSceneIndex : Nat
  mRun : Bool

/-- How a call of `Application::update` ends: the process exits inside
`Scene::Update` (game over), or the call returns. -/
inductive AppOutcome (F : Type) where
  | exited : AppOutcome F
  | returned : Application F → Nat → AppOutcome F

/-- Source: `Application::update`.  (An index outside the scene list is not
reached while `mCurrentSceneIndex < mScenes.size()`; the call is then read as
doing nothing.) -/
def Application.update (host : Host F) (app : Application F) (randCalls : Nat)
    (deltaTime : F) : AppOutcome F :=
  if app.mScenes.isEmpty then AppOutcome.returned app randCalls
  else
    match app.mScenes[app.mCurrentSceneIndex]? with
    | none => AppOutcome.returned app randCalls
    | some scene =>
      match Scene.Update host scene randCalls deltaTime with
      | Outcome.gameOver => AppOutcome.exited
      | Outcome.running scene1 randCalls1 =>
        let app1 : Application F :=
          { app with mScenes := app.mScenes.set app.mCurrentSceneIndex scene1 }
        if !scene1.mSceneIsActive then
          if app.mCurrentSceneIndex + 1 < app.mScenes.length then
            AppOutcome.returned
              { app1 with mCurrentSceneIndex := app.mCurrentSceneIndex + 1 } randCalls1
          else
            AppOutcome.returned { app1 with mRun := false } randCalls1
        else
          AppOutcome.returned app1 randCalls1

end Model

/-! ## The component map of an entity -/

section Components

variable {K C : Type} [DecidableEq K]

/-- The map `std::map<ComponentType, std::shared_ptr<Component>> mComponents`
as a list of entries.  `K` is the enumeration `ComponentType` (its header is
not among the sources) and `C` the type of the component pointers. -/
abbrev ComponentMap (K C : Type) := List (K × C)

/-- The lookup `mComponents.find(type)`: the first entry under the key. -/
def ComponentMap.find (m : ComponentMap K C) (type : K) : Option C :=
  match m with
  | [] => none
  | (k, c) :: rest => if k = type then some c else ComponentMap.find rest type

/-- The assignment `mComponents[type] = comp`: the entry under the key is
overwritten, or a new entry is made when there is none. -/
def ComponentMap.assign (m : ComponentMap K C) (type : K) (comp : C) : ComponentMap K C :=
  match m with
  | [] => [(type, comp)]
  | (k, c) :: rest =>
    if k = type then (type, comp) :: rest
    else (k, c) :: ComponentMap.assign rest type comp

/-- Source: `GameEntity::AddComponent`: the component is stored under
`comp->GetType()`.  (`SetGameEntity` writes the owner link inside the
component and leaves the map alone.) -/
def GameEntity.AddComponent (GetType : C → K) (m : ComponentMap K C) (comp : C) :
    ComponentMap K C :=
  ComponentMap.assign m (GetType comp) comp

/-- Source: `GameEntity::GetComponent<T>(type)`: the entry found under `type`,
cast to `T` (`isT c` says that the cast of `c` succeeds), or `nullptr`. -/
def GameEntity.GetComponent (isT : C → Bool) (m : ComponentMap K C) (type : K) : Option C :=
  match ComponentMap.find m type with
  | some c => if isT c then some c else none
  | none => none

/-- The number of entries of the map stored under the key. -/
def ComponentMap.countKind (m : ComponentMap K C) (type : K) : Nat :=
  (m.filter (fun e => decide (e.1 = type))).length

end Components

/-! ## The math library over the real numbers -/

/-- The C function `atan2(y, x)` over the real numbers: the angle of the point
`(x, y)` in `(-π, π]`, and `0` at the origin. -/
noncomputable def realAtan2 (y x : ℝ) : ℝ := Complex.arg ⟨x, y⟩

/-- The functions of `<cmath>` over the real numbers. -/
noncomputable def realCMath : CMath ℝ :=
  { sqrt := Real.sqrt, atan2 := realAtan2, cos := Real.cos, sin := Real.sin,
    M_PI := Real.pi }

/-- A rational stand-in for the math library, for running the passes that do
not depend on it. -/
def ratCMath : CMath ℚ :=
  { sqrt := fun v => v, atan2 := fun _ _ => 0, cos := fun _ => 1, sin := fun _ => 0,
    M_PI := 22 / 7 }

/-! ## Example data -/

/-- A host for the examples: every `rand()` call returns 0, the ball texture
is 20 by 20 and the drop texture 16 by 16. -/
def exHost : Host ℚ :=
  { cmath := ratCMath, rand := fun _ => 0, ballTexture := (20, 20), dropTexture := (16, 16) }

/-- An entity with the given rectangle as Transform and as collider. -/
def exEntity (r : SDL_FRect ℚ) (speed : ℚ) : GameEntity ℚ :=
  { transform := some r, collider := some r, mSpeed := speed, xPositiveDirection := 1 }

/-- A ball with the given rectangle and velocity. -/
def exBall (r : SDL_FRect ℚ) (vx vy : ℚ) : Ball ℚ :=
  { exEntity r 250 with velX := vx, velY := vy }

/-- A brick with the given rectangle. -/
def exBrick (r : SDL_FRect ℚ) (active unbreakable : Bool) : Brick ℚ :=
  { exEntity r 0 with active := active, unbreakable := unbreakable }

/-- A drop with the given rectangle. -/
def exDrop (r : SDL_FRect ℚ) : Drop ℚ :=
  { exEntity r 200 with }

/-- A paddle at (700, 900) of size 100 by 20, at rest. -/
def exPaddle : Paddle ℚ :=
  { exEntity ⟨700, 900, 100, 20⟩ 500 with
    lastPosX := 700, instantaneousVelocity := 0, input := some 300 }

/-- A scene with one ball and two drops that both overlap the paddle. -/
def exSceneTwoDrops : Scene ℚ :=
  { mPlayerPaddle := some exPaddle,
    mBalls := [exBall ⟨700, 500, 20, 20⟩ 0 250],
    mBricks := [],
    mDrops := [exDrop ⟨710, 895, 16, 16⟩, exDrop ⟨750, 890, 16, 16⟩],
    mSceneIsActive := true }

/-- A scene with four drops: two overlapping the paddle, one resting on its top
edge, and one far above it. -/
def exSceneFourDrops : Scene ℚ :=
  { mPlayerPaddle := some exPaddle,
    mBalls := [exBall ⟨700, 500, 20, 20⟩ 0 250],
    mBricks := [],
    mDrops := [exDrop ⟨710, 895, 16, 16⟩, exDrop ⟨750, 890, 16, 16⟩,
               exDrop ⟨720, 884, 16, 16⟩, exDrop ⟨100, 300, 16, 16⟩],
    mSceneIsActive := true }

/-- Three bricks: an inactive one, then two active breakable ones that
overlap each other in x. -/
def exBricks : List (Brick ℚ) :=
  [exBrick ⟨90, 100, 90, 45⟩ false false, exBrick ⟨100, 100, 90, 45⟩ true false,
   exBrick ⟨110, 100, 90, 45⟩ true false]

/-- A scene whose only ball is about to fall below y = 1000 and whose only
brick, a breakable one, is already inactive. -/
def exSceneFalling : Scene ℚ :=
  { mPlayerPaddle := some exPaddle,
    mBalls := [exBall ⟨100, 999, 20, 20⟩ 0 250],
    mBricks := [exBrick ⟨700, 100, 90, 45⟩ false false],
    mDrops := [],
    mSceneIsActive := true }

/-- The same scene with three balls about to fall below y = 1000. -/
def exSceneThreeFalling : Scene ℚ :=
  { exSceneFalling with
    mBalls := [exBall ⟨100, 999, 20, 20⟩ 0 250, exBall ⟨200, 999, 20, 20⟩ 0 250,
               exBall ⟨300, 999, 20, 20⟩ 0 250] }

/-- A scene with a ball in free flight, an inactive breakable brick and an
active unbreakable brick. -/
def exSceneWon : Scene ℚ :=
  { mPlayerPaddle := some exPaddle,
    mBalls := [exBall ⟨100, 500, 20, 20⟩ 0 250],
    mBricks := [exBrick ⟨700, 100, 90, 45⟩ false false, exBrick ⟨800, 100, 90, 45⟩ true true],
    mDrops := [],
    mSceneIsActive := true }

/-- A brick as `LoadFromFile` leaves it: the Transform moved to (500, 100) and
scaled to 90 by 45, the collider still the `(0, 0, 60, 30)` of
`initComponents`. -/
def exLoadedBrick : Brick ℚ :=
  { transform := some ⟨500, 100, 90, 45⟩, collider := some ⟨0, 0, 60, 30⟩, mSpeed := 0,
    xPositiveDirection := 1, active := true, unbreakable := false }

/-- A scene with two balls moving up, the first just below a breakable brick,
the second just below an unbreakable one, and a third brick out of reach. -/
def exSceneBreak : Scene ℚ :=
  { mPlayerPaddle := some exPaddle,
    mBalls := [exBall ⟨120, 149, 20, 20⟩ 0 (-300), exBall ⟨320, 149, 20, 20⟩ 0 (-300)],
    mBricks := [exBrick ⟨100, 100, 90, 45⟩ true false, exBrick ⟨300, 100, 90, 45⟩ true true,
                exLoadedBrick],
    mDrops := [],
    mSceneIsActive := true }

/-- A scene with a ball in free flight, an active breakable brick out of reach
and a falling drop away from the paddle. -/
def exSceneFree : Scene ℚ :=
  { mPlayerPaddle := some exPaddle,
    mBalls := [exBall ⟨100, 500, 20, 20⟩ 60 120],
    mBricks := [exBrick ⟨700, 100, 90, 45⟩ true false],
    mDrops := [exDrop ⟨300, 200, 16, 16⟩],
    mSceneIsActive := true }

/-- A scene with four balls, two breakable bricks and a falling drop: the
first ball is about to fall below y = 1000, the second comes down onto the
paddle, the third is just below the first brick and moves up, the fourth is
in free flight. -/
def exSceneMixed : Scene ℚ :=
  { mPlayerPaddle := some exPaddle,
    mBalls := [exBall ⟨100, 998, 20, 20⟩ 0 250, exBall ⟨720, 878, 20, 20⟩ 0 120,
               exBall ⟨120, 149, 20, 20⟩ 0 (-300), exBall ⟨100, 500, 20, 20⟩ 60 120],
    mBricks := [exBrick ⟨100, 100, 90, 45⟩ true false, exBrick ⟨700, 100, 90, 45⟩ true false],
    mDrops := [exDrop ⟨300, 200, 16, 16⟩],
    mSceneIsActive := true }

/-- A loader for the examples: paddle texture 100 by 20, ball 20 by 20, bricks
60 by 30, and the extraction results of the lines of `exFile` given as a
table. -/
def exLoader : Loader ℚ :=
  { paddleTexture := (100, 20), ballTexture := (20, 20), brickTexture := (60, 30),
    unbrickTexture := (60, 30),
    entityType := fun line =>
      if line = "PADDLE 700 900" then "PADDLE"
      else if line = "BALL 700 500 0 250" then "BALL"
      else if line = "BALL 700 500" then "BALL"
      else if line = "BRICK 700 100" then "BRICK"
      else if line = "UNBRICK 800 100" then "UNBRICK"
      else if line = "STAR 1 2" then "STAR"
      else "",
    numbers := fun line n =>
      if line = "PADDLE 700 900" ∧ n = 2 then some [700, 900]
      else if line = "BALL 700 500 0 250" ∧ n = 4 then some [700, 500, 0, 250]
      else if line = "BRICK 700 100" ∧ n = 2 then some [700, 100]
      else if line = "UNBRICK 800 100" ∧ n = 2 then some [800, 100]
      else none }

/-- A scene file with well-formed lines only. -/
def exFileClean : List String :=
  ["PADDLE 700 900", "BALL 700 500 0 250", "BRICK 700 100", "UNBRICK 800 100"]

/-- The same file with a comment, an empty line, an unknown keyword and a
`BALL` line that lacks its velocity put in between. -/
def exFile : List String :=
  ["# level 1", "PADDLE 700 900", "", "BALL 700 500 0 250", "BALL 700 500", "BRICK 700 100",
   "STAR 1 2", "UNBRICK 800 100"]

/-- An empty scene, as the constructor `Scene()` leaves it. -/
def exEmptyScene : Scene ℚ :=
  { mPlayerPaddle := none, mBalls := [], mBricks := [], mDrops := [], mSceneIsActive := true }

/-- An application on two scenes, at the first one. -/
def exApp : Application ℚ :=
  { mScenes := [exSceneWon, exSceneFree], mCurrentSceneIndex := 0, mRun := true }

/-- A host over the real numbers, with the real math library. -/
noncomputable def exRealHost : Host ℝ :=
  { cmath := realCMath, rand := fun _ => 0, ballTexture := (20, 20), dropTexture := (16, 16) }

/-- A scene over the real numbers: a paddle at (700, 900) of size 100 by 20
moving right, a ball overlapping it and a ball far above it. -/
noncomputable def exRealScene : Scene ℝ :=
  { mPlayerPaddle := some
      { transform := some ⟨700, 900, 100, 20⟩, collider := some ⟨700, 900, 100, 20⟩,
        mSpeed := 500, xPositiveDirection := 1, lastPosX := 695,
        instantaneousVelocity := 300, input := some 300 },
    mBalls :=
      [{ transform := some ⟨720, 890, 20, 20⟩, collider := some ⟨720, 890, 20, 20⟩,
         mSpeed := 250, xPositiveDirection := 1, velX := 30, velY := 40 },
       { transform := some ⟨100, 200, 20, 20⟩, collider := some ⟨100, 200, 20, 20⟩,
         mSpeed := 250, xPositiveDirection := 1, velX := 0, velY := 250 }],
    mBricks := [],
    mDrops := [],
    mSceneIsActive := true }

/-! ## Properties -/

section Properties

variable {F : Type} [LinearOrderedField F]

/-! ### Brick.SetActive -/

@[simp] theorem Brick.SetActive_unbreakable_flag (b : Brick F) (a : Bool) :
    (b.SetActive a).unbreakable = b.unbreakable := by
  unfold Brick.SetActive
  split <;> rfl

theorem Brick.SetActive_of_unbreakable (b : Brick F) (a : Bool)
    (h : b.unbreakable = true) : b.SetActive a = b := by
  simp [Brick.SetActive, h]

theorem Brick.SetActiveSeq_of_unbreakable (b : Brick F) (args : List Bool)
    (h : b.unbreakable = true) : b.SetActiveSeq args = b := by
  induction args with
  | nil => rfl
  | cons a rest ih =>
    simp only [Brick.SetActiveSeq, List.foldl_cons] at ih ⊢
    rw [Brick.SetActive_of_unbreakable b a h]
    exact ih

/-- C4: on an unbreakable brick every finite sequence of `SetActive` calls
leaves the brick, hence `IsActive()`, as it was (an active one stays active);
a single `SetActive(a)` leaves the active flag of an unbreakable brick
unchanged and sets the flag of a breakable brick to `a`. -/
theorem C4_setActive_unbreakable_noop (b : Brick F) :
    (∀ args : List Bool, b.IsUnbreakable = true → b.IsActive = true →
        (b.SetActiveSeq args).IsActive = true) ∧
    (∀ n : Nat, b.IsUnbreakable = true → b.IsActive = true →
        (b.SetActiveSeq (List.replicate n false)).IsActive = true) ∧
    (∀ a : Bool, b.IsUnbreakable = true → (b.SetActive a).IsActive = b.IsActive) ∧
    (∀ a : Bool, b.IsUnbreakable = false → (b.SetActive a).IsActive = a) := by
  refine ⟨?_, ?_, ?_, ?_⟩
  · intro args hu ha
    rw [Brick.SetActiveSeq_of_unbreakable b args hu]
    exact ha
  · intro n hu ha
    rw [Brick.SetActiveSeq_of_unbreakable b _ hu]
    exact ha
  · intro a hu
    rw [Brick.SetActive_of_unbreakable b a hu]
  · intro a hu
    simp only [Brick.IsUnbreakable] at hu
    simp [Brick.SetActive, Brick.IsActive, hu]

/-- Witness of C4 on an unbreakable active brick and on a breakable one. -/
theorem C4_setActive_unbreakable_noop_witness :
    ((⟨⟨none, none, 0, 1⟩, true, true⟩ : Brick ℚ).SetActiveSeq
        [false, true, false, false]).IsActive = true ∧
    ((⟨⟨none, none, 0, 1⟩, true, true⟩ : Brick ℚ).SetActive false).IsActive = true ∧
    ((⟨⟨none, none, 0, 1⟩, true, false⟩ : Brick ℚ).SetActive false).IsActive = false :=
  ⟨(C4_setActive_unbreakable_noop _).1 [false, true, false, false] rfl rfl,
   (C4_setActive_unbreakable_noop (⟨⟨none, none, 0, 1⟩, true, true⟩ : Brick ℚ)).2.2.1
      false rfl,
   (C4_setActive_unbreakable_noop (⟨⟨none, none, 0, 1⟩, true, false⟩ : Brick ℚ)).2.2.2
      false rfl⟩

/-! ### Ball.Update -/

theorem Ball.Update_of_transform (b : Ball F) (tr : SDL_FRect F) (dt : F)
    (htr : b.transform = some tr) :
    b.Update dt =
      { toGameEntity := Collision2DComponent.Update
          { b.toGameEntity with transform := some (TransformComponent.move tr
              (if (if tr.x + b.velX * dt ≤ 0 then 0 else tr.x + b.velX * dt) + tr.w ≥ 1600
                then 1600 - tr.w
                else (if tr.x + b.velX * dt ≤ 0 then 0 else tr.x + b.velX * dt))
              (if tr.y + b.velY * dt ≤ 0 then 0 else tr.y + b.velY * dt)) },
        velX := if (if tr.x + b.velX * dt ≤ 0 then 0 else tr.x + b.velX * dt) + tr.w ≥ 1600
                then -(if tr.x + b.velX * dt ≤ 0 then -b.velX else b.velX)
                else (if tr.x + b.velX * dt ≤ 0 then -b.velX else b.velX),
        velY := if tr.y + b.velY * dt ≤ 0 then -b.velY else b.velY } := by
  unfold Ball.Update
  rw [htr]

theorem Collision2DComponent.Update_transform (e : GameEntity F) :
    (Collision2DComponent.Update e).transform = e.transform := by
  unfold Collision2DComponent.Update
  split
  · rfl
  · split <;> rfl

/-- C8: `Ball.Update` on a ball with a Transform of width `w < 1600` (so also
for `0 < w < 1600`; the lower bound is not needed).
With `x1 = x + vx*dt` and `y1 = y + vy*dt`: the size is kept; `y1 ≤ 0` gives
`y' = 0`, `vy' = -vy`, else `y' = y1`, `vy' = vy`; `x1 ≤ 0` gives `x' = 0`,
`vx' = -vx`; `x1 + w ≥ 1600` gives `x' = 1600 - w`, `vx' = -vx`; otherwise
`x' = x1`, `vx' = vx`.  In particular a ball at `x = 0` with `vx < 0` and
`dt ≥ 0` ends at `x' = 0` with `vx' = -vx`. -/
theorem C8_ball_update_walls (b : Ball F) (tr : SDL_FRect F) (dt : F)
    (htr : b.transform = some tr) (hw : tr.w < 1600) :
    ∃ tr' : SDL_FRect F, (b.Update dt).transform = some tr' ∧
      tr'.w = tr.w ∧ tr'.h = tr.h ∧
      (tr.y + b.velY * dt ≤ 0 → tr'.y = 0 ∧ (b.Update dt).velY = -b.velY) ∧
      (¬ tr.y + b.velY * dt ≤ 0 →
        tr'.y = tr.y + b.velY * dt ∧ (b.Update dt).velY = b.velY) ∧
      (tr.x + b.velX * dt ≤ 0 → tr'.x = 0 ∧ (b.Update dt).velX = -b.velX) ∧
      (tr.x + b.velX * dt + tr.w ≥ 1600 →
        tr'.x = 1600 - tr.w ∧ (b.Update dt).velX = -b.velX) ∧
      (¬ tr.x + b.velX * dt ≤ 0 → ¬ tr.x + b.velX * dt + tr.w ≥ 1600 →
        tr'.x = tr.x + b.velX * dt ∧ (b.Update dt).velX = b.velX) ∧
      (tr.x = 0 → b.velX < 0 → 0 ≤ dt →
        tr'.x = 0 ∧ (b.Update dt).velX = -b.velX) := by
  rw [Ball.Update_of_transform b tr dt htr]
  refine ⟨_, Collision2DComponent.Update_transform _, ?_⟩
  · simp only [TransformComponent.move, ge_iff_le, true_and]
    refine ⟨?_, ?_, ?_, ?_, ?_, ?_⟩
    · intro hy
      simp [hy]
    · intro hy
      simp [hy]
    · intro hx
      have h2 : ¬ (1600 ≤ tr.w) := not_le.mpr hw
      simp [hx, h2]
    · intro hx
      have h1 : ¬ (tr.x + b.velX * dt ≤ 0) := by
        intro h0
        linarith
      simp [hx, h1]
    · intro h1 h2
      simp [h1, h2]
    · intro hx0 hv hdt
      have hx : tr.x + b.velX * dt ≤ 0 := by
        rw [hx0, zero_add]
        exact mul_nonpos_of_nonpos_of_nonneg hv.le hdt
      have h2 : ¬ (1600 ≤ tr.w) := not_le.mpr hw
      simp [hx, h2]

/-- Witness of C8: a ball at `x = 0` with velocity `(-100, 50)` and `dt = 1/60`
stays at `x = 0` and leaves with `vx = 100`. -/
theorem C8_ball_update_walls_witness :
    (20 : ℚ) < 1600 ∧
    ∃ tr' : SDL_FRect ℚ,
      ((exBall ⟨0, 100, 20, 20⟩ (-100) 50).Update (1 / 60)).transform = some tr' ∧
      tr'.x = 0 ∧
      ((exBall ⟨0, 100, 20, 20⟩ (-100) 50).Update (1 / 60)).velX =
        -(exBall ⟨0, 100, 20, 20⟩ (-100) 50).velX :=
  ⟨by norm_num,
    (C8_ball_update_walls (exBall ⟨0, 100, 20, 20⟩ (-100) 50) ⟨0, 100, 20, 20⟩ (1 / 60) rfl
      (by norm_num)).imp
      (fun _ h => ⟨h.1, h.2.2.2.2.2.2.2.2 rfl (by decide!) (by norm_num)⟩)⟩

/-! ### Rectangle intersection -/

/-- Two spans `[a, b)` and `[c, d)` clipped the way SDL does it leave a span of
positive length exactly when each lower end is below each upper end. -/
theorem span_clip_lt_iff (a b c d : F) :
    (if c > a then c else a) < (if d < b then d else b) ↔
      a < b ∧ a < d ∧ c < b ∧ c < d := by
  simp only [gt_iff_lt]
  split_ifs with h1 h2 h2
  · exact ⟨fun h => ⟨by linarith, by linarith, by linarith, h⟩, fun h => h.2.2.2⟩
  · exact ⟨fun h => ⟨by linarith, by linarith, h, by linarith⟩, fun h => h.2.2.1⟩
  · exact ⟨fun h => ⟨by linarith, h, by linarith, by linarith⟩, fun h => h.2.1⟩
  · exact ⟨fun h => ⟨h, by linarith, by linarith, by linarith⟩, fun h => h.1⟩

/-- The SDL test in closed form: both rectangles are non-empty and the open
spans overlap on both axes. -/
theorem SDL_HasIntersectionF_iff (A B : SDL_FRect F) :
    SDL_HasIntersectionF A B = true ↔
      0 < A.w ∧ 0 < A.h ∧ 0 < B.w ∧ 0 < B.h ∧
      A.x < B.x + B.w ∧ B.x < A.x + A.w ∧ A.y < B.y + B.h ∧ B.y < A.y + A.h := by
  have hx := span_clip_lt_iff A.x (A.x + A.w) B.x (B.x + B.w)
  have hy := span_clip_lt_iff A.y (A.y + A.h) B.y (B.y + B.h)
  unfold SDL_HasIntersectionF SDL_FRectEmpty
  by_cases e : (decide (A.w ≤ 0) || decide (A.h ≤ 0) ||
      (decide (B.w ≤ 0) || decide (B.h ≤ 0))) = true
  · rw [if_pos e]
    simp only [Bool.or_eq_true, decide_eq_true_eq] at e
    constructor
    · intro h
      exact absurd h (by simp)
    · rintro ⟨a1, a2, a3, a4, -⟩
      rcases e with (e | e) | (e | e) <;> linarith
  · rw [if_neg e]
    simp only [Bool.or_eq_true, decide_eq_true_eq, not_or, not_le] at e
    obtain ⟨⟨a1, a2⟩, a3, a4⟩ := e
    simp only [← not_lt, hx, hy, ite_not, Bool.if_false_right, Bool.if_true_left,
      Bool.and_eq_true, Bool.or_eq_true, decide_eq_true_eq, Bool.not_eq_true',
      decide_eq_false_iff_not, Bool.if_false_left, Bool.if_true_right, Bool.and_true,
      Bool.or_false, Bool.decide_and]
    constructor
    · intro h
      refine ⟨a1, a2, a3, a4, ?_, ?_, ?_, ?_⟩ <;> linarith [h.1.2.1, h.1.2.2.1, h.2.2.1, h.2.2.2.1]
    · rintro ⟨-, -, -, -, h1, h2, h3, h4⟩
      refine ⟨⟨by linarith, h1, h2, by linarith⟩, by linarith, h3, h4, by linarith⟩

/-- Rectangles that only touch along an edge do not intersect. -/
theorem SDL_HasIntersectionF_touching (A B : SDL_FRect F)
    (h : A.x + A.w = B.x ∨ B.x + B.w = A.x ∨ A.y + A.h = B.y ∨ B.y + B.h = A.y) :
    SDL_HasIntersectionF A B = false := by
  rw [← Bool.not_eq_true, SDL_HasIntersectionF_iff]
  rintro ⟨-, -, -, -, hx1, hx2, hy1, hy2⟩
  rcases h with h | h | h | h <;> linarith

/-- On non-empty rectangles the SDL test and the test of
`GameEntity::TestCollision` agree. -/
theorem SDL_HasIntersectionF_eq_TestCollisionRects (A B : SDL_FRect F)
    (hA : 0 < A.w ∧ 0 < A.h) (hB : 0 < B.w ∧ 0 < B.h) :
    SDL_HasIntersectionF A B = GameEntity.TestCollisionRects A B := by
  rw [Bool.eq_iff_iff, SDL_HasIntersectionF_iff]
  simp only [GameEntity.TestCollisionRects, Bool.not_eq_true', Bool.or_eq_false_iff,
    decide_eq_false_iff_not, not_le]
  constructor
  · rintro ⟨-, -, -, -, hx1, hx2, hy1, hy2⟩
    exact ⟨⟨⟨hx1, hx2⟩, hy1⟩, hy2⟩
  · rintro ⟨⟨⟨hx1, hx2⟩, hy1⟩, hy2⟩
    exact ⟨hA.1, hA.2, hB.1, hB.2, hx1, hx2, hy1, hy2⟩

/-! ### The drop-vs-paddle pass -/

/-- Pushing a ball at the back does not change what is spawned from an index
inside the list. -/
theorem Scene.spawnBall_append (host : Host F) (balls : List (Ball F)) (x : Ball F)
    (i : Nat) (hi : i < balls.length) :
    Scene.spawnBall host (balls ++ [x]) i = Scene.spawnBall host balls i := by
  unfold Scene.spawnBall
  rw [List.getElem?_append_left hi]

theorem Scene.spawnLoop_eq (host : Host F) (remaining : Nat) :
    ∀ (i : Nat) (balls : List (Ball F)), i + remaining ≤ balls.length →
      Scene.spawnLoop host remaining i balls =
        balls ++ (List.range' i remaining).map (Scene.spawnBall host balls) := by
  induction remaining with
  | zero =>
    intro i balls _
    simp [Scene.spawnLoop]
  | succ r ih =>
    intro i balls h
    have h' : i + 1 + r ≤ (balls ++ [Scene.spawnBall host balls i]).length := by
      simp only [List.length_append, List.length_singleton]
      omega
    rw [Scene.spawnLoop, ih (i + 1) _ h', List.range'_succ, List.map_cons,
      List.append_assoc, List.singleton_append]
    congr 2
    apply List.map_congr_left
    intro j hj
    rw [List.mem_range'_1] at hj
    exact Scene.spawnBall_append host balls _ j (by omega)

/-- One picked-up drop appends to the ball list, for each ball in order, the
ball spawned from it. -/
theorem Scene.spawnBalls_eq (host : Host F) (balls : List (Ball F)) :
    Scene.spawnBalls host balls =
      balls ++ (List.range balls.length).map (Scene.spawnBall host balls) := by
  unfold Scene.spawnBalls
  rw [Scene.spawnLoop_eq host balls.length 0 balls (by omega), List.range_eq_range']

theorem Scene.spawnBalls_length (host : Host F) (balls : List (Ball F)) :
    (Scene.spawnBalls host balls).length = 2 * balls.length := by
  rw [Scene.spawnBalls_eq]
  simp only [List.length_append, List.length_map, List.length_range]
  omega

/-- The drop scan from a position `pre.length` with `suf` still ahead: the
drops ahead that are picked are removed, the others kept in order, and the
ball list goes through one spawning round per picked drop. -/
theorem Scene.dropLoop_eq (host : Host F) (paddleRect : SDL_FRect F) (fuel : Nat) :
    ∀ (pre suf : List (Drop F)) (balls : List (Ball F)), suf.length ≤ fuel →
      Scene.dropLoop host paddleRect fuel pre.length (pre ++ suf) balls =
        (pre ++ suf.filter (fun d => !Scene.dropIsPicked paddleRect d),
         (Scene.spawnBalls host)^[suf.countP (Scene.dropIsPicked paddleRect)] balls) := by
  induction fuel with
  | zero =>
    intro pre suf balls h
    have : suf = [] := List.eq_nil_of_length_eq_zero (Nat.le_zero.mp h)
    subst this
    simp [Scene.dropLoop]
  | succ fuel ih =>
    intro pre suf balls h
    cases suf with
    | nil => simp [Scene.dropLoop]
    | cons d suf =>
      have hlen : suf.length ≤ fuel := by
        simp only [List.length_cons] at h
        omega
      have hget : (pre ++ d :: suf)[pre.length]? = some d := by
        rw [List.getElem?_append_right (le_refl _)]
        simp
      have hstep := ih (pre ++ [d]) suf balls hlen
      simp only [List.length_append, List.length_singleton, List.append_assoc,
        List.singleton_append] at hstep
      have herase : (pre ++ d :: suf).eraseIdx pre.length = pre ++ suf := by
        rw [List.eraseIdx_append_of_length_le (le_refl _)]
        simp
      rw [Scene.dropLoop, hget]
      simp only
      cases htr : d.transform with
      | none =>
        have hp : Scene.dropIsPicked paddleRect d = false := by
          simp [Scene.dropIsPicked, htr]
        simp only [hstep, List.filter_cons, hp, List.countP_cons]
        simp
      | some dropRect =>
        have hp : Scene.dropIsPicked paddleRect d =
            SDL_HasIntersectionF paddleRect dropRect := by
          simp [Scene.dropIsPicked, htr]
        by_cases hit : SDL_HasIntersectionF paddleRect dropRect = true
        · rw [hit] at hp
          simp only [hit, if_true, herase, ih pre suf _ hlen, List.filter_cons, hp,
            List.countP_cons]
          simp [Function.iterate_succ_apply]
        · rw [Bool.not_eq_true] at hit
          rw [hit] at hp
          simp only [hit, hstep, List.filter_cons, hp, List.countP_cons]
          simp

theorem Scene.dropVsPaddle_eq (host : Host F) (s : Scene F) (paddle : Paddle F)
    (paddleRect : SDL_FRect F) (hp : s.mPlayerPaddle = some paddle)
    (hc : paddle.collider = some paddleRect) :
    Scene.dropVsPaddle host s =
      { s with
        mDrops := s.mDrops.filter (fun d => !Scene.dropIsPicked paddleRect d),
        mBalls := (Scene.spawnBalls host)^[s.mDrops.countP (Scene.dropIsPicked paddleRect)]
          s.mBalls } := by
  have h := Scene.dropLoop_eq host paddleRect s.mDrops.length [] s.mDrops s.mBalls (le_refl _)
  simp only [List.length_nil, List.nil_append] at h
  unfold Scene.dropVsPaddle
  simp only [hp, hc, h]

theorem Scene.iterate_spawnBalls_length (host : Host F) (k : Nat) :
    ∀ balls : List (Ball F),
      ((Scene.spawnBalls host)^[k] balls).length = balls.length * 2 ^ k := by
  induction k with
  | zero => intro balls; simp
  | succ k ih =>
    intro balls
    rw [Function.iterate_succ_apply, ih, Scene.spawnBalls_length, pow_succ]
    ring

/-- C5: when the scan meets a drop that intersects the paddle, with `n` balls
in the list at that moment, the scan goes on with that drop erased and the
ball list `spawnBalls balls`, which has exactly `n` balls more: the balls at
indices `0..n-1` are the old ones, and for `i < n` the ball at index `n + i`
has velocity `(100, 100)` and, `(x_i, y_i)` being the position of the ball at
index `i`, the position `(x_i + 20, y_i)`. -/
theorem C5_pickup_spawns_one_ball_per_ball (host : Host F) (paddleRect : SDL_FRect F)
    (fuel it : Nat) (drops : List (Drop F)) (balls : List (Ball F)) (d : Drop F)
    (dropRect : SDL_FRect F) (hd : drops[it]? = some d)
    (htr : d.transform = some dropRect)
    (hit : SDL_HasIntersectionF paddleRect dropRect = true) :
    Scene.dropLoop host paddleRect (fuel + 1) it drops balls =
        Scene.dropLoop host paddleRect fuel it (drops.eraseIdx it)
          (Scene.spawnBalls host balls) ∧
      (Scene.spawnBalls host balls).length = balls.length + balls.length ∧
      (∀ i, i < balls.length → (Scene.spawnBalls host balls)[i]? = balls[i]?) ∧
      (∀ i, i < balls.length →
        ∃ nb, (Scene.spawnBalls host balls)[balls.length + i]? = some nb ∧
          nb.velX = 100 ∧ nb.velY = 100 ∧
          ∀ b r, balls[i]? = some b → b.transform = some r →
            ∃ r', nb.transform = some r' ∧ r'.x = r.x + 20 ∧ r'.y = r.y) := by
  refine ⟨?_, ?_, ?_, ?_⟩
  · rw [Scene.dropLoop, hd]
    simp only [htr, hit, if_true]
  · rw [Scene.spawnBalls_length]
    omega
  · intro i hi
    rw [Scene.spawnBalls_eq, List.getElem?_append_left hi]
  · intro i hi
    refine ⟨Scene.spawnBall host balls i, ?_, ?_, ?_, ?_⟩
    · rw [Scene.spawnBalls_eq, List.getElem?_append_right (Nat.le_add_right _ _)]
      simp [hi]
    · simp [Scene.spawnBall, Ball.SetVelocity]
    · simp [Scene.spawnBall, Ball.SetVelocity]
    · intro b r hb hr
      simp [Scene.spawnBall, Ball.SetVelocity, hb, hr, Ball.moveTransform,
        GameEntity.initComponents, TransformComponent.move]

/-- Witness of C5: the first drop of the two-drop scene is picked up with one
ball in the list; the new ball sits at index 1, at `(720, 500)`. -/
theorem C5_pickup_spawns_one_ball_per_ball_witness :
    SDL_HasIntersectionF (⟨700, 900, 100, 20⟩ : SDL_FRect ℚ) ⟨710, 895, 16, 16⟩ = true ∧
    (Scene.spawnBalls exHost exSceneTwoDrops.mBalls).length = 1 + 1 ∧
    ∃ nb, (Scene.spawnBalls exHost exSceneTwoDrops.mBalls)[1 + 0]? = some nb ∧
      nb.velX = 100 ∧ nb.velY = 100 ∧
      ∀ b r, exSceneTwoDrops.mBalls[0]? = some b → b.transform = some r →
        ∃ r', nb.transform = some r' ∧ r'.x = r.x + 20 ∧ r'.y = r.y :=
  have h := C5_pickup_spawns_one_ball_per_ball exHost (⟨700, 900, 100, 20⟩ : SDL_FRect ℚ)
    1 0 exSceneTwoDrops.mDrops exSceneTwoDrops.mBalls (exDrop ⟨710, 895, 16, 16⟩)
    ⟨710, 895, 16, 16⟩ rfl rfl (by decide!)
  ⟨by decide!, h.2.1, h.2.2.2 0 (by decide)⟩

/-- C6, as stated, fails: with `N = 1` ball and `k = 2` drops on the paddle the
pass ends with 4 balls, not with `N + k * N = 3`. -/
theorem C6_counterexample :
    exSceneTwoDrops.mBalls.length = 1 ∧
    exSceneTwoDrops.mDrops.countP
      (Scene.dropIsPicked (⟨700, 900, 100, 20⟩ : SDL_FRect ℚ)) = 2 ∧
    (Scene.dropVsPaddle exHost exSceneTwoDrops).mBalls.length = 4 ∧
    (Scene.dropVsPaddle exHost exSceneTwoDrops).mBalls.length ≠ 1 + 2 * 1 := by
  decide!

/-- C6, amended: every drop that intersects the paddle appends as many balls as
the list holds when that drop is processed, so each pickup doubles the
list, and a pass in which `k` drops intersect the paddle turns `N` balls into
`N * 2 ^ k`. -/
theorem C6_pickups_double_the_ball_count (host : Host F) (s : Scene F) (paddle : Paddle F)
    (paddleRect : SDL_FRect F) (hp : s.mPlayerPaddle = some paddle)
    (hc : paddle.collider = some paddleRect) :
    (∀ balls : List (Ball F),
      (Scene.spawnBalls host balls).length = balls.length + balls.length) ∧
    (Scene.dropVsPaddle host s).mBalls =
      (Scene.spawnBalls host)^[s.mDrops.countP (Scene.dropIsPicked paddleRect)] s.mBalls ∧
    (Scene.dropVsPaddle host s).mBalls.length =
      s.mBalls.length * 2 ^ (s.mDrops.countP (Scene.dropIsPicked paddleRect)) := by
  refine ⟨?_, ?_, ?_⟩
  · intro balls
    rw [Scene.spawnBalls_length]
    omega
  · rw [Scene.dropVsPaddle_eq host s paddle paddleRect hp hc]
  · rw [Scene.dropVsPaddle_eq host s paddle paddleRect hp hc]
    exact Scene.iterate_spawnBalls_length host _ _

/-- Witness of the amended C6 on the two-drop scene: `1 * 2 ^ 2` balls. -/
theorem C6_pickups_double_the_ball_count_witness :
    exSceneTwoDrops.mPlayerPaddle = some exPaddle ∧
    exPaddle.collider = some ⟨700, 900, 100, 20⟩ ∧
    (Scene.dropVsPaddle exHost exSceneTwoDrops).mBalls.length =
      exSceneTwoDrops.mBalls.length *
        2 ^ (exSceneTwoDrops.mDrops.countP (Scene.dropIsPicked ⟨700, 900, 100, 20⟩)) :=
  ⟨rfl, rfl,
    (C6_pickups_double_the_ball_count exHost exSceneTwoDrops exPaddle ⟨700, 900, 100, 20⟩
      rfl rfl).2.2⟩

/-- C7: with a paddle that has a collider, the drop list after the pass is the
list before it without the drops whose Transform rectangle intersects the
collider rectangle of the paddle: the survivors keep their order, every
intersecting drop is gone (also one that directly follows a removed drop),
every other drop is kept, and a drop that only touches the paddle along an
edge is kept. -/
theorem C7_drop_pass_removes_exactly_picked (host : Host F) (s : Scene F)
    (paddle : Paddle F) (paddleRect : SDL_FRect F) (hp : s.mPlayerPaddle = some paddle)
    (hc : paddle.collider = some paddleRect) :
    (Scene.dropVsPaddle host s).mDrops =
        s.mDrops.filter (fun d => !Scene.dropIsPicked paddleRect d) ∧
      List.Sublist (Scene.dropVsPaddle host s).mDrops s.mDrops ∧
      (∀ d, d ∈ (Scene.dropVsPaddle host s).mDrops ↔
        d ∈ s.mDrops ∧ Scene.dropIsPicked paddleRect d = false) ∧
      (∀ d r, d ∈ s.mDrops → d.transform = some r →
        (r.x + r.w = paddleRect.x ∨ paddleRect.x + paddleRect.w = r.x ∨
          r.y + r.h = paddleRect.y ∨ paddleRect.y + paddleRect.h = r.y) →
        d ∈ (Scene.dropVsPaddle host s).mDrops) := by
  have hEq : (Scene.dropVsPaddle host s).mDrops =
      s.mDrops.filter (fun d => !Scene.dropIsPicked paddleRect d) := by
    rw [Scene.dropVsPaddle_eq host s paddle paddleRect hp hc]
  refine ⟨hEq, ?_, ?_, ?_⟩
  · rw [hEq]
    exact List.filter_sublist _
  · intro d
    rw [hEq, List.mem_filter]
    simp
  · intro d r hd hr htouch
    rw [hEq, List.mem_filter]
    refine ⟨hd, ?_⟩
    have : SDL_HasIntersectionF paddleRect r = false := by
      apply SDL_HasIntersectionF_touching
      rcases htouch with h | h | h | h
      · exact Or.inr (Or.inl h)
      · exact Or.inl h
      · exact Or.inr (Or.inr (Or.inr h))
      · exact Or.inr (Or.inr (Or.inl h))
    simp [Scene.dropIsPicked, hr, this]

/-- Witness of C7 on the four-drop scene: the two overlapping drops, one right
after the other, are removed; the drop resting on the top edge of the paddle
and the far drop are kept, in order. -/
theorem C7_drop_pass_removes_exactly_picked_witness :
    exSceneFourDrops.mPlayerPaddle = some exPaddle ∧
    exPaddle.collider = some ⟨700, 900, 100, 20⟩ ∧
    (Scene.dropVsPaddle exHost exSceneFourDrops).mDrops =
      [exDrop ⟨720, 884, 16, 16⟩, exDrop ⟨100, 300, 16, 16⟩] :=
  ⟨rfl, rfl,
    (C7_drop_pass_removes_exactly_picked exHost exSceneFourDrops exPaddle
      ⟨700, 900, 100, 20⟩ rfl rfl).1.trans (by decide!)⟩

/-! ### The ball-vs-brick pass -/

theorem Scene.scanBricks_cons_miss (host : Host F) (ball : Ball F) (ballRect : SDL_FRect F)
    (brick : Brick F) (rest : List (Brick F)) (drops : List (Drop F)) (k : Nat)
    (h : Scene.brickIsHit ballRect brick = false) :
    Scene.scanBricks host ball ballRect (brick :: rest) drops k =
      { Scene.scanBricks host ball ballRect rest drops k with
        bricks := brick :: (Scene.scanBricks host ball ballRect rest drops k).bricks } := by
  rw [Scene.scanBricks]
  simp only [Scene.brickIsHit, Bool.and_eq_false_iff] at h
  by_cases ha : brick.IsActive = true
  · simp only [ha, Bool.not_true, Bool.false_eq_true, if_false]
    cases hbt : brick.transform with
    | none => rfl
    | some brickRect =>
      rcases h with h | h
      · rw [ha] at h
        exact absurd h (by simp)
      · rw [hbt] at h
        simp only at h
        simp only [h, Bool.false_eq_true, if_false]
  · rw [Bool.not_eq_true] at ha
    simp only [ha, Bool.not_false, if_true]

theorem Scene.scanBricks_cons_hit (host : Host F) (ball : Ball F) (ballRect : SDL_FRect F)
    (brick : Brick F) (brickRect : SDL_FRect F) (rest : List (Brick F))
    (drops : List (Drop F)) (k : Nat)
    (ha : brick.IsActive = true) (hbt : brick.transform = some brickRect)
    (hit : SDL_HasIntersectionF ballRect brickRect = true) :
    Scene.scanBricks host ball ballRect (brick :: rest) drops k =
      ⟨Scene.bounceOffBrick ball ballRect brickRect,
        (Scene.breakBrick host brick brickRect drops k).1 :: rest,
        (Scene.breakBrick host brick brickRect drops k).2.1,
        (Scene.breakBrick host brick brickRect drops k).2.2⟩ := by
  rw [Scene.scanBricks]
  simp only [ha, Bool.not_true, Bool.false_eq_true, if_false, hbt, hit, if_true]

/-- A scan over bricks none of which is hit changes nothing. -/
theorem Scene.scanBricks_all_miss (host : Host F) (ball : Ball F) (ballRect : SDL_FRect F)
    (drops : List (Drop F)) (k : Nat) :
    ∀ bricks : List (Brick F), (∀ b ∈ bricks, Scene.brickIsHit ballRect b = false) →
      Scene.scanBricks host ball ballRect bricks drops k = ⟨ball, bricks, drops, k⟩ := by
  intro bricks
  induction bricks with
  | nil => intro _; rfl
  | cons b rest ih =>
    intro h
    rw [Scene.scanBricks_cons_miss host ball ballRect b rest drops k
      (h b (List.mem_cons_self _ _)),
      ih (fun b' hb' => h b' (List.mem_cons_of_mem _ hb'))]

/-- The scan resolves the ball against the first brick that is hit, and leaves
every other brick alone. -/
theorem Scene.scanBricks_first_hit (host : Host F) (ball : Ball F) (ballRect : SDL_FRect F)
    (brick : Brick F) (brickRect : SDL_FRect F) (bpost : List (Brick F))
    (drops : List (Drop F)) (k : Nat)
    (ha : brick.IsActive = true) (hbt : brick.transform = some brickRect)
    (hit : SDL_HasIntersectionF ballRect brickRect = true) :
    ∀ bpre : List (Brick F), (∀ b ∈ bpre, Scene.brickIsHit ballRect b = false) →
      Scene.scanBricks host ball ballRect (bpre ++ brick :: bpost) drops k =
        ⟨Scene.bounceOffBrick ball ballRect brickRect,
          bpre ++ (Scene.breakBrick host brick brickRect drops k).1 :: bpost,
          (Scene.breakBrick host brick brickRect drops k).2.1,
          (Scene.breakBrick host brick brickRect drops k).2.2⟩ := by
  intro bpre
  induction bpre with
  | nil =>
    intro _
    exact Scene.scanBricks_cons_hit host ball ballRect brick brickRect bpost drops k ha hbt hit
  | cons b rest ih =>
    intro h
    rw [List.cons_append, Scene.scanBricks_cons_miss host ball ballRect b _ drops k
      (h b (List.mem_cons_self _ _)),
      ih (fun b' hb' => h b' (List.mem_cons_of_mem _ hb'))]
    rfl

/-- The pass over `pre ++ ball :: post`: first the pass over `pre`, then the
step of `ball` on the bricks, drops and counter that pass left, then the pass
over `post`. -/
theorem Scene.ballVsBrick_append (host : Host F) (ball : Ball F) (post : List (Ball F)) :
    ∀ (pre : List (Ball F)) (bricks : List (Brick F)) (drops : List (Drop F)) (k : Nat),
      Scene.ballVsBrick host (pre ++ ball :: post) bricks drops k =
        { Scene.ballVsBrick host post
            (Scene.ballStep host ball (Scene.ballVsBrick host pre bricks drops k).bricks
              (Scene.ballVsBrick host pre bricks drops k).drops
              (Scene.ballVsBrick host pre bricks drops k).randCalls).bricks
            (Scene.ballStep host ball (Scene.ballVsBrick host pre bricks drops k).bricks
              (Scene.ballVsBrick host pre bricks drops k).drops
              (Scene.ballVsBrick host pre bricks drops k).randCalls).drops
            (Scene.ballStep host ball (Scene.ballVsBrick host pre bricks drops k).bricks
              (Scene.ballVsBrick host pre bricks drops k).drops
              (Scene.ballVsBrick host pre bricks drops k).randCalls).randCalls with
          balls := (Scene.ballVsBrick host pre bricks drops k).balls ++
            (Scene.ballStep host ball (Scene.ballVsBrick host pre bricks drops k).bricks
              (Scene.ballVsBrick host pre bricks drops k).drops
              (Scene.ballVsBrick host pre bricks drops k).randCalls).ball ::
            (Scene.ballVsBrick host post
              (Scene.ballStep host ball (Scene.ballVsBrick host pre bricks drops k).bricks
                (Scene.ballVsBrick host pre bricks drops k).drops
                (Scene.ballVsBrick host pre bricks drops k).randCalls).bricks
              (Scene.ballStep host ball (Scene.ballVsBrick host pre bricks drops k).bricks
                (Scene.ballVsBrick host pre bricks drops k).drops
                (Scene.ballVsBrick host pre bricks drops k).randCalls).drops
              (Scene.ballStep host ball (Scene.ballVsBrick host pre bricks drops k).bricks
                (Scene.ballVsBrick host pre bricks drops k).drops
                (Scene.ballVsBrick host pre bricks drops k).randCalls).randCalls).balls } := by
  intro pre
  induction pre with
  | nil =>
    intro bricks drops k
    simp [Scene.ballVsBrick]
  | cons b rest ih =>
    intro bricks drops k
    rw [List.cons_append, Scene.ballVsBrick, ih]
    simp [Scene.ballVsBrick]

theorem Scene.ballVsBrick_balls_length (host : Host F) :
    ∀ (balls : List (Ball F)) (bricks : List (Brick F)) (drops : List (Drop F)) (k : Nat),
      (Scene.ballVsBrick host balls bricks drops k).balls.length = balls.length := by
  intro balls
  induction balls with
  | nil => intro _ _ _; rfl
  | cons b rest ih =>
    intro bricks drops k
    simp [Scene.ballVsBrick, ih]

/-- The ball at index `pre.length` after the pass is the result of its own
step on the state the balls before it left. -/
theorem Scene.ballVsBrick_getElem (host : Host F) (pre post : List (Ball F)) (ball : Ball F)
    (bricks : List (Brick F)) (drops : List (Drop F)) (k : Nat) :
    (Scene.ballVsBrick host (pre ++ ball :: post) bricks drops k).balls[pre.length]? =
      some (Scene.ballStep host ball (Scene.ballVsBrick host pre bricks drops k).bricks
        (Scene.ballVsBrick host pre bricks drops k).drops
        (Scene.ballVsBrick host pre bricks drops k).randCalls).ball := by
  rw [Scene.ballVsBrick_append]
  simp only
  rw [List.getElem?_append_right (by rw [Scene.ballVsBrick_balls_length])]
  simp [Scene.ballVsBrick_balls_length]

theorem Scene.breakBrick_fst (host : Host F) (brick : Brick F) (brickRect : SDL_FRect F)
    (drops : List (Drop F)) (k : Nat) :
    (Scene.breakBrick host brick brickRect drops k).1 = brick.SetActive false := by
  unfold Scene.breakBrick
  by_cases hu : brick.IsUnbreakable = true
  · have hu' : brick.unbreakable = true := hu
    simp [hu, Brick.SetActive, hu']
  · rw [Bool.not_eq_true] at hu
    simp only [hu, Bool.not_false, if_true]
    split <;> rfl

/-- The step of a ball that has a Transform and whose first hit brick is
`brick`, found after the bricks `bpre`. -/
theorem Scene.ballStep_first_hit (host : Host F) (ball : Ball F) (ballRect : SDL_FRect F)
    (bpre bpost : List (Brick F)) (brick : Brick F) (brickRect : SDL_FRect F)
    (drops : List (Drop F)) (k : Nat) (hball : ball.transform = some ballRect)
    (hfirst : ∀ b ∈ bpre, Scene.brickIsHit ballRect b = false)
    (ha : brick.IsActive = true) (hbt : brick.transform = some brickRect)
    (hit : SDL_HasIntersectionF ballRect brickRect = true) :
    Scene.ballStep host ball (bpre ++ brick :: bpost) drops k =
      ⟨Scene.bounceOffBrick ball ballRect brickRect,
        bpre ++ brick.SetActive false :: bpost,
        (Scene.breakBrick host brick brickRect drops k).2.1,
        (Scene.breakBrick host brick brickRect drops k).2.2⟩ := by
  unfold Scene.ballStep
  simp only [hball]
  rw [Scene.scanBricks_first_hit host ball ballRect brick brickRect bpost drops k ha hbt hit
    bpre hfirst, Scene.breakBrick_fst]

/-- C1: in the ball-vs-brick pass over `pre ++ ball :: post`, let the bricks be
`bpre ++ brick :: bpost` when the turn of `ball` comes (as the balls of `pre`
left them), `brick` being the first brick that is active and intersects the
rectangle of `ball`.  If `overlapX < overlapY`, the ball leaves the pass with
`vx` negated, `vy` unchanged, `y` unchanged, and `x` equal to
`brickLeft - ballWidth - 1` when `ballLeft < brickLeft`, to `brickRight + 1`
otherwise. -/
theorem C1_brick_bounce_horizontal (host : Host F) (pre post : List (Ball F)) (ball : Ball F)
    (bricks : List (Brick F)) (drops : List (Drop F)) (k : Nat) (ballRect : SDL_FRect F)
    (bpre bpost : List (Brick F)) (brick : Brick F) (brickRect : SDL_FRect F)
    (hball : ball.transform = some ballRect)
    (hbricks : (Scene.ballVsBrick host pre bricks drops k).bricks = bpre ++ brick :: bpost)
    (hfirst : ∀ b ∈ bpre, Scene.brickIsHit ballRect b = false)
    (ha : brick.IsActive = true) (hbt : brick.transform = some brickRect)
    (hit : SDL_HasIntersectionF ballRect brickRect = true)
    (hlt : Scene.overlapX ballRect brickRect < Scene.overlapY ballRect brickRect) :
    ∃ ball', (Scene.ballVsBrick host (pre ++ ball :: post) bricks drops k).balls[pre.length]?
        = some ball' ∧
      ball'.velX = -ball.velX ∧ ball'.velY = ball.velY ∧
      ball'.transform = some
        ⟨if ballRect.x < brickRect.x then brickRect.x - ballRect.w - 1
          else brickRect.x + brickRect.w + 1,
         ballRect.y, ballRect.w, ballRect.h⟩ := by
  refine ⟨_, Scene.ballVsBrick_getElem host pre post ball bricks drops k, ?_⟩
  rw [hbricks, Scene.ballStep_first_hit host ball ballRect bpre bpost brick brickRect _ _
    hball hfirst ha hbt hit]
  simp only [Scene.bounceOffBrick, hlt, if_true]
  split_ifs <;>
    simp [Ball.ReverseVelX, Ball.moveTransform, hball, TransformComponent.move]

/-- Witness of C1: a ball at `(95, 110)` of size 20 overlaps the second brick of
`exBricks` by 15 in x and 20 in y; it leaves at `x = 79` with `vx` negated. -/
theorem C1_brick_bounce_horizontal_witness :
    Scene.overlapX (⟨95, 110, 20, 20⟩ : SDL_FRect ℚ) ⟨100, 100, 90, 45⟩ <
      Scene.overlapY (⟨95, 110, 20, 20⟩ : SDL_FRect ℚ) ⟨100, 100, 90, 45⟩ ∧
    ∃ ball', (Scene.ballVsBrick exHost ([] ++ exBall ⟨95, 110, 20, 20⟩ 100 50 :: []) exBricks
        [] 0).balls[([] : List (Ball ℚ)).length]? = some ball' ∧
      ball'.velX = -(exBall ⟨95, 110, 20, 20⟩ 100 50).velX ∧
      ball'.velY = (exBall ⟨95, 110, 20, 20⟩ 100 50).velY ∧
      ball'.transform = some
        ⟨if (95 : ℚ) < 100 then 100 - 20 - 1 else 100 + 90 + 1, 110, 20, 20⟩ :=
  ⟨by decide!,
    C1_brick_bounce_horizontal exHost [] [] (exBall ⟨95, 110, 20, 20⟩ 100 50) exBricks [] 0
      ⟨95, 110, 20, 20⟩ [exBrick ⟨90, 100, 90, 45⟩ false false]
      [exBrick ⟨110, 100, 90, 45⟩ true false] (exBrick ⟨100, 100, 90, 45⟩ true false)
      ⟨100, 100, 90, 45⟩ rfl rfl (by decide!) rfl rfl (by decide!) (by decide!)⟩

theorem Scene.BrickKept.refl (b : Brick F) : Scene.BrickKept b b := Or.inl rfl

theorem Scene.BrickKept.trans {a b c : Brick F} (h1 : Scene.BrickKept a b)
    (h2 : Scene.BrickKept b c) : Scene.BrickKept a c := by
  rcases h1 with h1 | h1 <;> rcases h2 with h2 | h2 <;> subst h1 <;> subst h2
  · exact Or.inl rfl
  · exact Or.inr rfl
  · exact Or.inr rfl
  · right
    unfold Brick.SetActive
    split <;> simp_all

theorem Scene.BrickKept.inactive {a b : Brick F} (h : Scene.BrickKept a b)
    (ha : a.active = false) : b.active = false := by
  rcases h with h | h <;> subst h
  · exact ha
  · unfold Brick.SetActive
    split <;> simp_all

theorem Scene.forall₂_kept_refl (l : List (Brick F)) : List.Forall₂ Scene.BrickKept l l :=
  List.forall₂_same.mpr (fun b _ => Scene.BrickKept.refl b)

theorem Scene.forall₂_kept_trans :
    ∀ {a b c : List (Brick F)}, List.Forall₂ Scene.BrickKept a b →
      List.Forall₂ Scene.BrickKept b c → List.Forall₂ Scene.BrickKept a c := by
  intro a b c h1
  induction h1 generalizing c with
  | nil => intro h2; cases h2; exact List.Forall₂.nil
  | cons hab _ ih =>
    intro h2
    cases h2 with
    | cons hbc hrest => exact List.Forall₂.cons (hab.trans hbc) (ih hrest)

theorem Scene.forall₂_kept_at :
    ∀ (bpre : List (Brick F)) {x : Brick F} {bpost l : List (Brick F)},
      List.Forall₂ Scene.BrickKept (bpre ++ x :: bpost) l →
      ∃ y, l[bpre.length]? = some y ∧ Scene.BrickKept x y := by
  intro bpre
  induction bpre with
  | nil =>
    intro x bpost l h
    cases h with
    | cons hxy _ => exact ⟨_, by simp, hxy⟩
  | cons b rest ih =>
    intro x bpost l h
    cases h with
    | cons _ hrest =>
      obtain ⟨y, hy, hk⟩ := ih hrest
      exact ⟨y, by simpa using hy, hk⟩

theorem Scene.brickIsHit_eq_true (ballRect : SDL_FRect F) (b : Brick F)
    (h : Scene.brickIsHit ballRect b = true) :
    b.IsActive = true ∧ ∃ r, b.transform = some r ∧ SDL_HasIntersectionF ballRect r = true := by
  unfold Scene.brickIsHit at h
  rw [Bool.and_eq_true] at h
  refine ⟨h.1, ?_⟩
  cases hbt : b.transform with
  | none =>
    rw [hbt] at h
    exact absurd h.2 (by simp)
  | some r =>
    rw [hbt] at h
    exact ⟨r, rfl, h.2⟩

@[simp] theorem Scene.deactivated_cons (a b : Brick F) (l1 l2 : List (Brick F)) :
    Scene.deactivated (a :: l1) (b :: l2) =
      (if (a.active && !b.active) = true then 1 else 0) + Scene.deactivated l1 l2 := by
  unfold Scene.deactivated
  rw [List.zip_cons_cons, List.filter_cons]
  split
  · rw [List.length_cons]
    omega
  · omega

theorem Scene.deactivated_self (l : List (Brick F)) : Scene.deactivated l l = 0 := by
  induction l with
  | nil => rfl
  | cons a rest ih =>
    rw [Scene.deactivated_cons, ih]
    cases a.active <;> simp

theorem Scene.deactivated_triangle :
    ∀ {a b c : List (Brick F)}, List.Forall₂ Scene.BrickKept a b →
      List.Forall₂ Scene.BrickKept b c →
      Scene.deactivated a c ≤ Scene.deactivated a b + Scene.deactivated b c := by
  intro a b c h1
  induction h1 generalizing c with
  | nil => intro h2; cases h2; simp [Scene.deactivated]
  | @cons x y l1 l2 _ _ ih =>
    intro h2
    cases h2 with
    | @cons _ z _ l3 _ hrest =>
      have := ih hrest
      simp only [Scene.deactivated_cons]
      cases x.active <;> cases y.active <;> cases z.active <;> simp <;> omega

/-- One scan leaves every brick as it was or deactivated, and deactivates at
most one brick. -/
theorem Scene.scanBricks_kept (host : Host F) (ball : Ball F) (ballRect : SDL_FRect F)
    (drops : List (Drop F)) (k : Nat) :
    ∀ bricks : List (Brick F),
      List.Forall₂ Scene.BrickKept bricks
          (Scene.scanBricks host ball ballRect bricks drops k).bricks ∧
        Scene.deactivated bricks (Scene.scanBricks host ball ballRect bricks drops k).bricks
          ≤ 1 := by
  intro bricks
  induction bricks with
  | nil => exact ⟨List.Forall₂.nil, by simp [Scene.scanBricks, Scene.deactivated]⟩
  | cons b rest ih =>
    by_cases h : Scene.brickIsHit ballRect b = true
    · obtain ⟨ha, r, hr, hit⟩ := Scene.brickIsHit_eq_true ballRect b h
      rw [Scene.scanBricks_cons_hit host ball ballRect b r rest drops k ha hr hit,
        Scene.breakBrick_fst]
      refine ⟨List.Forall₂.cons (Or.inr rfl) (Scene.forall₂_kept_refl rest), ?_⟩
      rw [Scene.deactivated_cons, Scene.deactivated_self]
      split <;> omega
    · rw [Bool.not_eq_true] at h
      rw [Scene.scanBricks_cons_miss host ball ballRect b rest drops k h]
      refine ⟨List.Forall₂.cons (Scene.BrickKept.refl b) ih.1, ?_⟩
      rw [Scene.deactivated_cons]
      have := ih.2
      cases b.active <;> simp <;> omega

theorem Scene.ballStep_kept (host : Host F) (ball : Ball F) (bricks : List (Brick F))
    (drops : List (Drop F)) (k : Nat) :
    List.Forall₂ Scene.BrickKept bricks (Scene.ballStep host ball bricks drops k).bricks ∧
      Scene.deactivated bricks (Scene.ballStep host ball bricks drops k).bricks ≤ 1 := by
  unfold Scene.ballStep
  cases ball.transform with
  | none => exact ⟨Scene.forall₂_kept_refl bricks, by simp [Scene.deactivated_self]⟩
  | some ballRect => exact Scene.scanBricks_kept host ball ballRect drops k bricks

/-- The whole pass leaves every brick as it was or deactivated, and
deactivates at most as many bricks as there are balls. -/
theorem Scene.ballVsBrick_kept (host : Host F) :
    ∀ (balls : List (Ball F)) (bricks : List (Brick F)) (drops : List (Drop F)) (k : Nat),
      List.Forall₂ Scene.BrickKept bricks (Scene.ballVsBrick host balls bricks drops k).bricks ∧
        Scene.deactivated bricks (Scene.ballVsBrick host balls bricks drops k).bricks
          ≤ balls.length := by
  intro balls
  induction balls with
  | nil =>
    intro bricks drops k
    exact ⟨Scene.forall₂_kept_refl bricks, by simp [Scene.ballVsBrick, Scene.deactivated_self]⟩
  | cons b rest ih =>
    intro bricks drops k
    have h1 := Scene.ballStep_kept host b bricks drops k
    have h2 := ih (Scene.ballStep host b bricks drops k).bricks
      (Scene.ballStep host b bricks drops k).drops
      (Scene.ballStep host b bricks drops k).randCalls
    rw [Scene.ballVsBrick]
    refine ⟨Scene.forall₂_kept_trans h1.1 h2.1, ?_⟩
    have := Scene.deactivated_triangle h1.1 h2.1
    simp only [List.length_cons]
    omega

theorem Scene.ballVsBrick_append_bricks (host : Host F) (ball : Ball F)
    (pre post : List (Ball F)) (bricks : List (Brick F)) (drops : List (Drop F)) (k : Nat) :
    (Scene.ballVsBrick host (pre ++ ball :: post) bricks drops k).bricks =
      (Scene.ballVsBrick host post
        (Scene.ballStep host ball (Scene.ballVsBrick host pre bricks drops k).bricks
          (Scene.ballVsBrick host pre bricks drops k).drops
          (Scene.ballVsBrick host pre bricks drops k).randCalls).bricks
        (Scene.ballStep host ball (Scene.ballVsBrick host pre bricks drops k).bricks
          (Scene.ballVsBrick host pre bricks drops k).drops
          (Scene.ballVsBrick host pre bricks drops k).randCalls).drops
        (Scene.ballStep host ball (Scene.ballVsBrick host pre bricks drops k).bricks
          (Scene.ballVsBrick host pre bricks drops k).drops
          (Scene.ballVsBrick host pre bricks drops k).randCalls).randCalls).bricks := by
  rw [Scene.ballVsBrick_append]

/-- C2: in the ball-vs-brick pass over `pre ++ ball :: post`, let the bricks be
`bpre ++ brick :: bpost` when the turn of `ball` comes, `brick` being the
first brick that is active and intersects the rectangle of `ball`.  If
`overlapX ≥ overlapY` (a tie included), the ball leaves the pass with `vy`
negated, `vx` unchanged, `x` unchanged, and `y` equal to
`brickTop - ballHeight - 1` when `ballTop < brickTop`, to `brickBottom + 1`
otherwise; and a breakable `brick` is inactive after the pass. -/
theorem C2_brick_bounce_vertical (host : Host F) (pre post : List (Ball F)) (ball : Ball F)
    (bricks : List (Brick F)) (drops : List (Drop F)) (k : Nat) (ballRect : SDL_FRect F)
    (bpre bpost : List (Brick F)) (brick : Brick F) (brickRect : SDL_FRect F)
    (hball : ball.transform = some ballRect)
    (hbricks : (Scene.ballVsBrick host pre bricks drops k).bricks = bpre ++ brick :: bpost)
    (hfirst : ∀ b ∈ bpre, Scene.brickIsHit ballRect b = false)
    (ha : brick.IsActive = true) (hbt : brick.transform = some brickRect)
    (hit : SDL_HasIntersectionF ballRect brickRect = true)
    (hge : Scene.overlapX ballRect brickRect ≥ Scene.overlapY ballRect brickRect) :
    (∃ ball', (Scene.ballVsBrick host (pre ++ ball :: post) bricks drops k).balls[pre.length]?
        = some ball' ∧
      ball'.velY = -ball.velY ∧ ball'.velX = ball.velX ∧
      ball'.transform = some
        ⟨ballRect.x,
         if ballRect.y < brickRect.y then brickRect.y - ballRect.h - 1
          else brickRect.y + brickRect.h + 1,
         ballRect.w, ballRect.h⟩) ∧
    (∃ brick', (Scene.ballVsBrick host (pre ++ ball :: post) bricks drops k).bricks[bpre.length]?
        = some brick' ∧
      (brick.IsUnbreakable = false → brick'.IsActive = false)) := by
  have hstep := Scene.ballStep_first_hit host ball ballRect bpre bpost brick brickRect
    (Scene.ballVsBrick host pre bricks drops k).drops
    (Scene.ballVsBrick host pre bricks drops k).randCalls hball hfirst ha hbt hit
  constructor
  · refine ⟨_, Scene.ballVsBrick_getElem host pre post ball bricks drops k, ?_⟩
    rw [hbricks, hstep]
    have hnlt : ¬ Scene.overlapX ballRect brickRect < Scene.overlapY ballRect brickRect :=
      not_lt.mpr hge
    simp only [Scene.bounceOffBrick, hnlt, if_false]
    split_ifs <;>
      simp [Ball.ReverseVelY, Ball.moveTransform, hball, TransformComponent.move]
  · rw [Scene.ballVsBrick_append_bricks, hbricks, hstep]
    obtain ⟨y, hy, hk⟩ := Scene.forall₂_kept_at bpre
      (Scene.ballVsBrick_kept host post (bpre ++ brick.SetActive false :: bpost)
        (Scene.breakBrick host brick brickRect (Scene.ballVsBrick host pre bricks drops k).drops
          (Scene.ballVsBrick host pre bricks drops k).randCalls).2.1
        (Scene.breakBrick host brick brickRect (Scene.ballVsBrick host pre bricks drops k).drops
          (Scene.ballVsBrick host pre bricks drops k).randCalls).2.2).1
    refine ⟨y, hy, ?_⟩
    intro hu
    apply hk.inactive
    have hu' : brick.unbreakable = false := hu
    simp [Brick.SetActive, hu']

/-- Witness of C2: a ball at `(120, 140)` of size 20 overlaps the second brick
of `exBricks` by 20 in x and 5 in y; it leaves at `y = 146` with `vy`
negated, and the brick is inactive after the pass. -/
theorem C2_brick_bounce_vertical_witness :
    Scene.overlapX (⟨120, 140, 20, 20⟩ : SDL_FRect ℚ) ⟨100, 100, 90, 45⟩ ≥
      Scene.overlapY (⟨120, 140, 20, 20⟩ : SDL_FRect ℚ) ⟨100, 100, 90, 45⟩ ∧
    (∃ ball', (Scene.ballVsBrick exHost ([] ++ exBall ⟨120, 140, 20, 20⟩ 100 (-50) :: [])
        exBricks [] 0).balls[([] : List (Ball ℚ)).length]? = some ball' ∧
      ball'.velY = -(exBall ⟨120, 140, 20, 20⟩ 100 (-50)).velY ∧
      ball'.velX = (exBall ⟨120, 140, 20, 20⟩ 100 (-50)).velX ∧
      ball'.transform = some
        ⟨120, if (140 : ℚ) < 100 then 100 - 20 - 1 else 100 + 45 + 1, 20, 20⟩) ∧
    (∃ brick', (Scene.ballVsBrick exHost ([] ++ exBall ⟨120, 140, 20, 20⟩ 100 (-50) :: [])
        exBricks [] 0).bricks[[exBrick ⟨90, 100, 90, 45⟩ false false].length]? = some brick' ∧
      ((exBrick ⟨100, 100, 90, 45⟩ true false).IsUnbreakable = false →
        brick'.IsActive = false)) :=
  ⟨by decide!,
    C2_brick_bounce_vertical exHost [] [] (exBall ⟨120, 140, 20, 20⟩ 100 (-50)) exBricks [] 0
      ⟨120, 140, 20, 20⟩ [exBrick ⟨90, 100, 90, 45⟩ false false]
      [exBrick ⟨110, 100, 90, 45⟩ true false] (exBrick ⟨100, 100, 90, 45⟩ true false)
      ⟨100, 100, 90, 45⟩ rfl rfl (by decide!) rfl rfl (by decide!) (by decide!)⟩

/-- C3: in the ball-vs-brick pass every ball resolves against at most one
brick.  The pass deactivates at most as many bricks as there are balls.  For
a ball with a Transform, on the bricks as the balls before it left them: if
no brick is active and intersecting, its turn changes neither the bricks nor
the ball; otherwise the first such brick gets `SetActive(false)`, every other
brick is untouched, and the ball leaves the pass with exactly one of `vx`,
`vy` negated. -/
theorem C3_one_brick_per_ball (host : Host F) (pre post : List (Ball F)) (ball : Ball F)
    (bricks : List (Brick F)) (drops : List (Drop F)) (k : Nat) (ballRect : SDL_FRect F)
    (hball : ball.transform = some ballRect) :
    (∀ balls : List (Ball F),
      Scene.deactivated bricks (Scene.ballVsBrick host balls bricks drops k).bricks
        ≤ balls.length) ∧
    ((∀ b ∈ (Scene.ballVsBrick host pre bricks drops k).bricks,
        Scene.brickIsHit ballRect b = false) →
      (Scene.ballVsBrick host (pre ++ ball :: []) bricks drops k).bricks =
        (Scene.ballVsBrick host pre bricks drops k).bricks ∧
      (Scene.ballVsBrick host (pre ++ ball :: post) bricks drops k).balls[pre.length]? =
        some ball) ∧
    (∀ (bpre bpost : List (Brick F)) (brick : Brick F) (brickRect : SDL_FRect F),
      (Scene.ballVsBrick host pre bricks drops k).bricks = bpre ++ brick :: bpost →
      (∀ b ∈ bpre, Scene.brickIsHit ballRect b = false) →
      brick.IsActive = true → brick.transform = some brickRect →
      SDL_HasIntersectionF ballRect brickRect = true →
      (Scene.ballVsBrick host (pre ++ ball :: []) bricks drops k).bricks =
        bpre ++ brick.SetActive false :: bpost ∧
      ∃ ball', (Scene.ballVsBrick host (pre ++ ball :: post) bricks drops k).balls[pre.length]?
          = some ball' ∧
        ((ball'.velX = -ball.velX ∧ ball'.velY = ball.velY) ∨
         (ball'.velX = ball.velX ∧ ball'.velY = -ball.velY))) := by
  refine ⟨fun balls => (Scene.ballVsBrick_kept host balls bricks drops k).2, ?_, ?_⟩
  · intro hnone
    constructor
    · rw [Scene.ballVsBrick_append_bricks]
      simp only [Scene.ballVsBrick, Scene.ballStep, hball]
      rw [Scene.scanBricks_all_miss host ball ballRect _ _ _ hnone]
    · rw [Scene.ballVsBrick_getElem]
      simp only [Scene.ballStep, hball]
      rw [Scene.scanBricks_all_miss host ball ballRect _ _ _ hnone]
  · intro bpre bpost brick brickRect hbricks hfirst ha hbt hit
    have hstep := Scene.ballStep_first_hit host ball ballRect bpre bpost brick brickRect
      (Scene.ballVsBrick host pre bricks drops k).drops
      (Scene.ballVsBrick host pre bricks drops k).randCalls hball hfirst ha hbt hit
    constructor
    · rw [Scene.ballVsBrick_append_bricks, hbricks, hstep]
      rfl
    · refine ⟨_, Scene.ballVsBrick_getElem host pre post ball bricks drops k, ?_⟩
      rw [hbricks, hstep]
      simp only [Scene.bounceOffBrick]
      split_ifs <;>
        simp [Ball.ReverseVelX, Ball.ReverseVelY, Ball.moveTransform]

/-- Witness of C3: a ball at `(120, 140)` overlaps the second and the third
brick of `exBricks`; only the second one is deactivated. -/
theorem C3_one_brick_per_ball_witness :
    (Scene.ballVsBrick exHost ([] ++ exBall ⟨120, 140, 20, 20⟩ 100 (-50) :: [])
        exBricks [] 0).bricks =
      [exBrick ⟨90, 100, 90, 45⟩ false false] ++
        (exBrick ⟨100, 100, 90, 45⟩ true false).SetActive false ::
        [exBrick ⟨110, 100, 90, 45⟩ true false] ∧
    Scene.brickIsHit (⟨120, 140, 20, 20⟩ : SDL_FRect ℚ)
      (exBrick ⟨110, 100, 90, 45⟩ true false) = true ∧
    Scene.deactivated exBricks
      (Scene.ballVsBrick exHost [exBall ⟨120, 140, 20, 20⟩ 100 (-50)] exBricks [] 0).bricks
        ≤ [exBall ⟨120, 140, 20, 20⟩ 100 (-50)].length :=
  have h := C3_one_brick_per_ball exHost [] [] (exBall ⟨120, 140, 20, 20⟩ 100 (-50)) exBricks
    [] 0 ⟨120, 140, 20, 20⟩ rfl
  ⟨(h.2.2 [exBrick ⟨90, 100, 90, 45⟩ false false] [exBrick ⟨110, 100, 90, 45⟩ true false]
      (exBrick ⟨100, 100, 90, 45⟩ true false) ⟨100, 100, 90, 45⟩ rfl (by decide!) rfl rfl
      (by decide!)).1,
    by decide!, h.1 _⟩

/-! ### The paddle deflection -/

/-- Polar form over the reals: `sqrt(vx² + vy²)` times the cosine and the sine
of `atan2(vy, vx)` give back `vx` and `vy`, also at the origin. -/
theorem realCMath_polar (vx vy : ℝ) :
    Real.sqrt (vx * vx + vy * vy) * Real.cos (realAtan2 vy vx) = vx ∧
    Real.sqrt (vx * vx + vy * vy) * Real.sin (realAtan2 vy vx) = vy := by
  have habs : Complex.abs ⟨vx, vy⟩ = Real.sqrt (vx * vx + vy * vy) := by
    rw [Complex.abs_apply, Complex.normSq_mk]
  unfold realAtan2
  rw [← habs]
  by_cases hz : (⟨vx, vy⟩ : ℂ) = 0
  · have hx : vx = 0 := by
      have := congrArg Complex.re hz
      simpa using this
    have hy : vy = 0 := by
      have := congrArg Complex.im hz
      simpa using this
    subst hx
    subst hy
    have h0 : (⟨0, 0⟩ : ℂ) = 0 := rfl
    rw [h0]
    simp
  · have hne : Complex.abs ⟨vx, vy⟩ ≠ 0 := (map_ne_zero Complex.abs).mpr hz
    rw [Complex.cos_arg hz, Complex.sin_arg]
    constructor
    · field_simp
    · field_simp

/-- The deflected velocity over the reals is the velocity turned by
`sign * π / 18`. -/
theorem Scene.deflect_real_eq_rotation (sign : Int) (ball : Ball ℝ) :
    (Scene.deflect realCMath sign ball).velX =
        ball.velX * Real.cos ((sign : ℝ) * (Real.pi / 18)) -
          ball.velY * Real.sin ((sign : ℝ) * (Real.pi / 18)) ∧
    (Scene.deflect realCMath sign ball).velY =
        ball.velX * Real.sin ((sign : ℝ) * (Real.pi / 18)) +
          ball.velY * Real.cos ((sign : ℝ) * (Real.pi / 18)) ∧
    (Scene.deflect realCMath sign ball).toGameEntity = ball.toGameEntity := by
  obtain ⟨hc, hs⟩ := realCMath_polar ball.velX ball.velY
  have hang : (10 : ℝ) * (Real.pi / 180) = Real.pi / 18 := by ring
  simp only [Scene.deflect, realCMath, Ball.SetVelocity, hang, Real.cos_add, Real.sin_add,
    and_true]
  constructor
  · calc Real.sqrt (ball.velX * ball.velX + ball.velY * ball.velY) *
          (Real.cos (realAtan2 ball.velY ball.velX) * Real.cos ((sign : ℝ) * (Real.pi / 18)) -
            Real.sin (realAtan2 ball.velY ball.velX) * Real.sin ((sign : ℝ) * (Real.pi / 18)))
        = (Real.sqrt (ball.velX * ball.velX + ball.velY * ball.velY) *
            Real.cos (realAtan2 ball.velY ball.velX)) * Real.cos ((sign : ℝ) * (Real.pi / 18)) -
          (Real.sqrt (ball.velX * ball.velX + ball.velY * ball.velY) *
            Real.sin (realAtan2 ball.velY ball.velX)) * Real.sin ((sign : ℝ) * (Real.pi / 18)) := by
          ring
      _ = _ := by rw [hc, hs]
  · calc Real.sqrt (ball.velX * ball.velX + ball.velY * ball.velY) *
          (Real.sin (realAtan2 ball.velY ball.velX) * Real.cos ((sign : ℝ) * (Real.pi / 18)) +
            Real.cos (realAtan2 ball.velY ball.velX) * Real.sin ((sign : ℝ) * (Real.pi / 18)))
        = (Real.sqrt (ball.velX * ball.velX + ball.velY * ball.velY) *
            Real.cos (realAtan2 ball.velY ball.velX)) * Real.sin ((sign : ℝ) * (Real.pi / 18)) +
          (Real.sqrt (ball.velX * ball.velX + ball.velY * ball.velY) *
            Real.sin (realAtan2 ball.velY ball.velX)) * Real.cos ((sign : ℝ) * (Real.pi / 18)) := by
          ring
      _ = _ := by rw [hc, hs]

/-- C9: over the real numbers, for every velocity `(vx, vy)` and every bias
sign, the velocity `(speed*cos(newAngle), speed*sin(newAngle))` set by the
paddle deflection satisfies `vx'^2 + vy'^2 = vx^2 + vy^2`; the zero velocity
stays zero. -/
theorem C9_deflect_preserves_speed (sign : Int) (ball : Ball ℝ) :
    (Scene.deflect realCMath sign ball).velX ^ 2 + (Scene.deflect realCMath sign ball).velY ^ 2
        = ball.velX ^ 2 + ball.velY ^ 2 ∧
    (Scene.deflect realCMath sign (ball.SetVelocity 0 0)).velX = 0 ∧
    (Scene.deflect realCMath sign (ball.SetVelocity 0 0)).velY = 0 := by
  have hnn : 0 ≤ ball.velX * ball.velX + ball.velY * ball.velY :=
    add_nonneg (mul_self_nonneg _) (mul_self_nonneg _)
  refine ⟨?_, ?_, ?_⟩
  · simp only [Scene.deflect, realCMath, Ball.SetVelocity]
    have hcs := Real.cos_sq_add_sin_sq
      (realAtan2 ball.velY ball.velX + (sign : ℝ) * (10 * (Real.pi / 180)))
    calc (Real.sqrt (ball.velX * ball.velX + ball.velY * ball.velY) *
            Real.cos (realAtan2 ball.velY ball.velX + (sign : ℝ) * (10 * (Real.pi / 180)))) ^ 2 +
          (Real.sqrt (ball.velX * ball.velX + ball.velY * ball.velY) *
            Real.sin (realAtan2 ball.velY ball.velX + (sign : ℝ) * (10 * (Real.pi / 180)))) ^ 2
        = Real.sqrt (ball.velX * ball.velX + ball.velY * ball.velY) ^ 2 *
          (Real.cos (realAtan2 ball.velY ball.velX + (sign : ℝ) * (10 * (Real.pi / 180))) ^ 2 +
            Real.sin (realAtan2 ball.velY ball.velX + (sign : ℝ) * (10 * (Real.pi / 180))) ^ 2) := by
          ring
      _ = ball.velX ^ 2 + ball.velY ^ 2 := by
          rw [hcs, Real.sq_sqrt hnn]
          ring
  · simp [Scene.deflect, realCMath, Ball.SetVelocity]
  · simp [Scene.deflect, realCMath, Ball.SetVelocity]

/-! ### The ball-vs-paddle pass -/

theorem Scene.bias_fst (host : Host F) (paddleVel : F) (k : Nat) :
    (Scene.bias host paddleVel k).1 = 1 ∨ (Scene.bias host paddleVel k).1 = -1 := by
  unfold Scene.bias
  split_ifs <;> simp

/-- The ball at index `i` after the loop is the result of the loop body on the
ball at index `i` before it, for the call counter reached at its turn. -/
theorem Scene.paddleLoop_getElem (host : Host F) (paddleVel : F) (paddleRect : SDL_FRect F) :
    ∀ (balls : List (Ball F)) (k i : Nat) (ball : Ball F), balls[i]? = some ball →
      ∃ k', (Scene.paddleLoop host paddleVel paddleRect balls k).1[i]? =
        some (Scene.paddleStep host paddleVel paddleRect ball k').1 := by
  intro balls
  induction balls with
  | nil =>
    intro k i ball h
    simp at h
  | cons b rest ih =>
    intro k i ball h
    cases i with
    | zero =>
      simp only [List.getElem?_cons_zero, Option.some.injEq] at h
      subst h
      exact ⟨k, by simp [Scene.paddleLoop]⟩
    | succ i =>
      simp only [List.getElem?_cons_succ] at h
      obtain ⟨k', hk'⟩ := ih (Scene.paddleStep host paddleVel paddleRect b k).2 i ball h
      exact ⟨k', by simpa [Scene.paddleLoop] using hk'⟩

theorem Scene.paddleLoop_length (host : Host F) (paddleVel : F) (paddleRect : SDL_FRect F) :
    ∀ (balls : List (Ball F)) (k : Nat),
      (Scene.paddleLoop host paddleVel paddleRect balls k).1.length = balls.length := by
  intro balls
  induction balls with
  | nil => intro k; rfl
  | cons b rest ih =>
    intro k
    simp [Scene.paddleLoop, ih]

/-- C10: in the ball-vs-paddle pass (paddle with a collider, real math
library), the ball list keeps its length and every ball keeps its index.  A
ball whose rectangle intersects the collider rectangle of the paddle keeps
its `x` and its size, gets `y = paddleTop - ballHeight - 1`, and its new
velocity is the reflected velocity `(vx, -vy)` turned by `sign * π / 18`,
`sign` being the bias chosen at its turn, which is `1` or `-1`.  A ball that
has no Transform or does not intersect the paddle is unchanged. -/
theorem C10_paddle_pass (host : Host ℝ) (s : Scene ℝ) (k : Nat) (paddle : Paddle ℝ)
    (paddleRect : SDL_FRect ℝ) (hcm : host.cmath = realCMath)
    (hp : s.mPlayerPaddle = some paddle) (hc : paddle.collider = some paddleRect) :
    (Scene.ballVsPaddle host s k).1.mBalls.length = s.mBalls.length ∧
    ∀ (i : Nat) (ball : Ball ℝ), s.mBalls[i]? = some ball →
      (∀ ballRect : SDL_FRect ℝ, ball.transform = some ballRect →
        SDL_HasIntersectionF ballRect paddleRect = true →
        ∃ (ball' : Ball ℝ) (k' : Nat) (sign : Int),
          (Scene.ballVsPaddle host s k).1.mBalls[i]? = some ball' ∧
          sign = (Scene.bias host paddle.instantaneousVelocity k').1 ∧
          (sign = 1 ∨ sign = -1) ∧
          ball'.transform =
            some ⟨ballRect.x, paddleRect.y - ballRect.h - 1, ballRect.w, ballRect.h⟩ ∧
          ball'.velX = ball.velX * Real.cos ((sign : ℝ) * (Real.pi / 18)) -
            (-ball.velY) * Real.sin ((sign : ℝ) * (Real.pi / 18)) ∧
          ball'.velY = ball.velX * Real.sin ((sign : ℝ) * (Real.pi / 18)) +
            (-ball.velY) * Real.cos ((sign : ℝ) * (Real.pi / 18))) ∧
      ((ball.transform = none ∨
          ∃ ballRect, ball.transform = some ballRect ∧
            SDL_HasIntersectionF ballRect paddleRect = false) →
        (Scene.ballVsPaddle host s k).1.mBalls[i]? = some ball) := by
  have hpass : (Scene.ballVsPaddle host s k).1.mBalls =
      (Scene.paddleLoop host paddle.instantaneousVelocity paddleRect s.mBalls k).1 := by
    simp only [Scene.ballVsPaddle, hp, hc]
  rw [hpass]
  refine ⟨Scene.paddleLoop_length host _ _ _ _, ?_⟩
  intro i ball hi
  obtain ⟨k', hk'⟩ :=
    Scene.paddleLoop_getElem host paddle.instantaneousVelocity paddleRect s.mBalls k i ball hi
  rw [hk']
  constructor
  · intro ballRect hbt hit
    refine ⟨_, k', (Scene.bias host paddle.instantaneousVelocity k').1, rfl, rfl,
      Scene.bias_fst host _ _, ?_⟩
    simp only [Scene.paddleStep, hbt, hit, if_true, hcm]
    obtain ⟨hx, hy, he⟩ := Scene.deflect_real_eq_rotation
      (Scene.bias host paddle.instantaneousVelocity k').1
      ((ball.moveTransform ballRect.x (paddleRect.y - ballRect.h - 1)).ReverseVelY)
    refine ⟨?_, ?_, ?_⟩
    · rw [he]
      simp [Ball.ReverseVelY, Ball.moveTransform, hbt, TransformComponent.move]
    · rw [hx]
      simp [Ball.ReverseVelY, Ball.moveTransform]
    · rw [hy]
      simp [Ball.ReverseVelY, Ball.moveTransform]
  · rintro (hnone | ⟨ballRect, hbt, hmiss⟩)
    · simp [Scene.paddleStep, hnone]
    · simp [Scene.paddleStep, hbt, hmiss]

/-- Witness of C10 on `exRealScene`: the first ball overlaps the paddle, which
moves right, so it is put at `y = 900 - 20 - 1` and its reflected velocity
`(30, -40)` is turned by `π / 18`; the second ball is unchanged. -/
theorem C10_paddle_pass_witness :
    SDL_HasIntersectionF (⟨720, 890, 20, 20⟩ : SDL_FRect ℝ) ⟨700, 900, 100, 20⟩ = true ∧
    (∃ (ball' : Ball ℝ) (k' : Nat) (sign : Int),
      (Scene.ballVsPaddle exRealHost exRealScene 0).1.mBalls[0]? = some ball' ∧
      sign = (Scene.bias exRealHost 300 k').1 ∧
      (sign = 1 ∨ sign = -1) ∧
      ball'.transform = some ⟨720, 900 - 20 - 1, 20, 20⟩ ∧
      ball'.velX = 30 * Real.cos ((sign : ℝ) * (Real.pi / 18)) -
        (-40) * Real.sin ((sign : ℝ) * (Real.pi / 18)) ∧
      ball'.velY = 30 * Real.sin ((sign : ℝ) * (Real.pi / 18)) +
        (-40) * Real.cos ((sign : ℝ) * (Real.pi / 18))) ∧
    (Scene.ballVsPaddle exRealHost exRealScene 0).1.mBalls[1]? =
      some { transform := some ⟨100, 200, 20, 20⟩, collider := some ⟨100, 200, 20, 20⟩,
             mSpeed := 250, xPositiveDirection := 1, velX := 0, velY := 250 } :=
  have hit : SDL_HasIntersectionF (⟨720, 890, 20, 20⟩ : SDL_FRect ℝ) ⟨700, 900, 100, 20⟩
      = true := by
    rw [SDL_HasIntersectionF_iff]
    norm_num
  have hmiss : SDL_HasIntersectionF (⟨100, 200, 20, 20⟩ : SDL_FRect ℝ) ⟨700, 900, 100, 20⟩
      = false := by
    rw [← Bool.not_eq_true, SDL_HasIntersectionF_iff]
    norm_num
  have h := C10_paddle_pass exRealHost exRealScene 0 _ ⟨700, 900, 100, 20⟩ rfl rfl rfl
  ⟨hit, (h.2 0 _ rfl).1 ⟨720, 890, 20, 20⟩ rfl hit,
    (h.2 1 _ rfl).2 (Or.inr ⟨⟨100, 200, 20, 20⟩, rfl, hmiss⟩)⟩

/-! ### Scene.Update by stages -/

/-- The whole frame is the termination checks applied to the scene the
cleanup step leaves. -/
theorem Scene.Update_eq (host : Host F) (s : Scene F) (k : Nat) (dt : F) :
    Scene.Update host s k dt = Scene.finish (Scene.afterCleanup host s k dt) := rfl

/-- The cleanup scan from a position `pre.length` with `suf` still ahead
removes from `suf` exactly the balls that are out. -/
theorem Scene.cleanupLoop_eq (fuel : Nat) :
    ∀ (pre suf : List (Ball F)), suf.length ≤ fuel →
      Scene.cleanupLoop fuel pre.length (pre ++ suf) =
        pre ++ suf.filter (fun b => !Scene.ballIsOut b) := by
  induction fuel with
  | zero =>
    intro pre suf h
    have : suf = [] := List.eq_nil_of_length_eq_zero (Nat.le_zero.mp h)
    subst this
    simp [Scene.cleanupLoop]
  | succ fuel ih =>
    intro pre suf h
    cases suf with
    | nil => simp [Scene.cleanupLoop]
    | cons b suf =>
      have hlen : suf.length ≤ fuel := by
        simp only [List.length_cons] at h
        omega
      have hget : (pre ++ b :: suf)[pre.length]? = some b := by
        rw [List.getElem?_append_right (le_refl _)]
        simp
      have hstep := ih (pre ++ [b]) suf hlen
      simp only [List.length_append, List.length_singleton, List.append_assoc,
        List.singleton_append] at hstep
      have herase : (pre ++ b :: suf).eraseIdx pre.length = pre ++ suf := by
        rw [List.eraseIdx_append_of_length_le (le_refl _)]
        simp
      rw [Scene.cleanupLoop, hget]
      simp only
      cases htr : b.transform with
      | none =>
        have hp : Scene.ballIsOut b = false := by
          simp [Scene.ballIsOut, htr]
        simp only [hstep, List.filter_cons, hp]
        simp
      | some tr =>
        by_cases hy : tr.y > 1000
        · have hp : Scene.ballIsOut b = true := by
            simp [Scene.ballIsOut, htr, hy]
          simp only [hy, if_true, herase, ih pre suf hlen, List.filter_cons, hp]
          simp
        · have hp : Scene.ballIsOut b = false := by
            simp [Scene.ballIsOut, htr, hy]
          simp only [hy, if_false, hstep, List.filter_cons, hp]
          simp

/-- The cleanup step is a filter. -/
theorem Scene.cleanup_eq_filter (balls : List (Ball F)) :
    Scene.cleanupLoop balls.length 0 balls = balls.filter (fun b => !Scene.ballIsOut b) := by
  have h := Scene.cleanupLoop_eq balls.length [] balls (le_refl _)
  simpa using h

theorem Scene.ballIsOut_eq_false_iff (b : Ball F) :
    Scene.ballIsOut b = false ↔ b.toGameEntity.getY ≤ 1000 := by
  unfold Scene.ballIsOut GameEntity.getY
  cases b.transform with
  | none => simp
  | some tr => simp

/-- C12: the cleanup step leaves exactly the balls whose y (as `getY` reads it)
is at most 1000, as they were and in their order: the result is the ball list
filtered by `y ≤ 1000`, for any number of iterations from `mBalls.size()`
on.  Every ball with `y > 1000` is removed, a ball with `y = 1000` is kept. -/
theorem C12_cleanup_keeps_balls_up_to_1000 (balls : List (Ball F)) :
    (∀ fuel, balls.length ≤ fuel →
      Scene.cleanupLoop fuel 0 balls =
        balls.filter (fun b => decide (b.toGameEntity.getY ≤ 1000))) ∧
    List.Sublist (Scene.cleanupLoop balls.length 0 balls) balls ∧
    (∀ b, b ∈ Scene.cleanupLoop balls.length 0 balls ↔
      b ∈ balls ∧ b.toGameEntity.getY ≤ 1000) ∧
    (∀ b tr, b ∈ balls → b.transform = some tr → tr.y > 1000 →
      b ∉ Scene.cleanupLoop balls.length 0 balls) ∧
    (∀ b tr, b ∈ balls → b.transform = some tr → tr.y = 1000 →
      b ∈ Scene.cleanupLoop balls.length 0 balls) := by
  have hfilter : (fun b : Ball F => !Scene.ballIsOut b) =
      (fun b => decide (b.toGameEntity.getY ≤ 1000)) := by
    funext b
    rw [Bool.eq_iff_iff]
    simp [Scene.ballIsOut_eq_false_iff]
  have hall : ∀ fuel, balls.length ≤ fuel →
      Scene.cleanupLoop fuel 0 balls =
        balls.filter (fun b => decide (b.toGameEntity.getY ≤ 1000)) := by
    intro fuel hfuel
    have h := Scene.cleanupLoop_eq fuel [] balls hfuel
    simp only [List.length_nil, List.nil_append] at h
    rw [h, hfilter]
  have hEq := hall balls.length (le_refl _)
  refine ⟨hall, ?_, ?_, ?_, ?_⟩
  · rw [hEq]
    exact List.filter_sublist _
  · intro b
    rw [hEq, List.mem_filter]
    simp
  · intro b tr _ hb hy
    rw [hEq, List.mem_filter]
    simp only [GameEntity.getY, hb, decide_eq_true_eq, not_and, not_le]
    exact fun _ => hy
  · intro b tr hmem hb hy
    rw [hEq, List.mem_filter]
    refine ⟨hmem, ?_⟩
    simp [GameEntity.getY, hb, hy]

/-- Witness of C12: of four balls at y = 1200, 1000.5, 1000 and 500 the first
two, one right after the other, are removed. -/
theorem C12_cleanup_keeps_balls_up_to_1000_witness :
    Scene.cleanupLoop 4 0
        [exBall ⟨10, 1200, 20, 20⟩ 0 250, exBall ⟨50, 2001 / 2, 20, 20⟩ 0 250,
         exBall ⟨90, 1000, 20, 20⟩ 0 250, exBall ⟨130, 500, 20, 20⟩ 0 250] =
      [exBall ⟨90, 1000, 20, 20⟩ 0 250, exBall ⟨130, 500, 20, 20⟩ 0 250] :=
  ((C12_cleanup_keeps_balls_up_to_1000
      [exBall ⟨10, 1200, 20, 20⟩ 0 250, exBall ⟨50, 2001 / 2, 20, 20⟩ 0 250,
       exBall ⟨90, 1000, 20, 20⟩ 0 250, exBall ⟨130, 500, 20, 20⟩ 0 250]).1 4
    (by decide)).trans (by decide!)

/-! ### The termination checks -/

theorem Scene.finish_eq_gameOver_iff (st : Scene F × Nat) :
    Scene.finish st = Outcome.gameOver ↔ st.1.mBalls = [] := by
  unfold Scene.finish
  cases hb : st.1.mBalls with
  | nil => simp
  | cons b rest =>
    simp only [List.isEmpty_cons, Bool.false_eq_true, if_false]
    split <;> simp

theorem Scene.allCleared_iff (bricks : List (Brick F)) :
    Scene.allCleared bricks = true ↔
      ∀ b ∈ bricks, b.IsUnbreakable = false → b.IsActive = false := by
  induction bricks with
  | nil => simp [Scene.allCleared]
  | cons b rest ih =>
    rw [Scene.allCleared]
    by_cases h : (b.IsActive && !b.IsUnbreakable) = true
    · simp only [h, if_true, Bool.false_eq_true, false_iff]
      intro hall
      simp only [Bool.and_eq_true, Bool.not_eq_true'] at h
      have := hall b (List.mem_cons_self _ _) h.2
      rw [h.1] at this
      exact absurd this (by simp)
    · rw [if_neg h, ih]
      simp only [List.mem_cons, forall_eq_or_imp]
      constructor
      · intro hrest
        refine ⟨?_, hrest⟩
        intro hu
        simp only [Bool.and_eq_true, Bool.not_eq_true', not_and, Bool.not_eq_false] at h
        cases ha : b.IsActive with
        | false => rfl
        | true =>
          have := h ha
          rw [hu] at this
          exact absurd this (by simp)
      · intro hall
        exact hall.2

/-- C13: `Scene.Update` ends in the game-over outcome exactly when the ball
list is empty after the cleanup step, whatever the number of balls removed in
this frame; when a ball remains after cleanup, the call returns. -/
theorem C13_game_over_iff_no_ball_left (host : Host F) (s : Scene F) (k : Nat) (dt : F) :
    (Scene.Update host s k dt = Outcome.gameOver ↔
      (Scene.afterCleanup host s k dt).1.mBalls = []) ∧
    ((Scene.afterCleanup host s k dt).1.mBalls ≠ [] →
      ∃ s' k', Scene.Update host s k dt = Outcome.running s' k') := by
  rw [Scene.Update_eq]
  refine ⟨Scene.finish_eq_gameOver_iff _, ?_⟩
  intro hne
  unfold Scene.finish
  have he : (Scene.afterCleanup host s k dt).1.mBalls.isEmpty = false := by
    cases hb : (Scene.afterCleanup host s k dt).1.mBalls with
    | nil => exact absurd hb hne
    | cons b rest => rfl
  simp only [he, Bool.false_eq_true, if_false]
  split
  · exact ⟨_, _, rfl⟩
  · exact ⟨_, _, rfl⟩

/-- Witness of C13: with one ball or with three balls crossing y = 1000 in the
frame, the outcome is the same game-over. -/
theorem C13_game_over_iff_no_ball_left_witness :
    Scene.Update exHost exSceneFalling 0 (1 / 60) = Outcome.gameOver ∧
    Scene.Update exHost exSceneThreeFalling 0 (1 / 60) = Outcome.gameOver ∧
    ∃ s' k', Scene.Update exHost exSceneFree 0 (1 / 60) = Outcome.running s' k' :=
  ⟨(C13_game_over_iff_no_ball_left exHost exSceneFalling 0 (1 / 60)).1.mpr (by decide!),
   (C13_game_over_iff_no_ball_left exHost exSceneThreeFalling 0 (1 / 60)).1.mpr (by decide!),
   (C13_game_over_iff_no_ball_left exHost exSceneFree 0 (1 / 60)).2 (by decide!)⟩

/-- C14, as stated, fails: in `exSceneFalling` every breakable brick is inactive
after the collision passes, yet the only ball falls below y = 1000 in the
frame, so `Scene.Update` ends in game-over; no scene is returned, and the
status of the scene at that moment is still active. -/
theorem C14_counterexample :
    (∀ b ∈ (Scene.passes exHost exSceneFalling 0 (1 / 60)).1.mBricks,
      b.IsUnbreakable = false → b.IsActive = false) ∧
    Scene.Update exHost exSceneFalling 0 (1 / 60) = Outcome.gameOver ∧
    (¬ ∃ s' k', Scene.Update exHost exSceneFalling 0 (1 / 60) = Outcome.running s' k' ∧
      s'.mSceneIsActive = false ∧ s'.mBalls = []) ∧
    (Scene.afterCleanup exHost exSceneFalling 0 (1 / 60)).1.mSceneIsActive = true := by
  have hgo : Scene.Update exHost exSceneFalling 0 (1 / 60) = Outcome.gameOver := by
    rw [Scene.Update_eq, Scene.finish_eq_gameOver_iff]
    decide!
  refine ⟨?_, hgo, ?_, by decide!⟩
  · rw [← Scene.allCleared_iff]
    decide!
  · rintro ⟨s', k', h, -⟩
    rw [hgo] at h
    exact Outcome.noConfusion h

/-- C14, amended: if after the collision passes every breakable brick is
inactive (none at all included) and at least one ball is left after the
cleanup step, then `Scene.Update` returns with the scene status inactive and
the ball list empty. -/
theorem C14_all_cleared_retires_scene (host : Host F) (s : Scene F) (k : Nat) (dt : F)
    (hcleared : ∀ b ∈ (Scene.passes host s k dt).1.mBricks,
      b.IsUnbreakable = false → b.IsActive = false)
    (hball : (Scene.afterCleanup host s k dt).1.mBalls ≠ []) :
    ∃ s' k', Scene.Update host s k dt = Outcome.running s' k' ∧
      s'.mSceneIsActive = false ∧ s'.mBalls = [] := by
  rw [Scene.Update_eq]
  unfold Scene.finish
  have he : (Scene.afterCleanup host s k dt).1.mBalls.isEmpty = false := by
    cases hb : (Scene.afterCleanup host s k dt).1.mBalls with
    | nil => exact absurd hb hball
    | cons b rest => rfl
  have hc : Scene.allCleared (Scene.afterCleanup host s k dt).1.mBricks = true := by
    rw [Scene.allCleared_iff]
    exact hcleared
  simp only [he, Bool.false_eq_true, if_false, hc, if_true]
  exact ⟨_, _, rfl, rfl, rfl⟩

/-- Witness of the amended C14 on `exSceneWon`: the breakable brick is
inactive, the ball stays in play, and the scene is retired. -/
theorem C14_all_cleared_retires_scene_witness :
    (Scene.afterCleanup exHost exSceneWon 0 (1 / 60)).1.mBalls ≠ [] ∧
    ∃ s' k', Scene.Update exHost exSceneWon 0 (1 / 60) = Outcome.running s' k' ∧
      s'.mSceneIsActive = false ∧ s'.mBalls = [] :=
  ⟨by decide!,
    C14_all_cleared_retires_scene exHost exSceneWon 0 (1 / 60)
      ((Scene.allCleared_iff _).mp (by decide!)) (by decide!)⟩

/-! ### The deflection bias -/

theorem Scene.bias_of_slow (host : Host F) (v : F) (k : Nat) (hv : |v| < 1 / 100) :
    Scene.bias host v k = ((if host.rand k % 2 = 0 then 1 else -1), k + 1) := by
  unfold Scene.bias
  rw [if_pos hv]

theorem Scene.bias_of_fast (host : Host F) (v : F) (k : Nat) (hv : ¬ |v| < 1 / 100) :
    Scene.bias host v k = ((if v > 0 then 1 else -1), k) := by
  unfold Scene.bias
  rw [if_neg hv]

/-- C11: the deflection bias is always `1` or `-1`.  For a paddle velocity `v`
with `|v| < 0.01` it is `1` when the draw is even and `-1` when it is odd,
whatever `v` is, and one draw is made.  Otherwise it is `1` for `v > 0` and
`-1` for `v < 0`, whatever the draws are, and no draw is made. -/
theorem C11_bias_is_a_sign (host : Host F) (v : F) (k : Nat) :
    ((Scene.bias host v k).1 = 1 ∨ (Scene.bias host v k).1 = -1) ∧
    (|v| < 1 / 100 →
      (host.rand k % 2 = 0 → (Scene.bias host v k).1 = 1) ∧
      (host.rand k % 2 = 1 → (Scene.bias host v k).1 = -1) ∧
      (Scene.bias host v k).2 = k + 1 ∧
      ∀ v' : F, |v'| < 1 / 100 → Scene.bias host v' k = Scene.bias host v k) ∧
    (¬ |v| < 1 / 100 →
      (v > 0 → (Scene.bias host v k).1 = 1) ∧
      (v < 0 → (Scene.bias host v k).1 = -1) ∧
      (v > 0 ∨ v < 0) ∧
      (Scene.bias host v k).2 = k ∧
      ∀ (host' : Host F) (k' : Nat), (Scene.bias host' v k').1 = (Scene.bias host v k).1) := by
  refine ⟨Scene.bias_fst host v k, ?_, ?_⟩
  · intro hv
    rw [Scene.bias_of_slow host v k hv]
    refine ⟨?_, ?_, rfl, ?_⟩
    · intro hr
      simp [hr]
    · intro hr
      simp [hr]
    · intro v' hv'
      rw [Scene.bias_of_slow host v' k hv']
  · intro hv
    have hne : v ≠ 0 := by
      intro h0
      apply hv
      rw [h0, abs_zero]
      norm_num
    rw [Scene.bias_of_fast host v k hv]
    refine ⟨?_, ?_, ?_, rfl, ?_⟩
    · intro hpos
      simp [hpos]
    · intro hneg
      simp [not_lt.mpr hneg.le]
    · rcases lt_trichotomy v 0 with h | h | h
      · exact Or.inr h
      · exact absurd h hne
      · exact Or.inl h
    · intro host' k'
      rw [Scene.bias_of_fast host' v k' hv]

/-- Witness of C11: a paddle at rest takes the side from the draw, a paddle
moving left at 300 gets `-1`. -/
theorem C11_bias_is_a_sign_witness :
    (Scene.bias exHost 0 0).1 = 1 ∧ (Scene.bias exHost (-300) 0).1 = -1 :=
  ⟨((C11_bias_is_a_sign exHost 0 0).2.1 (by norm_num)).1 (by decide),
   ((C11_bias_is_a_sign exHost (-300) 0).2.2 (by norm_num)).2.1 (by norm_num)⟩

/-! ### Paddle input -/

/-- C16: for a paddle with an input controller and a Transform of width
`pw ≤ 1600` (so also for `0 ≤ pw ≤ 1600`), whatever the starting x, the keys
and `dt`, the Input hook leaves x in `[0, 1600 - pw]` and does not change y,
width and height. -/
theorem C16_input_clamps_paddle (p : Paddle F) (tr : SDL_FRect F) (mSpeed : F)
    (left right : Bool) (dt : F) (hin : p.input = some mSpeed)
    (htr : p.transform = some tr) (hw : tr.w ≤ 1600) :
    ∃ tr' : SDL_FRect F, (p.Input left right dt).transform = some tr' ∧
      0 ≤ tr'.x ∧ tr'.x ≤ 1600 - tr.w ∧
      tr'.y = tr.y ∧ tr'.w = tr.w ∧ tr'.h = tr.h := by
  unfold Paddle.Input
  simp only [hin, htr]
  refine ⟨_, rfl, ?_, ?_, rfl, rfl, rfl⟩
  · simp only [TransformComponent.move, gt_iff_lt]
    split_ifs <;> linarith
  · simp only [TransformComponent.move, gt_iff_lt]
    split_ifs <;> linarith

/-- Witness of C16: the paddle of the examples, at x = 700 with width 100, is
driven right for ten seconds at speed 300 and stops at x = 1500. -/
theorem C16_input_clamps_paddle_witness :
    (100 : ℚ) ≤ 1600 ∧
    (exPaddle.Input false true 10).transform = some ⟨1500, 900, 100, 20⟩ ∧
    ∃ tr' : SDL_FRect ℚ, (exPaddle.Input false true 10).transform = some tr' ∧
      0 ≤ tr'.x ∧ tr'.x ≤ 1600 - 100 ∧ tr'.y = 900 ∧ tr'.w = 100 ∧ tr'.h = 20 :=
  ⟨by norm_num, by decide!,
    C16_input_clamps_paddle exPaddle ⟨700, 900, 100, 20⟩ 300 false true 10 rfl rfl
      (by norm_num)⟩

end Properties

/-! ### The component map -/

section ComponentProperties

variable {K C : Type} [DecidableEq K]

theorem ComponentMap.find_assign_same (m : ComponentMap K C) (k : K) (c : C) :
    ComponentMap.find (ComponentMap.assign m k c) k = some c := by
  induction m with
  | nil => simp [ComponentMap.assign, ComponentMap.find]
  | cons e rest ih =>
    obtain ⟨k0, c0⟩ := e
    rw [ComponentMap.assign]
    by_cases h : k0 = k
    · simp [h, ComponentMap.find]
    · simp [h, ComponentMap.find, ih]

theorem ComponentMap.find_assign_other (m : ComponentMap K C) (k k' : K) (c : C)
    (hk : k' ≠ k) :
    ComponentMap.find (ComponentMap.assign m k c) k' = ComponentMap.find m k' := by
  induction m with
  | nil =>
    simp [ComponentMap.assign, ComponentMap.find, Ne.symm hk]
  | cons e rest ih =>
    obtain ⟨k0, c0⟩ := e
    rw [ComponentMap.assign]
    by_cases h : k0 = k
    · subst h
      simp [ComponentMap.find, Ne.symm hk]
    · simp only [h, if_false, ComponentMap.find, ih]

theorem ComponentMap.countKind_cons (e : K × C) (rest : ComponentMap K C) (k : K) :
    ComponentMap.countKind (e :: rest) k =
      (if e.1 = k then 1 else 0) + ComponentMap.countKind rest k := by
  unfold ComponentMap.countKind
  rw [List.filter_cons]
  by_cases h : e.1 = k
  · simp [h]
    omega
  · simp [h]

theorem ComponentMap.countKind_assign_other (m : ComponentMap K C) (k k' : K) (c : C)
    (hk : k' ≠ k) :
    ComponentMap.countKind (ComponentMap.assign m k c) k' = ComponentMap.countKind m k' := by
  induction m with
  | nil =>
    simp [ComponentMap.assign, ComponentMap.countKind, Ne.symm hk]
  | cons e rest ih =>
    obtain ⟨k0, c0⟩ := e
    rw [ComponentMap.assign]
    by_cases h : k0 = k
    · subst h
      simp [ComponentMap.countKind_cons, Ne.symm hk]
    · simp only [h, if_false, ComponentMap.countKind_cons, ih]

theorem ComponentMap.countKind_assign_same (m : ComponentMap K C) (k : K) (c : C)
    (hm : ComponentMap.countKind m k ≤ 1) :
    ComponentMap.countKind (ComponentMap.assign m k c) k = 1 := by
  induction m with
  | nil => simp [ComponentMap.assign, ComponentMap.countKind]
  | cons e rest ih =>
    obtain ⟨k0, c0⟩ := e
    rw [ComponentMap.countKind_cons] at hm
    rw [ComponentMap.assign]
    by_cases h : k0 = k
    · simp only [h, if_true] at hm ⊢
      rw [ComponentMap.countKind_cons]
      simp only [if_true]
      omega
    · simp only [h, if_false, zero_add] at hm ⊢
      rw [ComponentMap.countKind_cons]
      simp only [h, if_false, zero_add]
      exact ih hm

/-- Adding a component keeps the map free of double kinds. -/
theorem GameEntity.AddComponent_unique (GetType : C → K) (m : ComponentMap K C) (c : C)
    (hm : ∀ k, ComponentMap.countKind m k ≤ 1) :
    ∀ k, ComponentMap.countKind (GameEntity.AddComponent GetType m c) k ≤ 1 := by
  intro k
  unfold GameEntity.AddComponent
  by_cases h : k = GetType c
  · subst h
    rw [ComponentMap.countKind_assign_same m _ c (hm _)]
  · rw [ComponentMap.countKind_assign_other m _ k c h]
    exact hm k

theorem GameEntity.GetComponent_never_added (GetType : C → K) (isT : C → Bool) (k : K) :
    ∀ (cs : List C) (m : ComponentMap K C), (∀ c ∈ cs, GetType c ≠ k) →
      GameEntity.GetComponent isT (cs.foldl (GameEntity.AddComponent GetType) m) k =
        GameEntity.GetComponent isT m k := by
  intro cs
  induction cs with
  | nil => intro m _; rfl
  | cons c rest ih =>
    intro m h
    rw [List.foldl_cons, ih _ (fun c' hc' => h c' (List.mem_cons_of_mem _ hc'))]
    unfold GameEntity.GetComponent GameEntity.AddComponent
    rw [ComponentMap.find_assign_other m _ k c (Ne.symm (h c (List.mem_cons_self _ _)))]

theorem GameEntity.AddComponent_seq_unique (GetType : C → K) :
    ∀ (cs : List C) (m : ComponentMap K C), (∀ k, ComponentMap.countKind m k ≤ 1) →
      ∀ k, ComponentMap.countKind (cs.foldl (GameEntity.AddComponent GetType) m) k ≤ 1 := by
  intro cs
  induction cs with
  | nil => intro m hm; exact hm
  | cons c rest ih =>
    intro m hm
    rw [List.foldl_cons]
    exact ih _ (GameEntity.AddComponent_unique GetType m c hm)

/-- C15: for a component `c` of kind `GetType c` and a kind `k'` different from
it: after `AddComponent(c)`, `GetComponent` of the kind of `c` returns `c`
when `c` is of the requested class (and the empty result when it is not),
whatever was stored under that kind before; `GetComponent(k')` returns what
it returned before; a map without double kinds stays so and holds exactly one
component of the kind of `c`.  On an entity built from the empty map by
`AddComponent` calls, no kind is held twice, and `GetComponent` of a kind that
was never added returns the empty result. -/
theorem C15_component_map (GetType : C → K) (isT : C → Bool) (m : ComponentMap K C) (c : C)
    (k' : K) :
    (isT c = true →
      GameEntity.GetComponent isT (GameEntity.AddComponent GetType m c) (GetType c) = some c) ∧
    (isT c = false →
      GameEntity.GetComponent isT (GameEntity.AddComponent GetType m c) (GetType c) = none) ∧
    (k' ≠ GetType c →
      GameEntity.GetComponent isT (GameEntity.AddComponent GetType m c) k' =
        GameEntity.GetComponent isT m k') ∧
    ((∀ k, ComponentMap.countKind m k ≤ 1) →
      (∀ k, ComponentMap.countKind (GameEntity.AddComponent GetType m c) k ≤ 1) ∧
      ComponentMap.countKind (GameEntity.AddComponent GetType m c) (GetType c) = 1) ∧
    (∀ (cs : List C) (k : K),
      (∀ k0, ComponentMap.countKind (cs.foldl (GameEntity.AddComponent GetType) []) k0 ≤ 1) ∧
      ((∀ c' ∈ cs, GetType c' ≠ k) →
        GameEntity.GetComponent isT (cs.foldl (GameEntity.AddComponent GetType) []) k
          = none)) := by
  refine ⟨?_, ?_, ?_, ?_, ?_⟩
  · intro h
    unfold GameEntity.GetComponent GameEntity.AddComponent
    rw [ComponentMap.find_assign_same]
    simp [h]
  · intro h
    unfold GameEntity.GetComponent GameEntity.AddComponent
    rw [ComponentMap.find_assign_same]
    simp [h]
  · intro h
    unfold GameEntity.GetComponent GameEntity.AddComponent
    rw [ComponentMap.find_assign_other m _ k' c h]
  · intro hm
    exact ⟨GameEntity.AddComponent_unique GetType m c hm,
      ComponentMap.countKind_assign_same m _ c (hm _)⟩
  · intro cs k
    constructor
    · exact GameEntity.AddComponent_seq_unique GetType cs []
        (fun k0 => by simp [ComponentMap.countKind])
    · intro h
      rw [GameEntity.GetComponent_never_added GetType isT k cs [] h]
      rfl

/-- Witness of C15, with kinds and components as numbers (a component is its
kind and a serial number): a second component of kind 1 replaces the first,
the component of kind 2 stays, and kind 3 was never added. -/
theorem C15_component_map_witness :
    GameEntity.GetComponent (fun _ : Nat × Nat => true)
        (GameEntity.AddComponent Prod.fst [(1, (1, 10)), (2, (2, 20))] (1, 11)) 1
      = some (1, 11) ∧
    GameEntity.GetComponent (fun _ : Nat × Nat => true)
        (GameEntity.AddComponent Prod.fst [(1, (1, 10)), (2, (2, 20))] (1, 11)) 2
      = GameEntity.GetComponent (fun _ : Nat × Nat => true) [(1, (1, 10)), (2, (2, 20))] 2 ∧
    GameEntity.GetComponent (fun _ : Nat × Nat => true)
        ([(1, 10), (2, 20), (1, 11)].foldl (GameEntity.AddComponent Prod.fst) []) 3
      = none :=
  ⟨(C15_component_map Prod.fst (fun _ : Nat × Nat => true) [(1, (1, 10)), (2, (2, 20))]
      (1, 11) 2).1 rfl,
   (C15_component_map Prod.fst (fun _ : Nat × Nat => true) [(1, (1, 10)), (2, (2, 20))]
      (1, 11) 2).2.2.1 (by decide),
   ((C15_component_map Prod.fst (fun _ : Nat × Nat => true) [] (1, 11) 2).2.2.2.2
      [(1, 10), (2, 20), (1, 11)] 3).2 (by decide)⟩

end ComponentProperties

section Properties
variable {F : Type} [LinearOrderedField F]

/-! ### What the frame does to bricks and drops -/

theorem Scene.dropVsPaddle_fields (host : Host F) (s : Scene F) :
    (Scene.dropVsPaddle host s).mBricks = s.mBricks ∧
    (Scene.dropVsPaddle host s).mPlayerPaddle = s.mPlayerPaddle ∧
    (Scene.dropVsPaddle host s).mSceneIsActive = s.mSceneIsActive := by
  unfold Scene.dropVsPaddle
  split
  · exact ⟨rfl, rfl, rfl⟩
  · split
    · exact ⟨rfl, rfl, rfl⟩
    · exact ⟨rfl, rfl, rfl⟩

theorem Scene.ballVsPaddle_fields (host : Host F) (s : Scene F) (k : Nat) :
    (Scene.ballVsPaddle host s k).1.mBricks = s.mBricks ∧
    (Scene.ballVsPaddle host s k).1.mDrops = s.mDrops ∧
    (Scene.ballVsPaddle host s k).1.mPlayerPaddle = s.mPlayerPaddle ∧
    (Scene.ballVsPaddle host s k).1.mSceneIsActive = s.mSceneIsActive := by
  unfold Scene.ballVsPaddle
  split
  · exact ⟨rfl, rfl, rfl, rfl⟩
  · split
    · exact ⟨rfl, rfl, rfl, rfl⟩
    · exact ⟨rfl, rfl, rfl, rfl⟩

theorem Scene.firstMotion_fields (host : Host F) (s : Scene F) (dt : F) :
    (Scene.firstMotion host s dt).mBricks = s.mBricks ∧
    (Scene.firstMotion host s dt).mPlayerPaddle =
      s.mPlayerPaddle.map (fun p => p.Update dt) ∧
    (Scene.firstMotion host s dt).mSceneIsActive = s.mSceneIsActive := by
  unfold Scene.firstMotion
  simp only
  refine ⟨?_, ?_, ?_⟩
  · rw [(Scene.dropVsPaddle_fields host _).1]
  · rw [(Scene.dropVsPaddle_fields host _).2.1]
  · rw [(Scene.dropVsPaddle_fields host _).2.2]

/-- The bricks, the drops and the paddle after the passes, in terms of the
ball-vs-brick pass on the scene after the first motion pass. -/
theorem Scene.passes_fields (host : Host F) (s : Scene F) (k : Nat) (dt : F) :
    (Scene.passes host s k dt).1.mBricks =
      (Scene.ballVsBrick host (Scene.firstMotion host s dt).mBalls s.mBricks
        (Scene.firstMotion host s dt).mDrops k).bricks ∧
    (Scene.passes host s k dt).1.mDrops =
      (Scene.ballVsBrick host (Scene.firstMotion host s dt).mBalls s.mBricks
        (Scene.firstMotion host s dt).mDrops k).drops ∧
    (Scene.passes host s k dt).1.mPlayerPaddle =
      s.mPlayerPaddle.map (fun p => p.Update dt) ∧
    (Scene.passes host s k dt).1.mSceneIsActive = s.mSceneIsActive := by
  unfold Scene.passes
  simp only
  rw [(Scene.ballVsPaddle_fields host _ _).1, (Scene.ballVsPaddle_fields host _ _).2.1,
    (Scene.ballVsPaddle_fields host _ _).2.2.1, (Scene.ballVsPaddle_fields host _ _).2.2.2]
  simp only [(Scene.firstMotion_fields host s dt).1, (Scene.firstMotion_fields host s dt).2.1,
    (Scene.firstMotion_fields host s dt).2.2, and_self]

theorem Scene.forall₂_kept_getElem :
    ∀ {l l' : List (Brick F)}, List.Forall₂ Scene.BrickKept l l' →
      ∀ (i : Nat) (b : Brick F), l[i]? = some b →
        ∃ b', l'[i]? = some b' ∧ Scene.BrickKept b b' := by
  intro l l' h
  induction h with
  | nil =>
    intro i b hb
    simp at hb
  | @cons x y l1 l2 hxy _ ih =>
    intro i b hb
    cases i with
    | zero =>
      simp only [List.getElem?_cons_zero, Option.some.injEq] at hb
      subst hb
      exact ⟨y, by simp, hxy⟩
    | succ i =>
      simp only [List.getElem?_cons_succ] at hb
      obtain ⟨b', hb', hk⟩ := ih i b hb
      exact ⟨b', by simpa using hb', hk⟩

theorem Scene.BrickKept.facts {b b' : Brick F} (h : Scene.BrickKept b b') :
    b'.toGameEntity = b.toGameEntity ∧ b'.unbreakable = b.unbreakable ∧
    (b'.active = true → b.active = true) ∧ (b.unbreakable = true → b' = b) := by
  rcases h with h | h
  · subst h
    exact ⟨rfl, rfl, id, fun _ => rfl⟩
  · subst h
    unfold Brick.SetActive
    by_cases hu : b.unbreakable = true
    · simp [hu]
    · rw [Bool.not_eq_true] at hu
      simp [hu]

/-- C17: `Scene.Update` keeps the brick list position by position (no brick
is removed, added or moved to another index): the brick at an index after the
frame is the brick before it or that brick after `SetActive(false)`.  So its
rectangles and its unbreakable flag are unchanged, an active flag is only
ever cleared, and an unbreakable brick is unchanged, hence still active if it
was.  This holds for the scene at the termination checks and for the scene a
returning call leaves. -/
theorem C17_bricks_only_deactivate (host : Host F) (s : Scene F) (k : Nat) (dt : F) :
    List.Forall₂ Scene.BrickKept s.mBricks (Scene.afterCleanup host s k dt).1.mBricks ∧
    (Scene.afterCleanup host s k dt).1.mBricks.length = s.mBricks.length ∧
    (∀ (i : Nat) (b : Brick F), s.mBricks[i]? = some b →
      ∃ b', (Scene.afterCleanup host s k dt).1.mBricks[i]? = some b' ∧
        b'.toGameEntity = b.toGameEntity ∧ b'.unbreakable = b.unbreakable ∧
        (b'.active = true → b.active = true) ∧
        (b.unbreakable = true → b.active = true → b'.active = true)) ∧
    (∀ s' k', Scene.Update host s k dt = Outcome.running s' k' →
      s'.mBricks = (Scene.afterCleanup host s k dt).1.mBricks) := by
  have hb : (Scene.afterCleanup host s k dt).1.mBricks =
      (Scene.ballVsBrick host (Scene.firstMotion host s dt).mBalls s.mBricks
        (Scene.firstMotion host s dt).mDrops k).bricks :=
    (Scene.passes_fields host s k dt).1
  have hkept : List.Forall₂ Scene.BrickKept s.mBricks
      (Scene.afterCleanup host s k dt).1.mBricks := by
    rw [hb]
    exact (Scene.ballVsBrick_kept host _ _ _ _).1
  refine ⟨hkept, hkept.length_eq.symm, ?_, ?_⟩
  · intro i b hi
    obtain ⟨b', hb', hk⟩ := Scene.forall₂_kept_getElem hkept i b hi
    obtain ⟨h1, h2, h3, h4⟩ := hk.facts
    refine ⟨b', hb', h1, h2, h3, ?_⟩
    intro hu ha
    rw [h4 hu]
    exact ha
  · intro s' k' h
    rw [Scene.Update_eq] at h
    unfold Scene.finish at h
    split_ifs at h
    · simp only [Outcome.running.injEq] at h
      rw [← h.1]
    · simp only [Outcome.running.injEq] at h
      rw [← h.1]

/-- Witness of C17 on `exSceneBreak`: the first ball breaks the breakable
brick, the second bounces off the unbreakable brick, which stays active. -/
theorem C17_bricks_only_deactivate_witness :
    (Scene.afterCleanup exHost exSceneBreak 0 (1 / 60)).1.mBricks =
      [exBrick ⟨100, 100, 90, 45⟩ false false, exBrick ⟨300, 100, 90, 45⟩ true true,
       exLoadedBrick] ∧
    ∃ b', (Scene.afterCleanup exHost exSceneBreak 0 (1 / 60)).1.mBricks[1]? = some b' ∧
      b'.toGameEntity = (exBrick ⟨300, 100, 90, 45⟩ true true).toGameEntity ∧
      b'.unbreakable = (exBrick ⟨300, 100, 90, 45⟩ true true).unbreakable ∧
      (b'.active = true → (exBrick ⟨300, 100, 90, 45⟩ true true).active = true) ∧
      ((exBrick ⟨300, 100, 90, 45⟩ true true).unbreakable = true →
        (exBrick ⟨300, 100, 90, 45⟩ true true).active = true → b'.active = true) :=
  ⟨by decide!,
    (C17_bricks_only_deactivate exHost exSceneBreak 0 (1 / 60)).2.2.1 1
      (exBrick ⟨300, 100, 90, 45⟩ true true) rfl⟩

/-! ### Drops spawned by the ball-vs-brick pass -/

theorem Scene.breakBrick_drops (host : Host F) (brick : Brick F) (brickRect : SDL_FRect F)
    (drops : List (Drop F)) (k : Nat) :
    ∃ news : List (Drop F),
      (Scene.breakBrick host brick brickRect drops k).2.1 = drops ++ news ∧
      news.length ≤ 1 ∧ ∀ d ∈ news, d = Scene.newDrop host brickRect := by
  unfold Scene.breakBrick
  split_ifs
  · exact ⟨[Scene.newDrop host brickRect], rfl, le_refl _, by simp⟩
  · exact ⟨[], by simp, by simp, by simp⟩
  · exact ⟨[], by simp, by simp, by simp⟩

/-- One scan appends at most one drop, a new one. -/
theorem Scene.scanBricks_drops (host : Host F) (ball : Ball F) (ballRect : SDL_FRect F)
    (drops : List (Drop F)) (k : Nat) :
    ∀ bricks : List (Brick F), ∃ news : List (Drop F),
      (Scene.scanBricks host ball ballRect bricks drops k).drops = drops ++ news ∧
      news.length ≤ 1 ∧ ∀ d ∈ news, ∃ r, d = Scene.newDrop host r := by
  intro bricks
  induction bricks with
  | nil => exact ⟨[], by simp [Scene.scanBricks], by simp, by simp⟩
  | cons b rest ih =>
    by_cases h : Scene.brickIsHit ballRect b = true
    · obtain ⟨ha, r, hr, hit⟩ := Scene.brickIsHit_eq_true ballRect b h
      rw [Scene.scanBricks_cons_hit host ball ballRect b r rest drops k ha hr hit]
      obtain ⟨news, h1, h2, h3⟩ := Scene.breakBrick_drops host b r drops k
      exact ⟨news, h1, h2, fun d hd => ⟨r, h3 d hd⟩⟩
    · rw [Bool.not_eq_true] at h
      rw [Scene.scanBricks_cons_miss host ball ballRect b rest drops k h]
      exact ih

theorem Scene.ballStep_drops (host : Host F) (ball : Ball F) (bricks : List (Brick F))
    (drops : List (Drop F)) (k : Nat) :
    ∃ news : List (Drop F),
      (Scene.ballStep host ball bricks drops k).drops = drops ++ news ∧
      news.length ≤ 1 ∧ ∀ d ∈ news, ∃ r, d = Scene.newDrop host r := by
  unfold Scene.ballStep
  cases ball.transform with
  | none => exact ⟨[], by simp, by simp, by simp⟩
  | some ballRect => exact Scene.scanBricks_drops host ball ballRect drops k bricks

/-- The whole pass appends at most one drop per ball, all of them new. -/
theorem Scene.ballVsBrick_drops (host : Host F) :
    ∀ (balls : List (Ball F)) (bricks : List (Brick F)) (drops : List (Drop F)) (k : Nat),
      ∃ news : List (Drop F),
        (Scene.ballVsBrick host balls bricks drops k).drops = drops ++ news ∧
        news.length ≤ balls.length ∧ ∀ d ∈ news, ∃ r, d = Scene.newDrop host r := by
  intro balls
  induction balls with
  | nil =>
    intro bricks drops k
    exact ⟨[], by simp [Scene.ballVsBrick], by simp, by simp⟩
  | cons b rest ih =>
    intro bricks drops k
    obtain ⟨n1, h1, l1, m1⟩ := Scene.ballStep_drops host b bricks drops k
    obtain ⟨n2, h2, l2, m2⟩ := ih (Scene.ballStep host b bricks drops k).bricks
      (Scene.ballStep host b bricks drops k).drops
      (Scene.ballStep host b bricks drops k).randCalls
    refine ⟨n1 ++ n2, ?_, ?_, ?_⟩
    · rw [Scene.ballVsBrick]
      simp only
      rw [h2, h1, List.append_assoc]
    · simp only [List.length_append, List.length_cons]
      omega
    · intro d hd
      rcases List.mem_append.mp hd with hd | hd
      · exact m1 d hd
      · exact m2 d hd

/-- C20: at the turn of a ball whose first active intersecting brick is
`brick`, with `r = rand()` the next draw.  If `brick` is breakable it is
deactivated, the draw is consumed, and the drop list gets one new drop, placed
at the `(x, y)` of the brick, exactly when `r % 100 < 30`; of the 100 residues
a draw can have, 30 make the drop list grow.  If `brick` is unbreakable it stays as it is, no draw is
consumed and the drop list is unchanged.  A whole pass appends at most one
drop per ball. -/
theorem C20_drop_on_break (host : Host F) (ball : Ball F) (ballRect : SDL_FRect F)
    (bpre bpost : List (Brick F)) (brick : Brick F) (brickRect : SDL_FRect F)
    (drops : List (Drop F)) (k : Nat) (hball : ball.transform = some ballRect)
    (hfirst : ∀ b ∈ bpre, Scene.brickIsHit ballRect b = false)
    (ha : brick.IsActive = true) (hbt : brick.transform = some brickRect)
    (hit : SDL_HasIntersectionF ballRect brickRect = true) :
    (brick.IsUnbreakable = false →
      (Scene.ballStep host ball (bpre ++ brick :: bpost) drops k).bricks =
        bpre ++ { brick with active := false } :: bpost ∧
      (Scene.ballStep host ball (bpre ++ brick :: bpost) drops k).randCalls = k + 1 ∧
      (Scene.ballStep host ball (bpre ++ brick :: bpost) drops k).drops =
        (if host.rand k % 100 < 30 then drops ++ [Scene.newDrop host brickRect]
          else drops)) ∧
    (brick.IsUnbreakable = true →
      (Scene.ballStep host ball (bpre ++ brick :: bpost) drops k).bricks =
        bpre ++ brick :: bpost ∧
      (Scene.ballStep host ball (bpre ++ brick :: bpost) drops k).randCalls = k ∧
      (Scene.ballStep host ball (bpre ++ brick :: bpost) drops k).drops = drops) ∧
    (Scene.newDrop host brickRect).transform =
      some ⟨brickRect.x, brickRect.y, host.dropTexture.1, host.dropTexture.2⟩ ∧
    (brick.IsUnbreakable = false →
      ((List.range 100).filter (fun r =>
        decide ((Scene.breakBrick { host with rand := fun _ => r } brick brickRect
          drops k).2.1.length = drops.length + 1))).length = 30) ∧
    (∀ (balls : List (Ball F)) (bricks : List (Brick F)), ∃ news : List (Drop F),
      (Scene.ballVsBrick host balls bricks drops k).drops = drops ++ news ∧
      news.length ≤ balls.length) := by
  have hstep := Scene.ballStep_first_hit host ball ballRect bpre bpost brick brickRect
    drops k hball hfirst ha hbt hit
  rw [hstep]
  refine ⟨?_, ?_, ?_, ?_, ?_⟩
  · intro hu
    have hu' : brick.unbreakable = false := hu
    refine ⟨?_, ?_, ?_⟩
    · simp [Brick.SetActive, hu']
    · simp only [Scene.breakBrick, hu, Bool.not_false, if_true]
      split <;> rfl
    · simp only [Scene.breakBrick, hu, Bool.not_false, if_true]
      split <;> rfl
  · intro hu
    have hu' : brick.unbreakable = true := hu
    refine ⟨?_, ?_, ?_⟩
    · simp [Brick.SetActive, hu']
    · simp [Scene.breakBrick, hu]
    · simp [Scene.breakBrick, hu]
  · simp [Scene.newDrop, GameEntity.initComponents, TransformComponent.move]
  · intro hu
    have hfun : (fun r : Nat =>
        decide ((Scene.breakBrick { host with rand := fun _ => r } brick brickRect
          drops k).2.1.length = drops.length + 1)) = (fun r => decide (r % 100 < 30)) := by
      funext r
      simp only [Scene.breakBrick, hu, Bool.not_false, if_true]
      by_cases hr : r % 100 < 30
      · simp [hr]
      · simp [hr]
    rw [hfun]
    decide
  · intro balls bricks
    obtain ⟨news, h1, h2, _⟩ := Scene.ballVsBrick_drops host balls bricks drops k
    exact ⟨news, h1, h2⟩

/-- Witness of C20: in `exBricks` the ball at `(120, 140)` first hits the
second brick, a breakable one; with the draw 0 a drop appears at the brick's
`(100, 100)`. -/
theorem C20_drop_on_break_witness :
    (Scene.ballStep exHost (exBall ⟨120, 140, 20, 20⟩ 100 (-50))
        ([exBrick ⟨90, 100, 90, 45⟩ false false] ++ exBrick ⟨100, 100, 90, 45⟩ true false ::
          [exBrick ⟨110, 100, 90, 45⟩ true false]) [] 0).drops =
      (if exHost.rand 0 % 100 < 30 then [] ++ [Scene.newDrop exHost ⟨100, 100, 90, 45⟩]
        else []) ∧
    (Scene.newDrop exHost ⟨100, 100, 90, 45⟩).transform = some ⟨100, 100, 16, 16⟩ :=
  have h := C20_drop_on_break exHost (exBall ⟨120, 140, 20, 20⟩ 100 (-50)) ⟨120, 140, 20, 20⟩
    [exBrick ⟨90, 100, 90, 45⟩ false false] [exBrick ⟨110, 100, 90, 45⟩ true false]
    (exBrick ⟨100, 100, 90, 45⟩ true false) ⟨100, 100, 90, 45⟩ [] 0 rfl (by decide!) rfl rfl
    (by decide!)
  ⟨(h.1 rfl).2.2, h.2.2.1⟩

/-! ### Colliders after the frame -/

theorem Collision2DComponent.Update_synced (e : GameEntity F) :
    (Collision2DComponent.Update e).Synced := by
  unfold Collision2DComponent.Update GameEntity.Synced
  cases hc : e.collider with
  | none =>
    intro c t h
    simp [hc] at h
  | some c0 =>
    cases ht : e.transform with
    | none =>
      intro c t _ h
      simp [ht] at h
    | some t0 =>
      intro c t h1 h2
      simp only [Option.some.injEq] at h1 h2
      rw [← h1, ← h2]

theorem Ball.ballUpdate_synced (b : Ball F) (dt : F) : (b.Update dt).toGameEntity.Synced := by
  unfold Ball.Update
  cases ht : b.transform with
  | none =>
    intro c t _ h
    simp [ht] at h
  | some tr => exact Collision2DComponent.Update_synced _

theorem Drop.dropUpdate_synced (d : Drop F) (dt : F) : (d.Update dt).toGameEntity.Synced := by
  unfold Drop.Update
  cases ht : d.transform with
  | none =>
    intro c t _ h
    simp [ht] at h
  | some tr => exact Collision2DComponent.Update_synced _

theorem Paddle.paddleUpdate_synced (p : Paddle F) (dt : F) : (p.Update dt).toGameEntity.Synced := by
  unfold Paddle.Update
  exact Collision2DComponent.Update_synced _

/-- The drop-vs-paddle pass only removes drops. -/
theorem Scene.dropVsPaddle_mDrops_subset (host : Host F) (s : Scene F) :
    ∀ d ∈ (Scene.dropVsPaddle host s).mDrops, d ∈ s.mDrops := by
  intro d hd
  cases hp : s.mPlayerPaddle with
  | none =>
    simp only [Scene.dropVsPaddle, hp] at hd
    exact hd
  | some paddle =>
    cases hc : paddle.collider with
    | none =>
      simp only [Scene.dropVsPaddle, hp, hc] at hd
      exact hd
    | some paddleRect =>
      rw [Scene.dropVsPaddle_eq host s paddle paddleRect hp hc] at hd
      exact (List.mem_filter.mp hd).1

/-- What a returning call leaves, in terms of the scene at the termination
checks: the same paddle, bricks and drops, and the same balls or none. -/
theorem Scene.finish_running (st : Scene F × Nat) (s' : Scene F) (k' : Nat)
    (h : Scene.finish st = Outcome.running s' k') :
    s'.mPlayerPaddle = st.1.mPlayerPaddle ∧ s'.mBricks = st.1.mBricks ∧
    s'.mDrops = st.1.mDrops ∧ (s'.mBalls = st.1.mBalls ∨ s'.mBalls = []) ∧ k' = st.2 := by
  unfold Scene.finish at h
  split_ifs at h
  · simp only [Outcome.running.injEq] at h
    rw [← h.1, ← h.2]
    exact ⟨rfl, rfl, rfl, Or.inr rfl, rfl⟩
  · simp only [Outcome.running.injEq] at h
    rw [← h.1, ← h.2]
    exact ⟨rfl, rfl, rfl, Or.inl rfl, rfl⟩

/-- A frame that leaves a ball and an active breakable brick returns the scene
of the termination checks as it is. -/
theorem Scene.finish_of_running (st : Scene F × Nat) (hb : st.1.mBalls ≠ [])
    (hc : Scene.allCleared st.1.mBricks = false) :
    Scene.finish st = Outcome.running st.1 st.2 := by
  unfold Scene.finish
  have he : st.1.mBalls.isEmpty = false := by
    cases h : st.1.mBalls with
    | nil => exact absurd h hb
    | cons b rest => rfl
  simp only [he, Bool.false_eq_true, if_false, hc]

/-- C18, as stated, fails: in `exSceneBreak` the frame returns, and the scene
it leaves holds a drop, spawned at the broken brick, whose collider is still
the `(0, 0, 16, 16)` of `initComponents` while its Transform is at
`(100, 100)`; it also holds a brick whose collider differs from its Transform
as before the frame. -/
theorem C18_counterexample :
    Scene.Update exHost exSceneBreak 0 (1 / 60) =
      Outcome.running (Scene.afterCleanup exHost exSceneBreak 0 (1 / 60)).1
        (Scene.afterCleanup exHost exSceneBreak 0 (1 / 60)).2 ∧
    (Scene.afterCleanup exHost exSceneBreak 0 (1 / 60)).1.mDrops =
      [Scene.newDrop exHost ⟨100, 100, 90, 45⟩] ∧
    (Scene.newDrop exHost ⟨100, 100, 90, 45⟩).transform = some ⟨100, 100, 16, 16⟩ ∧
    (Scene.newDrop exHost ⟨100, 100, 90, 45⟩).collider = some ⟨0, 0, 16, 16⟩ ∧
    (Scene.newDrop exHost ⟨100, 100, 90, 45⟩).collider ≠
      (Scene.newDrop exHost ⟨100, 100, 90, 45⟩).transform ∧
    (Scene.afterCleanup exHost exSceneBreak 0 (1 / 60)).1.mBricks[2]? = some exLoadedBrick ∧
    exLoadedBrick.collider ≠ exLoadedBrick.transform := by
  refine ⟨?_, by decide!, by decide!, by decide!, by decide!, by decide!, by decide!⟩
  rw [Scene.Update_eq]
  exact Scene.finish_of_running _ (by decide!) (by decide!)

/-! ### Free flight through the frame -/

/-- A motion pass that reaches no wall moves the ball by `velocity * dt` and
keeps the velocity. -/
theorem Ball.Update_free (b : Ball F) (tr : SDL_FRect F) (dt : F)
    (htr : b.transform = some tr) (hx : 0 < tr.x + b.velX * dt)
    (hr : tr.x + tr.w + b.velX * dt < 1600) (hy : 0 < tr.y + b.velY * dt) :
    (b.Update dt).transform =
        some ⟨tr.x + b.velX * dt, tr.y + b.velY * dt, tr.w, tr.h⟩ ∧
    (b.Update dt).velX = b.velX ∧ (b.Update dt).velY = b.velY := by
  rw [Ball.Update_of_transform b tr dt htr]
  have h1 : ¬ tr.x + b.velX * dt ≤ 0 := not_le.mpr hx
  have h2 : ¬ tr.y + b.velY * dt ≤ 0 := not_le.mpr hy
  have h3 : ¬ tr.x + b.velX * dt + tr.w ≥ 1600 := by
    intro h
    linarith
  simp only [h1, h2, h3, if_false, Collision2DComponent.Update_transform,
    TransformComponent.move, and_self]

theorem Scene.iterate_spawnBalls_getElem (host : Host F) (n : Nat) :
    ∀ (balls : List (Ball F)) (i : Nat), i < balls.length →
      ((Scene.spawnBalls host)^[n] balls)[i]? = balls[i]? := by
  induction n with
  | zero => intro balls i _; rfl
  | succ n ih =>
    intro balls i hi
    rw [Function.iterate_succ_apply]
    have hlen : i < (Scene.spawnBalls host balls).length := by
      rw [Scene.spawnBalls_length]
      omega
    rw [ih _ i hlen, Scene.spawnBalls_eq, List.getElem?_append_left hi]

/-- The drop-vs-paddle pass leaves the balls of the list at their indices. -/
theorem Scene.dropVsPaddle_getElem_balls (host : Host F) (s : Scene F) (i : Nat)
    (hi : i < s.mBalls.length) :
    (Scene.dropVsPaddle host s).mBalls[i]? = s.mBalls[i]? := by
  cases hp : s.mPlayerPaddle with
  | none => simp only [Scene.dropVsPaddle, hp]
  | some paddle =>
    cases hc : paddle.collider with
    | none => simp only [Scene.dropVsPaddle, hp, hc]
    | some paddleRect =>
      rw [Scene.dropVsPaddle_eq host s paddle paddleRect hp hc]
      exact Scene.iterate_spawnBalls_getElem host _ _ i hi

/-- A drop that is not picked up stays in the list. -/
theorem Scene.dropVsPaddle_keeps (host : Host F) (s : Scene F) (d : Drop F)
    (hd : d ∈ s.mDrops)
    (hmiss : ∀ paddle paddleRect, s.mPlayerPaddle = some paddle →
      paddle.collider = some paddleRect → Scene.dropIsPicked paddleRect d = false) :
    d ∈ (Scene.dropVsPaddle host s).mDrops := by
  cases hp : s.mPlayerPaddle with
  | none =>
    simp only [Scene.dropVsPaddle, hp]
    exact hd
  | some paddle =>
    cases hc : paddle.collider with
    | none =>
      simp only [Scene.dropVsPaddle, hp, hc]
      exact hd
    | some paddleRect =>
      rw [Scene.dropVsPaddle_eq host s paddle paddleRect hp hc]
      simp only [List.mem_filter, Bool.not_eq_true']
      exact ⟨hd, hmiss paddle paddleRect hp hc⟩

theorem Scene.brickIsHit_of_kept (r : SDL_FRect F) {b b' : Brick F}
    (hk : Scene.BrickKept b b') (h : Scene.brickIsHit r b = false) :
    Scene.brickIsHit r b' = false := by
  rcases hk with hk | hk
  · rw [hk]
    exact h
  · subst hk
    unfold Brick.SetActive
    by_cases hu : b.unbreakable = true
    · simp only [hu, Bool.not_true, Bool.false_eq_true, if_false]
      exact h
    · rw [Bool.not_eq_true] at hu
      simp [hu, Scene.brickIsHit, Brick.IsActive]

theorem Scene.forall₂_kept_miss (r : SDL_FRect F) :
    ∀ {l l' : List (Brick F)}, List.Forall₂ Scene.BrickKept l l' →
      (∀ b ∈ l, Scene.brickIsHit r b = false) → ∀ b' ∈ l', Scene.brickIsHit r b' = false := by
  intro l l' h
  induction h with
  | nil =>
    intro _ b' hb'
    simp at hb'
  | @cons x y l1 l2 hxy _ ih =>
    intro hall b' hb'
    rcases List.mem_cons.mp hb' with rfl | hb'
    · exact Scene.brickIsHit_of_kept r hxy (hall x (List.mem_cons_self _ _))
    · exact ih (fun b hb => hall b (List.mem_cons_of_mem _ hb)) b' hb'

/-- A ball that intersects none of the bricks that are active when the pass
starts keeps its index and its state through the ball-vs-brick pass. -/
theorem Scene.ballVsBrick_getElem_miss (host : Host F) (balls : List (Ball F))
    (bricks : List (Brick F)) (drops : List (Drop F)) (k i : Nat) (b : Ball F)
    (r : SDL_FRect F) (hi : balls[i]? = some b) (hr : b.transform = some r)
    (hmiss : ∀ br ∈ bricks, Scene.brickIsHit r br = false) :
    (Scene.ballVsBrick host balls bricks drops k).balls[i]? = some b := by
  have hlt : i < balls.length := by
    by_contra hge
    rw [List.getElem?_eq_none (not_lt.mp hge)] at hi
    exact absurd hi (by simp)
  have hsplit : balls = balls.take i ++ b :: balls.drop (i + 1) := by
    have hb : balls[i] = b := by
      rw [List.getElem?_eq_getElem hlt] at hi
      exact Option.some.inj hi
    rw [← hb, ← List.drop_eq_getElem_cons hlt, List.take_append_drop]
  have hlen : (balls.take i).length = i := by
    rw [List.length_take]
    omega
  have hget := Scene.ballVsBrick_getElem host (balls.take i) (balls.drop (i + 1)) b
    bricks drops k
  rw [← hsplit, hlen] at hget
  rw [hget]
  have hturn := Scene.forall₂_kept_miss r
    (Scene.ballVsBrick_kept host (balls.take i) bricks drops k).1 hmiss
  simp only [Scene.ballStep, hr]
  rw [Scene.scanBricks_all_miss host b r _ _ _ hturn]

/-- A ball that does not intersect the paddle keeps its index and its state
through the ball-vs-paddle pass. -/
theorem Scene.ballVsPaddle_getElem_miss (host : Host F) (s : Scene F) (k i : Nat)
    (b : Ball F) (r : SDL_FRect F) (hi : s.mBalls[i]? = some b) (hr : b.transform = some r)
    (hmiss : ∀ paddle paddleRect, s.mPlayerPaddle = some paddle →
      paddle.collider = some paddleRect → SDL_HasIntersectionF r paddleRect = false) :
    (Scene.ballVsPaddle host s k).1.mBalls[i]? = some b := by
  cases hp : s.mPlayerPaddle with
  | none =>
    simp only [Scene.ballVsPaddle, hp]
    exact hi
  | some paddle =>
    cases hc : paddle.collider with
    | none =>
      simp only [Scene.ballVsPaddle, hp, hc]
      exact hi
    | some paddleRect =>
      simp only [Scene.ballVsPaddle, hp, hc]
      obtain ⟨k', hk'⟩ := Scene.paddleLoop_getElem host paddle.instantaneousVelocity
        paddleRect s.mBalls k i b hi
      rw [hk']
      simp [Scene.paddleStep, hr, hmiss paddle paddleRect hp hc]

/-- The passes written out on the scene after the first motion pass. -/
theorem Scene.passes_eq (host : Host F) (s : Scene F) (k : Nat) (dt : F) :
    Scene.passes host s k dt =
      Scene.ballVsPaddle host
        { Scene.firstMotion host s dt with
          mBalls := (Scene.ballVsBrick host (Scene.firstMotion host s dt).mBalls s.mBricks
            (Scene.firstMotion host s dt).mDrops k).balls.map (fun b => b.Update dt),
          mBricks := (Scene.ballVsBrick host (Scene.firstMotion host s dt).mBalls s.mBricks
            (Scene.firstMotion host s dt).mDrops k).bricks,
          mDrops := (Scene.ballVsBrick host (Scene.firstMotion host s dt).mBalls s.mBricks
            (Scene.firstMotion host s dt).mDrops k).drops }
        (Scene.ballVsBrick host (Scene.firstMotion host s dt).mBalls s.mBricks
          (Scene.firstMotion host s dt).mDrops k).randCalls := by
  unfold Scene.passes
  simp only [(Scene.firstMotion_fields host s dt).1]

theorem Scene.firstMotion_getElem_balls (host : Host F) (s : Scene F) (dt : F) (i : Nat)
    (b : Ball F) (hi : s.mBalls[i]? = some b) :
    (Scene.firstMotion host s dt).mBalls[i]? = some (b.Update dt) := by
  have hlt : i < s.mBalls.length := by
    by_contra hge
    rw [List.getElem?_eq_none (not_lt.mp hge)] at hi
    exact absurd hi (by simp)
  have h3 : ∀ s2 : Scene F, s2.mBalls = s.mBalls →
      (Scene.dropVsPaddle host s2).mBalls[i]? = some b := by
    intro s2 h2
    rw [Scene.dropVsPaddle_getElem_balls host s2 i (by rw [h2]; exact hlt), h2, hi]
  unfold Scene.firstMotion
  simp only [List.getElem?_map]
  rw [h3 { s with mPlayerPaddle := s.mPlayerPaddle.map (fun p => p.Update dt),
                  mDrops := s.mDrops.map (fun d => d.Update dt) } rfl]
  rfl

theorem Scene.firstMotion_mem_drops (host : Host F) (s : Scene F) (dt : F) (d : Drop F)
    (hd : d ∈ s.mDrops)
    (hmiss : ∀ p paddleRect, s.mPlayerPaddle = some p →
      (p.Update dt).collider = some paddleRect →
      Scene.dropIsPicked paddleRect (d.Update dt) = false) :
    d.Update dt ∈ (Scene.firstMotion host s dt).mDrops := by
  unfold Scene.firstMotion
  simp only
  apply Scene.dropVsPaddle_keeps
  · exact List.mem_map_of_mem _ hd
  · intro paddle paddleRect hp hc
    simp only [Option.map_eq_some'] at hp
    obtain ⟨p, hp, rfl⟩ := hp
    exact hmiss p paddleRect hp hc

/-! ### Updates without a Transform -/

theorem Collision2DComponent.Update_of_no_transform (e : GameEntity F)
    (h : e.transform = none) : Collision2DComponent.Update e = e := by
  unfold Collision2DComponent.Update
  cases e.collider with
  | none => rfl
  | some c => simp only [h]

/-- C21: on an entity without a Transform, `Ball.Update`, `Drop.Update`,
`Paddle.Update` and the base `GameEntity.Update` return (they are total
functions) and return the entity as it was, for every `dt`: velocity,
collider, and the paddle's last x and velocity estimate included. -/
theorem C21_update_without_transform_is_noop (dt : F) :
    (∀ b : Ball F, b.transform = none → b.Update dt = b) ∧
    (∀ d : Drop F, d.transform = none → d.Update dt = d) ∧
    (∀ p : Paddle F, p.transform = none → p.Update dt = p) ∧
    (∀ e : GameEntity F, e.transform = none → e.Update dt = e) := by
  refine ⟨?_, ?_, ?_, ?_⟩
  · intro b h
    unfold Ball.Update
    simp only [h]
  · intro d h
    unfold Drop.Update
    simp only [h]
  · intro p h
    unfold Paddle.Update
    simp only [h]
    rw [Collision2DComponent.Update_of_no_transform p.toGameEntity h]
  · intro e h
    unfold GameEntity.Update
    simp only [h]
    exact Collision2DComponent.Update_of_no_transform e h

/-- Witness of C21: a ball, a drop, a paddle and a plain entity that have a
collider but no Transform are unchanged by their update. -/
theorem C21_update_without_transform_is_noop_witness :
    (({ transform := none, collider := some ⟨1, 2, 3, 4⟩, mSpeed := 250,
        xPositiveDirection := 1, velX := 5, velY := -7 } : Ball ℚ).Update (1 / 60)) =
      { transform := none, collider := some ⟨1, 2, 3, 4⟩, mSpeed := 250,
        xPositiveDirection := 1, velX := 5, velY := -7 } ∧
    (({ transform := none, collider := some ⟨1, 2, 3, 4⟩, mSpeed := 500,
        xPositiveDirection := 1, lastPosX := 3, instantaneousVelocity := 9,
        input := none } : Paddle ℚ).Update 0) =
      { transform := none, collider := some ⟨1, 2, 3, 4⟩, mSpeed := 500,
        xPositiveDirection := 1, lastPosX := 3, instantaneousVelocity := 9, input := none } ∧
    (({ transform := none, collider := some ⟨1, 2, 3, 4⟩, mSpeed := 200,
        xPositiveDirection := 1 } : Drop ℚ).Update (1 / 60)) =
      { transform := none, collider := some ⟨1, 2, 3, 4⟩, mSpeed := 200,
        xPositiveDirection := 1 } ∧
    (({ transform := none, collider := some ⟨1, 2, 3, 4⟩, mSpeed := 200,
        xPositiveDirection := 1 } : GameEntity ℚ).Update (1 / 60)) =
      { transform := none, collider := some ⟨1, 2, 3, 4⟩, mSpeed := 200,
        xPositiveDirection := 1 } :=
  ⟨(C21_update_without_transform_is_noop (1 / 60 : ℚ)).1 _ rfl,
   (C21_update_without_transform_is_noop (0 : ℚ)).2.2.1 _ rfl,
   (C21_update_without_transform_is_noop (1 / 60 : ℚ)).2.1 _ rfl,
   (C21_update_without_transform_is_noop (1 / 60 : ℚ)).2.2.2 _ rfl⟩

/-! ### Ball.Update: walls and speed -/

/-- C24: after `Ball.Update`, a ball with a Transform of width `w ≤ 1600` (so
also for `0 ≤ w ≤ 1600`) lies inside the side and top walls, whatever its
position, velocity and `dt` were: `0 ≤ x'`, `x' + w ≤ 1600`, `0 ≤ y'`; its
width and height are unchanged. -/
theorem C24_ball_stays_inside_walls (b : Ball F) (tr : SDL_FRect F) (dt : F)
    (htr : b.transform = some tr) (hw : tr.w ≤ 1600) :
    ∃ tr' : SDL_FRect F, (b.Update dt).transform = some tr' ∧
      0 ≤ tr'.x ∧ tr'.x + tr'.w ≤ 1600 ∧ 0 ≤ tr'.y ∧ tr'.w = tr.w ∧ tr'.h = tr.h := by
  rw [Ball.Update_of_transform b tr dt htr]
  refine ⟨_, Collision2DComponent.Update_transform _, ?_, ?_, ?_, rfl, rfl⟩
  · simp only [TransformComponent.move, ge_iff_le]
    split_ifs <;> linarith
  · simp only [TransformComponent.move, ge_iff_le]
    split_ifs <;> linarith
  · simp only [TransformComponent.move]
    split_ifs <;> linarith

/-- Witness of C24: a ball far outside the window on the right, at
`(5000, -300)`, is put at `(1580, 0)`. -/
theorem C24_ball_stays_inside_walls_witness :
    (20 : ℚ) ≤ 1600 ∧
    ((exBall ⟨5000, -300, 20, 20⟩ 100 50).Update (1 / 60)).transform =
      some ⟨1580, 0, 20, 20⟩ ∧
    ∃ tr' : SDL_FRect ℚ,
      ((exBall ⟨5000, -300, 20, 20⟩ 100 50).Update (1 / 60)).transform = some tr' ∧
      0 ≤ tr'.x ∧ tr'.x + tr'.w ≤ 1600 ∧ 0 ≤ tr'.y ∧ tr'.w = 20 ∧ tr'.h = 20 :=
  ⟨by norm_num, by decide!,
    C24_ball_stays_inside_walls (exBall ⟨5000, -300, 20, 20⟩ 100 50) ⟨5000, -300, 20, 20⟩
      (1 / 60) rfl (by norm_num)⟩

theorem Ball.Update_abs_vel (b : Ball F) (dt : F) :
    |(b.Update dt).velX| = |b.velX| ∧ |(b.Update dt).velY| = |b.velY| := by
  cases htr : b.transform with
  | none =>
    unfold Ball.Update
    simp only [htr, and_self]
  | some tr =>
    rw [Ball.Update_of_transform b tr dt htr]
    constructor
    · simp only
      split_ifs <;> simp
    · simp only
      split_ifs <;> simp

theorem Scene.bounceOffBrick_abs_vel (ball : Ball F) (ballRect brickRect : SDL_FRect F) :
    |(Scene.bounceOffBrick ball ballRect brickRect).velX| = |ball.velX| ∧
    |(Scene.bounceOffBrick ball ballRect brickRect).velY| = |ball.velY| := by
  unfold Scene.bounceOffBrick
  split_ifs <;> simp [Ball.ReverseVelX, Ball.ReverseVelY, Ball.moveTransform]

theorem Scene.scanBricks_abs_vel (host : Host F) (ball : Ball F) (ballRect : SDL_FRect F)
    (drops : List (Drop F)) (k : Nat) :
    ∀ bricks : List (Brick F),
      |(Scene.scanBricks host ball ballRect bricks drops k).ball.velX| = |ball.velX| ∧
      |(Scene.scanBricks host ball ballRect bricks drops k).ball.velY| = |ball.velY| := by
  intro bricks
  induction bricks with
  | nil => simp [Scene.scanBricks]
  | cons b rest ih =>
    by_cases h : Scene.brickIsHit ballRect b = true
    · obtain ⟨ha, r, hr, hit⟩ := Scene.brickIsHit_eq_true ballRect b h
      rw [Scene.scanBricks_cons_hit host ball ballRect b r rest drops k ha hr hit]
      exact Scene.bounceOffBrick_abs_vel ball ballRect r
    · rw [Bool.not_eq_true] at h
      rw [Scene.scanBricks_cons_miss host ball ballRect b rest drops k h]
      exact ih

theorem Scene.ballStep_abs_vel (host : Host F) (ball : Ball F) (bricks : List (Brick F))
    (drops : List (Drop F)) (k : Nat) :
    |(Scene.ballStep host ball bricks drops k).ball.velX| = |ball.velX| ∧
    |(Scene.ballStep host ball bricks drops k).ball.velY| = |ball.velY| := by
  unfold Scene.ballStep
  cases ball.transform with
  | none => simp
  | some ballRect => exact Scene.scanBricks_abs_vel host ball ballRect drops k bricks

/-- The pass changes the velocity of the ball at each index by sign only. -/
theorem Scene.ballVsBrick_abs_vel (host : Host F) :
    ∀ (balls : List (Ball F)) (bricks : List (Brick F)) (drops : List (Drop F)) (k : Nat),
      List.Forall₂ (fun b b' : Ball F => |b'.velX| = |b.velX| ∧ |b'.velY| = |b.velY|)
        balls (Scene.ballVsBrick host balls bricks drops k).balls := by
  intro balls
  induction balls with
  | nil =>
    intro bricks drops k
    exact List.Forall₂.nil
  | cons b rest ih =>
    intro bricks drops k
    rw [Scene.ballVsBrick]
    exact List.Forall₂.cons (Scene.ballStep_abs_vel host b bricks drops k) (ih _ _ _)

theorem sq_eq_of_abs_eq {a b : F} (h : |a| = |b|) : a ^ 2 = b ^ 2 := by
  rw [← sq_abs a, ← sq_abs b, h]

/-- C23: `Ball.Update` and the ball-vs-brick resolution change each velocity
component by sign only.  After `Ball.Update`, after the resolution against a
brick, and for the ball at every index after the whole ball-vs-brick pass:
`|vx'| = |vx|` and `|vy'| = |vy|`, hence `vx'^2 + vy'^2 = vx^2 + vy^2`. -/
theorem C23_velocity_changes_by_sign_only (host : Host F) (b : Ball F) (dt : F)
    (ballRect brickRect : SDL_FRect F) (balls : List (Ball F)) (bricks : List (Brick F))
    (drops : List (Drop F)) (k : Nat) :
    (|(b.Update dt).velX| = |b.velX| ∧ |(b.Update dt).velY| = |b.velY| ∧
      (b.Update dt).velX ^ 2 + (b.Update dt).velY ^ 2 = b.velX ^ 2 + b.velY ^ 2) ∧
    (|(Scene.bounceOffBrick b ballRect brickRect).velX| = |b.velX| ∧
      |(Scene.bounceOffBrick b ballRect brickRect).velY| = |b.velY| ∧
      (Scene.bounceOffBrick b ballRect brickRect).velX ^ 2 +
        (Scene.bounceOffBrick b ballRect brickRect).velY ^ 2 = b.velX ^ 2 + b.velY ^ 2) ∧
    (Scene.ballVsBrick host balls bricks drops k).balls.length = balls.length ∧
    List.Forall₂
      (fun b0 b1 : Ball F => |b1.velX| = |b0.velX| ∧ |b1.velY| = |b0.velY| ∧
        b1.velX ^ 2 + b1.velY ^ 2 = b0.velX ^ 2 + b0.velY ^ 2)
      balls (Scene.ballVsBrick host balls bricks drops k).balls := by
  obtain ⟨h1, h2⟩ := Ball.Update_abs_vel b dt
  obtain ⟨h3, h4⟩ := Scene.bounceOffBrick_abs_vel b ballRect brickRect
  refine ⟨⟨h1, h2, ?_⟩, ⟨h3, h4, ?_⟩, Scene.ballVsBrick_balls_length host _ _ _ _, ?_⟩
  · rw [sq_eq_of_abs_eq h1, sq_eq_of_abs_eq h2]
  · rw [sq_eq_of_abs_eq h3, sq_eq_of_abs_eq h4]
  · apply List.Forall₂.imp _ (Scene.ballVsBrick_abs_vel host balls bricks drops k)
    intro b0 b1 h
    exact ⟨h.1, h.2, by rw [sq_eq_of_abs_eq h.1, sq_eq_of_abs_eq h.2]⟩

/-! ### Paddle.Update -/

/-- C25: for a paddle with a Transform at `x`, stored last x `lastX` and
`dt ≠ 0`, `Paddle.Update` sets the velocity estimate to `(x - lastX) / dt`,
the number whose product with `dt` is `x - lastX`, sets the stored last x to
`x`, and leaves the Transform as it is.  At `dt = 0` there is no such
quotient unless `x = lastX`. -/
theorem C25_paddle_velocity_estimate (p : Paddle F) (tr : SDL_FRect F) (dt : F)
    (htr : p.transform = some tr) (hdt : dt ≠ 0) :
    (p.Update dt).instantaneousVelocity = (tr.x - p.lastPosX) / dt ∧
    (p.Update dt).instantaneousVelocity * dt = tr.x - p.lastPosX ∧
    (p.Update dt).lastPosX = tr.x ∧
    (p.Update dt).transform = some tr ∧
    (∀ v : F, v * 0 = (p.Update dt).lastPosX - p.lastPosX → tr.x = p.lastPosX) := by
  have hv : (p.Update dt).instantaneousVelocity = (tr.x - p.lastPosX) / dt := by
    simp only [Paddle.Update, htr]
  have hl : (p.Update dt).lastPosX = tr.x := by
    simp only [Paddle.Update, htr]
  refine ⟨hv, ?_, hl, ?_, ?_⟩
  · rw [hv, div_mul_cancel₀ _ hdt]
  · simp only [Paddle.Update, htr, Collision2DComponent.Update_transform]
  · intro v h
    rw [hl, mul_zero] at h
    exact (sub_eq_zero.mp h.symm)

/-- Witness of C25: a paddle at x = 700 whose last x was 695, with
`dt = 1/60`, gets the velocity estimate 300. -/
theorem C25_paddle_velocity_estimate_witness :
    (1 / 60 : ℚ) ≠ 0 ∧
    (({ exPaddle with lastPosX := 695 } : Paddle ℚ).Update (1 / 60)).instantaneousVelocity
      = (700 - 695) / (1 / 60) ∧
    (({ exPaddle with lastPosX := 695 } : Paddle ℚ).Update (1 / 60)).instantaneousVelocity
      = 300 ∧
    (({ exPaddle with lastPosX := 695 } : Paddle ℚ).Update (1 / 60)).lastPosX = 700 :=
  have h := C25_paddle_velocity_estimate ({ exPaddle with lastPosX := 695 } : Paddle ℚ)
    ⟨700, 900, 100, 20⟩ (1 / 60) rfl (by norm_num)
  ⟨by norm_num, h.1, by decide!, h.2.2.1⟩

/-! ### Separation after the brick resolution -/

/-- C27: right after the resolution of a ball against a brick, in either
branch, the new rectangle of the ball (same size, moved) does not intersect
the rectangle of the brick, by the SDL test and by the test of
`TestCollision`: along the resolution axis the two are exactly 1 apart. -/
theorem C27_resolution_leaves_gap_of_one (ball : Ball F) (ballRect brickRect : SDL_FRect F)
    (hball : ball.transform = some ballRect) :
    ∃ r' : SDL_FRect F,
      (Scene.bounceOffBrick ball ballRect brickRect).transform = some r' ∧
      r'.w = ballRect.w ∧ r'.h = ballRect.h ∧
      SDL_HasIntersectionF r' brickRect = false ∧
      GameEntity.TestCollisionRects r' brickRect = false ∧
      (Scene.overlapX ballRect brickRect < Scene.overlapY ballRect brickRect →
        (ballRect.x < brickRect.x → brickRect.x - (r'.x + r'.w) = 1) ∧
        (¬ ballRect.x < brickRect.x → r'.x - (brickRect.x + brickRect.w) = 1)) ∧
      (¬ Scene.overlapX ballRect brickRect < Scene.overlapY ballRect brickRect →
        (ballRect.y < brickRect.y → brickRect.y - (r'.y + r'.h) = 1) ∧
        (¬ ballRect.y < brickRect.y → r'.y - (brickRect.y + brickRect.h) = 1)) := by
  have hsdl : ∀ r' : SDL_FRect F,
      (brickRect.x - (r'.x + r'.w) = 1 ∨ r'.x - (brickRect.x + brickRect.w) = 1 ∨
        brickRect.y - (r'.y + r'.h) = 1 ∨ r'.y - (brickRect.y + brickRect.h) = 1) →
      SDL_HasIntersectionF r' brickRect = false ∧
        GameEntity.TestCollisionRects r' brickRect = false := by
    intro r' h
    constructor
    · rw [← Bool.not_eq_true, SDL_HasIntersectionF_iff]
      rintro ⟨-, -, -, -, h1, h2, h3, h4⟩
      rcases h with h | h | h | h <;> linarith
    · simp only [GameEntity.TestCollisionRects, Bool.not_eq_false', Bool.or_eq_true,
        decide_eq_true_eq]
      rcases h with h | h | h | h
      · exact Or.inl (Or.inl (Or.inr (by linarith)))
      · exact Or.inl (Or.inl (Or.inl (by linarith)))
      · exact Or.inr (by linarith)
      · exact Or.inl (Or.inr (by linarith))
  by_cases hlt : Scene.overlapX ballRect brickRect < Scene.overlapY ballRect brickRect
  · by_cases hx : ballRect.x < brickRect.x
    · have htrans : (Scene.bounceOffBrick ball ballRect brickRect).transform =
          some ⟨brickRect.x - ballRect.w - 1, ballRect.y, ballRect.w, ballRect.h⟩ := by
        simp [Scene.bounceOffBrick, hlt, hx, Ball.ReverseVelX, Ball.moveTransform, hball,
          TransformComponent.move]
      have hgap : brickRect.x - (brickRect.x - ballRect.w - 1 + ballRect.w) = 1 := by ring
      obtain ⟨h1, h2⟩ := hsdl ⟨brickRect.x - ballRect.w - 1, ballRect.y, ballRect.w,
        ballRect.h⟩ (Or.inl hgap)
      exact ⟨_, htrans, rfl, rfl, h1, h2, fun _ => ⟨fun _ => hgap, fun h => absurd hx h⟩,
        fun h => absurd hlt h⟩
    · have htrans : (Scene.bounceOffBrick ball ballRect brickRect).transform =
          some ⟨brickRect.x + brickRect.w + 1, ballRect.y, ballRect.w, ballRect.h⟩ := by
        simp [Scene.bounceOffBrick, hlt, hx, Ball.ReverseVelX, Ball.moveTransform, hball,
          TransformComponent.move]
      have hgap : brickRect.x + brickRect.w + 1 - (brickRect.x + brickRect.w) = 1 := by ring
      obtain ⟨h1, h2⟩ := hsdl ⟨brickRect.x + brickRect.w + 1, ballRect.y, ballRect.w,
        ballRect.h⟩ (Or.inr (Or.inl hgap))
      exact ⟨_, htrans, rfl, rfl, h1, h2, fun _ => ⟨fun h => absurd h hx, fun _ => hgap⟩,
        fun h => absurd hlt h⟩
  · by_cases hy : ballRect.y < brickRect.y
    · have htrans : (Scene.bounceOffBrick ball ballRect brickRect).transform =
          some ⟨ballRect.x, brickRect.y - ballRect.h - 1, ballRect.w, ballRect.h⟩ := by
        simp [Scene.bounceOffBrick, hlt, hy, Ball.ReverseVelY, Ball.moveTransform, hball,
          TransformComponent.move]
      have hgap : brickRect.y - (brickRect.y - ballRect.h - 1 + ballRect.h) = 1 := by ring
      obtain ⟨h1, h2⟩ := hsdl ⟨ballRect.x, brickRect.y - ballRect.h - 1, ballRect.w,
        ballRect.h⟩ (Or.inr (Or.inr (Or.inl hgap)))
      exact ⟨_, htrans, rfl, rfl, h1, h2, fun h => absurd h hlt,
        fun _ => ⟨fun _ => hgap, fun h => absurd hy h⟩⟩
    · have htrans : (Scene.bounceOffBrick ball ballRect brickRect).transform =
          some ⟨ballRect.x, brickRect.y + brickRect.h + 1, ballRect.w, ballRect.h⟩ := by
        simp [Scene.bounceOffBrick, hlt, hy, Ball.ReverseVelY, Ball.moveTransform, hball,
          TransformComponent.move]
      have hgap : brickRect.y + brickRect.h + 1 - (brickRect.y + brickRect.h) = 1 := by ring
      obtain ⟨h1, h2⟩ := hsdl ⟨ballRect.x, brickRect.y + brickRect.h + 1, ballRect.w,
        ballRect.h⟩ (Or.inr (Or.inr (Or.inr hgap)))
      exact ⟨_, htrans, rfl, rfl, h1, h2, fun h => absurd h hlt,
        fun _ => ⟨fun h => absurd h hy, fun _ => hgap⟩⟩

/-- Witness of C27: the ball at `(120, 140)` resolved against the brick at
`(100, 100)` of size 90 by 45 is put at `y = 146`, one unit below the brick
bottom 145. -/
theorem C27_resolution_leaves_gap_of_one_witness :
    (Scene.bounceOffBrick (exBall ⟨120, 140, 20, 20⟩ 100 (-50)) ⟨120, 140, 20, 20⟩
      ⟨100, 100, 90, 45⟩).transform = some ⟨120, 146, 20, 20⟩ ∧
    ∃ r' : SDL_FRect ℚ,
      (Scene.bounceOffBrick (exBall ⟨120, 140, 20, 20⟩ 100 (-50)) ⟨120, 140, 20, 20⟩
        ⟨100, 100, 90, 45⟩).transform = some r' ∧
      r'.w = 20 ∧ r'.h = 20 ∧
      SDL_HasIntersectionF r' ⟨100, 100, 90, 45⟩ = false ∧
      GameEntity.TestCollisionRects r' ⟨100, 100, 90, 45⟩ = false :=
  ⟨by decide!,
    (C27_resolution_leaves_gap_of_one (exBall ⟨120, 140, 20, 20⟩ 100 (-50)) ⟨120, 140, 20, 20⟩
      ⟨100, 100, 90, 45⟩ rfl).imp
      (fun _ h => ⟨h.1, h.2.1, h.2.2.1, h.2.2.2.1, h.2.2.2.2.1⟩)⟩

/-! ### Pickups double the ball list -/

/-- Spawning rounds only append: the list they start from stays in front. -/
theorem Scene.iterate_spawnBalls_take (host : Host F) (n : Nat) :
    ∀ balls : List (Ball F), ((Scene.spawnBalls host)^[n] balls).take balls.length = balls := by
  induction n with
  | zero =>
    intro balls
    simp
  | succ n ih =>
    intro balls
    rw [Function.iterate_succ_apply]
    have h1 := ih (Scene.spawnBalls host balls)
    have h2 : (Scene.spawnBalls host balls).take balls.length = balls := by
      rw [Scene.spawnBalls_eq, List.take_left]
    have hle : balls.length ≤ (Scene.spawnBalls host balls).length := by
      rw [Scene.spawnBalls_length]
      omega
    calc ((Scene.spawnBalls host)^[n] (Scene.spawnBalls host balls)).take balls.length
        = (((Scene.spawnBalls host)^[n] (Scene.spawnBalls host balls)).take
            (Scene.spawnBalls host balls).length).take balls.length := by
          rw [List.take_take, Nat.min_eq_left hle]
      _ = balls := by rw [h1, h2]

/-- C28: each picked-up drop doubles the ball list it finds, keeping that list
in front.  So with a paddle that has a collider, `N` balls and `k` drops that
intersect the paddle, the drop-vs-paddle pass leaves `N * 2 ^ k` balls, the
first `N` of which are the original balls in their order. -/
theorem C28_each_pickup_doubles_the_balls (host : Host F) (s : Scene F) (paddle : Paddle F)
    (paddleRect : SDL_FRect F) (hp : s.mPlayerPaddle = some paddle)
    (hc : paddle.collider = some paddleRect) :
    (∀ balls : List (Ball F),
      (Scene.spawnBalls host balls).length = 2 * balls.length ∧
      (Scene.spawnBalls host balls).take balls.length = balls) ∧
    (Scene.dropVsPaddle host s).mBalls.length =
      s.mBalls.length * 2 ^ (s.mDrops.countP (Scene.dropIsPicked paddleRect)) ∧
    (Scene.dropVsPaddle host s).mBalls.take s.mBalls.length = s.mBalls := by
  refine ⟨?_, ?_, ?_⟩
  · intro balls
    exact ⟨Scene.spawnBalls_length host balls, Scene.iterate_spawnBalls_take host 1 balls⟩
  · rw [Scene.dropVsPaddle_eq host s paddle paddleRect hp hc]
    exact Scene.iterate_spawnBalls_length host _ _
  · rw [Scene.dropVsPaddle_eq host s paddle paddleRect hp hc]
    exact Scene.iterate_spawnBalls_take host _ _

/-- Witness of C28 on the two-drop scene: one ball, two pickups, four balls,
the first of which is the original ball. -/
theorem C28_each_pickup_doubles_the_balls_witness :
    exSceneTwoDrops.mDrops.countP (Scene.dropIsPicked ⟨700, 900, 100, 20⟩) = 2 ∧
    (Scene.dropVsPaddle exHost exSceneTwoDrops).mBalls.length =
      exSceneTwoDrops.mBalls.length *
        2 ^ (exSceneTwoDrops.mDrops.countP (Scene.dropIsPicked ⟨700, 900, 100, 20⟩)) ∧
    (Scene.dropVsPaddle exHost exSceneTwoDrops).mBalls.take exSceneTwoDrops.mBalls.length =
      exSceneTwoDrops.mBalls :=
  ⟨by decide!,
    (C28_each_pickup_doubles_the_balls exHost exSceneTwoDrops exPaddle ⟨700, 900, 100, 20⟩
      rfl rfl).2⟩

/-! ### Game over before win -/

theorem Scene.spawnBalls_nil (host : Host F) : Scene.spawnBalls host [] = [] := rfl

theorem Scene.dropVsPaddle_no_balls (host : Host F) (s : Scene F) (h : s.mBalls = []) :
    (Scene.dropVsPaddle host s).mBalls = [] := by
  cases hp : s.mPlayerPaddle with
  | none =>
    simp only [Scene.dropVsPaddle, hp]
    exact h
  | some paddle =>
    cases hc : paddle.collider with
    | none =>
      simp only [Scene.dropVsPaddle, hp, hc]
      exact h
    | some paddleRect =>
      rw [Scene.dropVsPaddle_eq host s paddle paddleRect hp hc]
      simp only [h]
      exact Function.iterate_fixed (Scene.spawnBalls_nil host) _

theorem Scene.ballVsPaddle_no_balls (host : Host F) (s : Scene F) (k : Nat)
    (h : s.mBalls = []) : (Scene.ballVsPaddle host s k).1.mBalls = [] := by
  cases hp : s.mPlayerPaddle with
  | none =>
    simp only [Scene.ballVsPaddle, hp]
    exact h
  | some paddle =>
    cases hc : paddle.collider with
    | none =>
      simp only [Scene.ballVsPaddle, hp, hc]
      exact h
    | some paddleRect =>
      simp only [Scene.ballVsPaddle, hp, hc, h, Scene.paddleLoop]

/-- A frame that starts without balls has none at the termination checks:
pickups spawn one ball per ball in the list. -/
theorem Scene.afterCleanup_no_balls (host : Host F) (s : Scene F) (k : Nat) (dt : F)
    (h : s.mBalls = []) : (Scene.afterCleanup host s k dt).1.mBalls = [] := by
  have h4 : (Scene.firstMotion host s dt).mBalls = [] := by
    unfold Scene.firstMotion
    simp only
    rw [Scene.dropVsPaddle_no_balls host
      { s with mPlayerPaddle := s.mPlayerPaddle.map (fun p => p.Update dt),
               mDrops := s.mDrops.map (fun d => d.Update dt) } h]
    rfl
  have h7 : (Scene.passes host s k dt).1.mBalls = [] := by
    rw [Scene.passes_eq]
    apply Scene.ballVsPaddle_no_balls
    simp only [h4, Scene.ballVsBrick, List.map_nil]
  unfold Scene.afterCleanup
  simp only [h7, List.length_nil, Scene.cleanupLoop]

/-- C29: the game-over check comes before the win check.  Whenever the ball
list is empty after cleanup, `Scene.Update` ends in game-over, whatever the
bricks are (all breakable bricks inactive included), and the scene status at
that moment is the one the scene had before the frame.  A scene without balls
ends in game-over; so does the next `Update` on the scene a winning frame
returned. -/
theorem C29_game_over_before_win (host : Host F) (s : Scene F) (k : Nat) (dt : F) :
    ((Scene.afterCleanup host s k dt).1.mBalls = [] →
      Scene.Update host s k dt = Outcome.gameOver ∧
      (Scene.afterCleanup host s k dt).1.mSceneIsActive = s.mSceneIsActive) ∧
    ((Scene.afterCleanup host s k dt).1.mBalls = [] →
      Scene.allCleared (Scene.afterCleanup host s k dt).1.mBricks = true →
      Scene.Update host s k dt = Outcome.gameOver) ∧
    (s.mBalls = [] → Scene.Update host s k dt = Outcome.gameOver) ∧
    (∀ (s' : Scene F) (k' : Nat) (dt' : F),
      Scene.Update host s k dt = Outcome.running s' k' →
      Scene.allCleared (Scene.afterCleanup host s k dt).1.mBricks = true →
      s'.mSceneIsActive = false ∧ s'.mBalls = [] ∧
      Scene.Update host s' k' dt' = Outcome.gameOver) := by
  have hgo : ∀ (s0 : Scene F) (k0 : Nat) (dt0 : F),
      (Scene.afterCleanup host s0 k0 dt0).1.mBalls = [] →
      Scene.Update host s0 k0 dt0 = Outcome.gameOver := by
    intro s0 k0 dt0 h
    rw [Scene.Update_eq]
    exact (Scene.finish_eq_gameOver_iff _).mpr h
  refine ⟨?_, ?_, ?_, ?_⟩
  · intro h
    exact ⟨hgo s k dt h, (Scene.passes_fields host s k dt).2.2.2⟩
  · intro h _
    exact hgo s k dt h
  · intro h
    exact hgo s k dt (Scene.afterCleanup_no_balls host s k dt h)
  · intro s' k' dt' hrun hwon
    rw [Scene.Update_eq] at hrun
    unfold Scene.finish at hrun
    split_ifs at hrun
    simp only [Outcome.running.injEq] at hrun
    have hb : s'.mBalls = [] := by rw [← hrun.1]
    have ha : s'.mSceneIsActive = false := by rw [← hrun.1]
    exact ⟨ha, hb, hgo s' k' dt' (Scene.afterCleanup_no_balls host s' k' dt' hb)⟩

/-- Witness of C29: in `exSceneFalling` the last ball falls while every
breakable brick is inactive, and the frame ends in game-over; `exSceneWon` is
won by its frame, and the next frame on the returned scene is game-over. -/
theorem C29_game_over_before_win_witness :
    Scene.allCleared (Scene.afterCleanup exHost exSceneFalling 0 (1 / 60)).1.mBricks = true ∧
    Scene.Update exHost exSceneFalling 0 (1 / 60) = Outcome.gameOver ∧
    (∀ (s' : Scene ℚ) (k' : Nat),
      Scene.Update exHost exSceneWon 0 (1 / 60) = Outcome.running s' k' →
      s'.mSceneIsActive = false ∧ s'.mBalls = [] ∧
      Scene.Update exHost s' k' (1 / 60) = Outcome.gameOver) :=
  ⟨by decide!,
    (C29_game_over_before_win exHost exSceneFalling 0 (1 / 60)).2.1 (by decide!) (by decide!),
    fun s' k' h =>
      (C29_game_over_before_win exHost exSceneWon 0 (1 / 60)).2.2.2 s' k' (1 / 60) h
        (by decide!)⟩

/-! ### Application.update -/

/-- C26: `Application.update` with the current index `i` inside the scene
list.  If `Scene.Update` of the current scene returns: when the scene is
inactive afterwards, `i` becomes `i + 1` if a next scene exists (run flag
unchanged), and otherwise `i` stays and the run flag becomes false; when the
scene is still active, `i` and the run flag are unchanged.  In each case the
index stays inside the list and does not decrease, and the list keeps its
length.  If `Scene.Update` ends in game-over, the process exits there. -/
theorem C26_application_advances_scene (host : Host F) (app : Application F) (k : Nat)
    (dt : F) (scene : Scene F)
    (hidx : app.mScenes[app.mCurrentSceneIndex]? = some scene) :
    (Scene.Update host scene k dt = Outcome.gameOver →
      Application.update host app k dt = AppOutcome.exited) ∧
    (∀ (scene1 : Scene F) (k1 : Nat),
      Scene.Update host scene k dt = Outcome.running scene1 k1 →
      ∃ app1 : Application F,
        Application.update host app k dt = AppOutcome.returned app1 k1 ∧
        app1.mScenes = app.mScenes.set app.mCurrentSceneIndex scene1 ∧
        (scene1.mSceneIsActive = false →
          app.mCurrentSceneIndex + 1 < app.mScenes.length →
          app1.mCurrentSceneIndex = app.mCurrentSceneIndex + 1 ∧ app1.mRun = app.mRun) ∧
        (scene1.mSceneIsActive = false →
          ¬ app.mCurrentSceneIndex + 1 < app.mScenes.length →
          app1.mCurrentSceneIndex = app.mCurrentSceneIndex ∧ app1.mRun = false) ∧
        (scene1.mSceneIsActive = true →
          app1.mCurrentSceneIndex = app.mCurrentSceneIndex ∧ app1.mRun = app.mRun) ∧
        app1.mCurrentSceneIndex < app1.mScenes.length ∧
        app.mCurrentSceneIndex ≤ app1.mCurrentSceneIndex ∧
        app1.mScenes.length = app.mScenes.length) := by
  have hlt : app.mCurrentSceneIndex < app.mScenes.length := by
    by_contra hge
    rw [List.getElem?_eq_none (not_lt.mp hge)] at hidx
    exact absurd hidx (by simp)
  have hne : app.mScenes.isEmpty = false := by
    cases hs : app.mScenes with
    | nil =>
      rw [hs] at hlt
      simp at hlt
    | cons a rest => rfl
  constructor
  · intro hgo
    unfold Application.update
    simp only [hne, Bool.false_eq_true, if_false, hidx, hgo]
  · intro scene1 k1 hrun
    unfold Application.update
    simp only [hne, Bool.false_eq_true, if_false, hidx, hrun]
    by_cases hact : scene1.mSceneIsActive = true
    · simp only [hact, Bool.not_true, Bool.false_eq_true, if_false]
      refine ⟨_, rfl, rfl, ?_, ?_, ?_, ?_, le_refl _, ?_⟩
      · intro h
        exact absurd h (by simp)
      · intro h
        exact absurd h (by simp)
      · intro _
        exact ⟨rfl, rfl⟩
      · simp only [List.length_set]
        exact hlt
      · simp only [List.length_set]
    · rw [Bool.not_eq_true] at hact
      simp only [hact, Bool.not_false, if_true]
      by_cases hnext : app.mCurrentSceneIndex + 1 < app.mScenes.length
      · simp only [hnext, if_true]
        refine ⟨_, rfl, rfl, ?_, ?_, ?_, ?_, Nat.le_succ _, ?_⟩
        · intro _ _
          exact ⟨rfl, rfl⟩
        · intro _ h
          exact absurd trivial h
        · intro h
          exact absurd h (by simp)
        · simp only [List.length_set]
          exact hnext
        · simp only [List.length_set]
      · simp only [hnext, if_false]
        refine ⟨_, rfl, rfl, ?_, ?_, ?_, ?_, le_refl _, ?_⟩
        · intro _ h
          exact h.elim
        · intro _ _
          exact ⟨rfl, rfl⟩
        · intro h
          exact absurd h (by simp)
        · simp only [List.length_set]
          exact hlt
        · simp only [List.length_set]

/-- Witness of C26: `exApp` stands at its first scene, `exSceneWon`, which its
frame leaves inactive; a second scene exists, so the update moves the index
from 0 to 1 and leaves the run flag set. -/
theorem C26_application_advances_scene_witness :
    exApp.mScenes[exApp.mCurrentSceneIndex]? = some exSceneWon ∧
    (∀ (scene1 : Scene ℚ) (k1 : Nat),
      Scene.Update exHost exSceneWon 0 (1 / 60) = Outcome.running scene1 k1 →
      ∃ app1 : Application ℚ,
        Application.update exHost exApp 0 (1 / 60) = AppOutcome.returned app1 k1 ∧
        app1.mScenes = exApp.mScenes.set exApp.mCurrentSceneIndex scene1 ∧
        (scene1.mSceneIsActive = false →
          exApp.mCurrentSceneIndex + 1 < exApp.mScenes.length →
          app1.mCurrentSceneIndex = exApp.mCurrentSceneIndex + 1 ∧ app1.mRun = exApp.mRun) ∧
        (scene1.mSceneIsActive = false →
          ¬ exApp.mCurrentSceneIndex + 1 < exApp.mScenes.length →
          app1.mCurrentSceneIndex = exApp.mCurrentSceneIndex ∧ app1.mRun = false) ∧
        (scene1.mSceneIsActive = true →
          app1.mCurrentSceneIndex = exApp.mCurrentSceneIndex ∧ app1.mRun = exApp.mRun) ∧
        app1.mCurrentSceneIndex < app1.mScenes.length ∧
        exApp.mCurrentSceneIndex ≤ app1.mCurrentSceneIndex ∧
        app1.mScenes.length = exApp.mScenes.length) ∧
    (match Application.update exHost exApp 0 (1 / 60) with
      | AppOutcome.returned app1 _ => decide (app1.mCurrentSceneIndex = 1) && app1.mRun
      | AppOutcome.exited => false) = true :=
  ⟨by decide!,
    (C26_application_advances_scene exHost exApp 0 (1 / 60) exSceneWon (by decide!)).2,
    by decide!⟩

/-! ### LoadFromFile -/

/-- A skipped line leaves the scene under construction as it is. -/
theorem Scene.loadLine_of_skipped (ld : Loader F) (s : Scene F) (line : String)
    (h : Scene.lineIsSkipped ld line = true) : Scene.loadLine ld s line = s := by
  unfold Scene.loadLine
  unfold Scene.lineIsSkipped at h
  by_cases h0 : (line.isEmpty || line.front == '#') = true
  · rw [if_pos h0]
  · rw [if_neg h0]
    rw [Bool.not_eq_true] at h0
    rw [Bool.or_assoc, ← Bool.or_assoc, h0, Bool.false_or] at h
    simp only
    by_cases hp : ld.entityType line = "PADDLE"
    · rw [if_pos (Or.inl hp)] at h
      rw [if_pos hp, Option.isNone_iff_eq_none.mp h]
    · rw [if_neg hp]
      by_cases hb : ld.entityType line = "BALL"
      · have hnot : ¬ (ld.entityType line = "PADDLE" ∨ ld.entityType line = "BRICK" ∨
            ld.entityType line = "UNBRICK") := by
          rw [hb]
          decide
        rw [if_neg hnot, if_pos hb] at h
        rw [if_pos hb, Option.isNone_iff_eq_none.mp h]
      · rw [if_neg hb]
        by_cases hk : ld.entityType line = "BRICK"
        · rw [if_pos (Or.inr (Or.inl hk))] at h
          rw [if_pos hk, Option.isNone_iff_eq_none.mp h]
        · rw [if_neg hk]
          by_cases hu : ld.entityType line = "UNBRICK"
          · rw [if_pos (Or.inr (Or.inr hu))] at h
            rw [if_pos hu, Option.isNone_iff_eq_none.mp h]
          · rw [if_neg hu]

/-- Folding the lines of a file is folding the lines that are not skipped. -/
theorem Scene.foldl_loadLine_filter (ld : Loader F) (lines : List String) (s : Scene F) :
    lines.foldl (Scene.loadLine ld) s =
      (lines.filter (fun l => !Scene.lineIsSkipped ld l)).foldl (Scene.loadLine ld) s := by
  induction lines generalizing s with
  | nil => rfl
  | cons l rest ih =>
    by_cases h : Scene.lineIsSkipped ld l = true
    · rw [List.foldl_cons, Scene.loadLine_of_skipped ld s l h, ih]
      simp [List.filter_cons, h]
    · rw [Bool.not_eq_true] at h
      rw [List.foldl_cons, ih]
      simp [List.filter_cons, h]

/-- C22: a line of the scene file that is empty, starts with `#`, has an
unrecognised keyword, or has a recognised keyword whose numbers cannot be
read leaves the scene under construction unchanged, so what was loaded before
it is kept.  Inserting or deleting such a line anywhere in the file does not
change the scene `LoadFromFile` produces, and the loaded scene is the one
produced from the remaining lines alone, in their order. -/
theorem C22_skipped_lines_do_not_matter (ld : Loader F) (s : Scene F) (bad : String)
    (hbad : Scene.lineIsSkipped ld bad = true) :
    (∀ s1 : Scene F, Scene.loadLine ld s1 bad = s1) ∧
    (∀ pre post : List String,
      Scene.LoadFromFile ld s (some (pre ++ bad :: post)) =
        Scene.LoadFromFile ld s (some (pre ++ post))) ∧
    (∀ pre : List String,
      Scene.LoadFromFile ld s (some (pre ++ [bad])) = Scene.LoadFromFile ld s (some pre)) ∧
    (∀ lines : List String,
      Scene.LoadFromFile ld s (some lines) =
        Scene.LoadFromFile ld s
          (some (lines.filter (fun l => !Scene.lineIsSkipped ld l)))) := by
  refine ⟨fun s1 => Scene.loadLine_of_skipped ld s1 bad hbad, ?_, ?_, ?_⟩
  · intro pre post
    unfold Scene.LoadFromFile
    simp only [List.foldl_append, List.foldl_cons]
    rw [Scene.loadLine_of_skipped ld _ bad hbad]
  · intro pre
    unfold Scene.LoadFromFile
    simp only [List.foldl_append, List.foldl_cons, List.foldl_nil]
    rw [Scene.loadLine_of_skipped ld _ bad hbad]
  · intro lines
    unfold Scene.LoadFromFile
    simp only
    exact Scene.foldl_loadLine_filter ld lines _

/-- Witness of C22: `"BALL 700 500"` lacks its velocity and is skipped by
`exLoader`; `exFile` is `exFileClean` with a comment, an empty line, that
line and an unknown keyword put in, and both load to the same scene, with one
paddle, one ball and two bricks. -/
theorem C22_skipped_lines_do_not_matter_witness :
    Scene.lineIsSkipped exLoader "BALL 700 500" = true ∧
    ((∀ s1 : Scene ℚ, Scene.loadLine exLoader s1 "BALL 700 500" = s1) ∧
    (∀ pre post : List String,
      Scene.LoadFromFile exLoader exEmptyScene (some (pre ++ "BALL 700 500" :: post)) =
        Scene.LoadFromFile exLoader exEmptyScene (some (pre ++ post))) ∧
    (∀ pre : List String,
      Scene.LoadFromFile exLoader exEmptyScene (some (pre ++ ["BALL 700 500"])) =
        Scene.LoadFromFile exLoader exEmptyScene (some pre)) ∧
    (∀ lines : List String,
      Scene.LoadFromFile exLoader exEmptyScene (some lines) =
        Scene.LoadFromFile exLoader exEmptyScene
          (some (lines.filter (fun l => !Scene.lineIsSkipped exLoader l))))) ∧
    exFile.filter (fun l => !Scene.lineIsSkipped exLoader l) = exFileClean ∧
    Scene.LoadFromFile exLoader exEmptyScene (some exFile) =
      Scene.LoadFromFile exLoader exEmptyScene (some exFileClean) ∧
    (Scene.LoadFromFile exLoader exEmptyScene (some exFile)).mPlayerPaddle.isSome = true ∧
    (Scene.LoadFromFile exLoader exEmptyScene (some exFile)).mBalls.length = 1 ∧
    (Scene.LoadFromFile exLoader exEmptyScene (some exFile)).mBricks.map
      (fun b => (b.transform, b.unbreakable)) =
        [(some ⟨700, 100, 90, 45⟩, false), (some ⟨800, 100, 90, 45⟩, true)] :=
  ⟨by decide!,
    C22_skipped_lines_do_not_matter exLoader exEmptyScene "BALL 700 500" (by decide!),
    by decide!, by decide!, by decide!, by decide!, by decide!⟩

/-! ### The paddle bounce can leave the ball moving down -/

/-- The step of the pass for a ball that intersects the paddle. -/
theorem Scene.paddleStep_of_hit (host : Host F) (paddleVel : F) (paddleRect : SDL_FRect F)
    (ball : Ball F) (k : Nat) (ballRect : SDL_FRect F) (ht : ball.transform = some ballRect)
    (hit : SDL_HasIntersectionF ballRect paddleRect = true) :
    Scene.paddleStep host paddleVel paddleRect ball k =
      (Scene.deflect host.cmath (Scene.bias host paddleVel k).1
        (ball.moveTransform ballRect.x (paddleRect.y - ballRect.h - 1)).ReverseVelY,
       (Scene.bias host paddleVel k).2) := by
  unfold Scene.paddleStep
  rw [ht]
  simp only [hit, if_true]

/-- Over the reals: a ball whose velocity on entry lies below the line
`vy = vx tan 10°` (for `vx > 0` and `vy > 0`: moving down at less than 10
degrees below the horizontal), deflected with bias 1 after its vertical
velocity was reversed, moves down. -/
theorem Scene.deflect_shallow_stays_down (ball : Ball ℝ)
    (hy : ball.velY < ball.velX * Real.tan (Real.pi / 18)) :
    0 < (Scene.deflect realCMath 1 ball.ReverseVelY).velY := by
  have hpi : 0 < Real.pi := Real.pi_pos
  have hcos : 0 < Real.cos (Real.pi / 18) :=
    Real.cos_pos_of_mem_Ioo ⟨by linarith, by linarith⟩
  rw [(Scene.deflect_real_eq_rotation 1 ball.ReverseVelY).2.1]
  have hv : ball.ReverseVelY.velX = ball.velX := rfl
  have hw : ball.ReverseVelY.velY = -ball.velY := rfl
  rw [hv, hw]
  rw [Real.tan_eq_sin_div_cos, ← mul_div_assoc, lt_div_iff₀ hcos] at hy
  have hone : ((1 : Int) : ℝ) * (Real.pi / 18) = Real.pi / 18 := by
    push_cast
    ring
  rw [hone]
  linarith

/-- C30: over the real numbers there is a scene with a paddle moving right
(bias 1) and one ball that intersects the paddle with a downward velocity
less than 10 degrees below the horizontal (`0 < vy < |vx| tan 10°`), for which
the ball-vs-paddle pass resolves the hit and leaves the ball with `vy' > 0`:
the ball leaves the pass still moving down. -/
theorem C30_paddle_bounce_can_leave_downward :
    ∃ (s : Scene ℝ) (paddle : Paddle ℝ) (paddleRect : SDL_FRect ℝ) (ball : Ball ℝ)
        (ballRect : SDL_FRect ℝ),
      s.mPlayerPaddle = some paddle ∧ paddle.collider = some paddleRect ∧
      s.mBalls = [ball] ∧ ball.transform = some ballRect ∧
      SDL_HasIntersectionF ballRect paddleRect = true ∧
      0 < ball.velY ∧ ball.velY < |ball.velX| * Real.tan (Real.pi / 18) ∧
      (Scene.bias exRealHost paddle.instantaneousVelocity 0).1 = 1 ∧
      (Scene.ballVsPaddle exRealHost s 0).1.mBalls =
        [(Scene.paddleStep exRealHost paddle.instantaneousVelocity paddleRect ball 0).1] ∧
      (Scene.paddleStep exRealHost paddle.instantaneousVelocity paddleRect ball 0).1.velY =
        ball.velX * Real.sin (Real.pi / 18) - ball.velY * Real.cos (Real.pi / 18) ∧
      0 < (Scene.paddleStep exRealHost paddle.instantaneousVelocity paddleRect ball 0).1.velY := by
  have hpi : 0 < Real.pi := Real.pi_pos
  have h3 : 3 < Real.pi := Real.pi_gt_three
  have htan : Real.pi / 18 < Real.tan (Real.pi / 18) :=
    Real.lt_tan (by linarith) (by linarith)
  have hfast : ¬ |(300 : ℝ)| < 1 / 100 := by
    rw [abs_of_pos (by norm_num : (0 : ℝ) < 300)]
    norm_num
  have hbias : Scene.bias exRealHost (300 : ℝ) 0 = (1, 0) := by
    rw [Scene.bias_of_fast exRealHost 300 0 hfast]
    simp
  have hit : SDL_HasIntersectionF (⟨720, 890, 20, 20⟩ : SDL_FRect ℝ) ⟨700, 900, 100, 20⟩
      = true := by
    rw [SDL_HasIntersectionF_iff]
    norm_num
  let ball : Ball ℝ :=
    { transform := some ⟨720, 890, 20, 20⟩, collider := some ⟨720, 890, 20, 20⟩, mSpeed := 250,
      xPositiveDirection := 1, velX := 10, velY := 1 }
  have hstep : Scene.paddleStep exRealHost 300 ⟨700, 900, 100, 20⟩ ball 0 =
      (Scene.deflect realCMath 1
        (ball.moveTransform 720 (900 - 20 - 1)).ReverseVelY, 0) := by
    rw [Scene.paddleStep_of_hit exRealHost 300 ⟨700, 900, 100, 20⟩ ball 0 ⟨720, 890, 20, 20⟩
      rfl hit, hbias]
    rfl
  have hvx : (ball.moveTransform 720 (900 - 20 - 1)).velX = 10 := rfl
  have hvy : (ball.moveTransform 720 (900 - 20 - 1)).velY = 1 := rfl
  have hdown : 0 < (Scene.deflect realCMath 1
      (ball.moveTransform 720 (900 - 20 - 1)).ReverseVelY).velY := by
    apply Scene.deflect_shallow_stays_down
    rw [hvx, hvy]
    linarith
  have hval : (Scene.deflect realCMath 1
      (ball.moveTransform 720 (900 - 20 - 1)).ReverseVelY).velY =
        10 * Real.sin (Real.pi / 18) - 1 * Real.cos (Real.pi / 18) := by
    rw [(Scene.deflect_real_eq_rotation 1 _).2.1]
    have hv : (ball.moveTransform 720 (900 - 20 - 1)).ReverseVelY.velX = 10 := rfl
    have hw : (ball.moveTransform 720 (900 - 20 - 1)).ReverseVelY.velY = -1 := rfl
    have hone : ((1 : Int) : ℝ) * (Real.pi / 18) = Real.pi / 18 := by
      push_cast
      ring
    rw [hv, hw, hone]
    ring
  refine ⟨{ mPlayerPaddle := some
              { transform := some ⟨700, 900, 100, 20⟩, collider := some ⟨700, 900, 100, 20⟩,
                mSpeed := 500, xPositiveDirection := 1, lastPosX := 695,
                instantaneousVelocity := 300, input := some 300 },
            mBalls := [ball], mBricks := [], mDrops := [], mSceneIsActive := true },
    { transform := some ⟨700, 900, 100, 20⟩, collider := some ⟨700, 900, 100, 20⟩,
      mSpeed := 500, xPositiveDirection := 1, lastPosX := 695,
      instantaneousVelocity := 300, input := some 300 },
    ⟨700, 900, 100, 20⟩, ball, ⟨720, 890, 20, 20⟩, rfl, rfl, rfl, rfl, hit, ?_, ?_, ?_, ?_, ?_, ?_⟩
  · show (0 : ℝ) < 1
    norm_num
  · show (1 : ℝ) < |(10 : ℝ)| * Real.tan (Real.pi / 18)
    rw [abs_of_pos (by norm_num : (0 : ℝ) < 10)]
    linarith
  · show (Scene.bias exRealHost (300 : ℝ) 0).1 = 1
    rw [hbias]
  · rfl
  · show (Scene.paddleStep exRealHost 300 ⟨700, 900, 100, 20⟩ ball 0).1.velY = _
    rw [hstep]
    exact hval
  · show 0 < (Scene.paddleStep exRealHost 300 ⟨700, 900, 100, 20⟩ ball 0).1.velY
    rw [hstep]
    exact hdown

/-! ### Tracking a ball through the cleanup step -/

/-- An entry of a list that passes the test sits, in the filtered list, at the
index given by the number of entries before it that pass the test. -/
theorem getElem?_filter_of_getElem? {α : Type} (p : α → Bool) :
    ∀ (l : List α) (j : Nat) (a : α), l[j]? = some a → p a = true →
      (l.filter p)[((l.take j).filter p).length]? = some a := by
  intro l
  induction l with
  | nil =>
    intro j a h _
    simp at h
  | cons x xs ih =>
    intro j a h hp
    cases j with
    | zero =>
      simp only [List.getElem?_cons_zero, Option.some.injEq] at h
      subst h
      simp [List.filter_cons, hp]
    | succ j =>
      simp only [List.getElem?_cons_succ] at h
      have := ih j a h hp
      by_cases hx : p x = true
      · simp only [List.take_succ_cons, List.filter_cons, hx, if_true, List.length_cons,
          List.getElem?_cons_succ]
        exact this
      · simp only [List.take_succ_cons, List.filter_cons, hx, if_false]
        exact this

/-- Every entry of the filtered list is an entry of the list that passes the
test, and its index is the number of entries before it that pass the test. -/
theorem getElem?_filter_origin {α : Type} (p : α → Bool) :
    ∀ (l : List α) (i : Nat) (a : α), (l.filter p)[i]? = some a →
      ∃ j, l[j]? = some a ∧ p a = true ∧ i = ((l.take j).filter p).length := by
  intro l
  induction l with
  | nil =>
    intro i a h
    simp at h
  | cons x xs ih =>
    intro i a h
    by_cases hx : p x = true
    · simp only [List.filter_cons, hx, if_true] at h
      cases i with
      | zero =>
        simp only [List.getElem?_cons_zero, Option.some.injEq] at h
        subst h
        exact ⟨0, by simp, hx, by simp⟩
      | succ i =>
        simp only [List.getElem?_cons_succ] at h
        obtain ⟨j, hj, hp, hi⟩ := ih i a h
        refine ⟨j + 1, by simpa using hj, hp, ?_⟩
        simp only [List.take_succ_cons, List.filter_cons, hx, if_true, List.length_cons]
        rw [hi]
    · simp only [List.filter_cons, hx, if_false] at h
      obtain ⟨j, hj, hp, hi⟩ := ih i a h
      refine ⟨j + 1, by simpa using hj, hp, ?_⟩
      simp only [List.take_succ_cons, List.filter_cons, hx, if_false]
      exact hi

/-- The passes are the ball-vs-paddle pass on the scene after the second
motion pass. -/
theorem Scene.passes_eq_ballVsPaddle (host : Host F) (s : Scene F) (k : Nat) (dt : F) :
    Scene.passes host s k dt =
      Scene.ballVsPaddle host (Scene.secondMotion host s k dt).1
        (Scene.secondMotion host s k dt).2 := rfl

/-- What the scene after the second motion pass holds. -/
theorem Scene.secondMotion_fields (host : Host F) (s : Scene F) (k : Nat) (dt : F) :
    (Scene.secondMotion host s k dt).1.mPlayerPaddle =
      s.mPlayerPaddle.map (fun p => p.Update dt) ∧
    (Scene.secondMotion host s k dt).1.mDrops =
      (Scene.ballVsBrick host (Scene.firstMotion host s dt).mBalls
        (Scene.firstMotion host s dt).mBricks (Scene.firstMotion host s dt).mDrops k).drops ∧
    (Scene.secondMotion host s k dt).1.mBalls =
      (Scene.ballVsBrick host (Scene.firstMotion host s dt).mBalls
        (Scene.firstMotion host s dt).mBricks (Scene.firstMotion host s dt).mDrops k).balls.map
          (fun b => b.Update dt) :=
  ⟨(Scene.firstMotion_fields host s dt).2.1, rfl, rfl⟩

/-- A ball that the ball-vs-paddle pass does not reposition keeps its index
and its whole state through the pass. -/
theorem Scene.ballVsPaddle_getElem_kept (host : Host F) (s : Scene F) (k j : Nat)
    (b : Ball F) (hj : s.mBalls[j]? = some b)
    (hnot : Scene.ballIsRepositioned s.mPlayerPaddle b = false) :
    (Scene.ballVsPaddle host s k).1.mBalls[j]? = some b := by
  cases hp : s.mPlayerPaddle with
  | none =>
    simp only [Scene.ballVsPaddle, hp]
    exact hj
  | some paddle =>
    cases hc : paddle.collider with
    | none =>
      simp only [Scene.ballVsPaddle, hp, hc]
      exact hj
    | some paddleRect =>
      simp only [Scene.ballVsPaddle, hp, hc]
      obtain ⟨k', hk'⟩ := Scene.paddleLoop_getElem host paddle.instantaneousVelocity
        paddleRect s.mBalls k j b hj
      rw [hk']
      cases ht : b.transform with
      | none => simp only [Scene.paddleStep, ht]
      | some ballRect =>
        simp only [Scene.ballIsRepositioned, hp, hc, ht] at hnot
        simp only [Scene.paddleStep, ht, hnot, Bool.false_eq_true, if_false]

/-- The ball list keeps its length through the ball-vs-paddle pass. -/
theorem Scene.ballVsPaddle_length (host : Host F) (s : Scene F) (k : Nat) :
    (Scene.ballVsPaddle host s k).1.mBalls.length = s.mBalls.length := by
  cases hp : s.mPlayerPaddle with
  | none => simp only [Scene.ballVsPaddle, hp]
  | some paddle =>
    cases hc : paddle.collider with
    | none => simp only [Scene.ballVsPaddle, hp, hc]
    | some paddleRect =>
      simp only [Scene.ballVsPaddle, hp, hc]
      exact Scene.paddleLoop_length host _ _ _ _

/-- Every ball that enters the ball-vs-paddle pass was synced by the second
motion pass. -/
theorem Scene.secondMotion_balls_synced (host : Host F) (s : Scene F) (k : Nat) (dt : F) :
    ∀ b ∈ (Scene.secondMotion host s k dt).1.mBalls, b.toGameEntity.Synced := by
  intro b hb
  rw [(Scene.secondMotion_fields host s k dt).2.2] at hb
  simp only [List.mem_map] at hb
  obtain ⟨b0, _, rfl⟩ := hb
  exact Ball.ballUpdate_synced b0 dt

/-- Every drop that enters the ball-vs-brick pass was synced by `Drop.Update`
in this frame. -/
theorem Scene.firstMotion_drops_synced (host : Host F) (s : Scene F) (dt : F) :
    ∀ d ∈ (Scene.firstMotion host s dt).mDrops, d.toGameEntity.Synced := by
  intro d hd
  unfold Scene.firstMotion at hd
  simp only at hd
  have := Scene.dropVsPaddle_mDrops_subset host _ d hd
  simp only [List.mem_map] at this
  obtain ⟨d0, _, rfl⟩ := this
  exact Drop.dropUpdate_synced d0 dt

/-! ### Colliders after the frame, entity by entity -/

/-- C18, amended: after a `Scene.Update` that returns, the collider rectangle
equals the Transform rectangle (for an entity that has both)
* for the paddle;
* for every drop that the ball-vs-brick pass of this frame did not spawn: the
  pass receives the drops left by the drop-vs-paddle pass and only appends to
  them, the returned drop list is the list it leaves, and every drop at an
  index below the number of drops it received is synced;
* for every ball that the ball-vs-paddle pass of this frame did not
  reposition: the ball at index `i` of the returned list is the ball at the
  index `j` of the pass that `i` comes from through the cleanup step, and if
  the ball that entered the pass at `j` did not intersect the collider of the
  paddle of this frame, the returned ball is that ball, unchanged and synced
  (`j` is the one index of a ball kept by the cleanup step with `i` kept balls
  before it). -/
theorem C18_synced_after_update (host : Host F) (s : Scene F) (k : Nat) (dt : F)
    (s' : Scene F) (k' : Nat) (h : Scene.Update host s k dt = Outcome.running s' k') :
    (s'.mPlayerPaddle = (Scene.secondMotion host s k dt).1.mPlayerPaddle ∧
      ∀ p, s'.mPlayerPaddle = some p → p.toGameEntity.Synced) ∧
    (s'.mDrops =
        (Scene.ballVsBrick host (Scene.firstMotion host s dt).mBalls
          (Scene.firstMotion host s dt).mBricks (Scene.firstMotion host s dt).mDrops k).drops ∧
      s'.mDrops.take (Scene.firstMotion host s dt).mDrops.length =
        (Scene.firstMotion host s dt).mDrops ∧
      ∀ (i : Nat) (d : Drop F), i < (Scene.firstMotion host s dt).mDrops.length →
        s'.mDrops[i]? = some d → d.toGameEntity.Synced) ∧
    (∀ (i : Nat) (b : Ball F), s'.mBalls[i]? = some b →
      ∃ (j : Nat) (b2 : Ball F),
        (Scene.secondMotion host s k dt).1.mBalls[j]? = some b2 ∧
        (Scene.passes host s k dt).1.mBalls[j]? = some b ∧
        i = (((Scene.passes host s k dt).1.mBalls.take j).filter
              (fun b => !Scene.ballIsOut b)).length ∧
        Scene.ballIsOut b = false ∧
        (Scene.ballIsRepositioned (Scene.secondMotion host s k dt).1.mPlayerPaddle b2 = false →
          b = b2 ∧ b.toGameEntity.Synced)) := by
  rw [Scene.Update_eq] at h
  obtain ⟨hp, _, hd, hb, _⟩ := Scene.finish_running _ s' k' h
  have hpad : (Scene.afterCleanup host s k dt).1.mPlayerPaddle =
      s.mPlayerPaddle.map (fun p => p.Update dt) := (Scene.passes_fields host s k dt).2.2.1
  have hdrops : s'.mDrops =
      (Scene.ballVsBrick host (Scene.firstMotion host s dt).mBalls
        (Scene.firstMotion host s dt).mBricks (Scene.firstMotion host s dt).mDrops k).drops := by
    rw [hd, (Scene.firstMotion_fields host s dt).1]
    exact (Scene.passes_fields host s k dt).2.1
  obtain ⟨news, hnews, _, _⟩ := Scene.ballVsBrick_drops host
    (Scene.firstMotion host s dt).mBalls (Scene.firstMotion host s dt).mBricks
    (Scene.firstMotion host s dt).mDrops k
  refine ⟨⟨?_, ?_⟩, ⟨hdrops, ?_, ?_⟩, ?_⟩
  · rw [hp, hpad, (Scene.secondMotion_fields host s k dt).1]
  · intro p hpp
    rw [hp, hpad] at hpp
    cases hs : s.mPlayerPaddle with
    | none =>
      rw [hs] at hpp
      simp at hpp
    | some p0 =>
      rw [hs] at hpp
      simp only [Option.map_some', Option.some.injEq] at hpp
      rw [← hpp]
      exact Paddle.paddleUpdate_synced p0 dt
  · rw [hdrops, hnews, List.take_left']
    rfl
  · intro i d hi hget
    rw [hdrops, hnews, List.getElem?_append_left hi] at hget
    exact Scene.firstMotion_drops_synced host s dt d (List.getElem?_mem hget)
  · intro i b hget
    rcases hb with hb | hb
    · have hf : (Scene.afterCleanup host s k dt).1.mBalls =
          (Scene.passes host s k dt).1.mBalls.filter (fun b => !Scene.ballIsOut b) :=
        Scene.cleanup_eq_filter _
      rw [hb, hf] at hget
      obtain ⟨j, hj, hkeep, hidx⟩ := getElem?_filter_origin _ _ i b hget
      have hin : Scene.ballIsOut b = false := by simpa using hkeep
      have hlt : j < (Scene.secondMotion host s k dt).1.mBalls.length := by
        have hlen := Scene.ballVsPaddle_length host (Scene.secondMotion host s k dt).1
          (Scene.secondMotion host s k dt).2
        rw [← Scene.passes_eq_ballVsPaddle] at hlen
        rw [← hlen]
        by_contra hge
        rw [List.getElem?_eq_none (not_lt.mp hge)] at hj
        exact absurd hj (by simp)
      refine ⟨j, (Scene.secondMotion host s k dt).1.mBalls[j],
        List.getElem?_eq_getElem hlt, hj, hidx, hin, ?_⟩
      intro hnot
      have hkept := Scene.ballVsPaddle_getElem_kept host (Scene.secondMotion host s k dt).1
        (Scene.secondMotion host s k dt).2 j _ (List.getElem?_eq_getElem hlt) hnot
      rw [← Scene.passes_eq_ballVsPaddle, hj] at hkept
      have hbb : b = (Scene.secondMotion host s k dt).1.mBalls[j] := Option.some.inj hkept
      refine ⟨hbb, ?_⟩
      rw [hbb]
      exact Scene.secondMotion_balls_synced host s k dt _ (List.getElem_mem _)
    · rw [hb] at hget
      simp at hget

/-- Witness of the amended C18 on `exSceneMixed` with `dt = 1/60`: the frame
returns.  The drop that was in the scene is synced and the drop spawned at the
broken brick, at index 1, is not.  Of the four balls that enter the
ball-vs-paddle pass only the second is repositioned; the first is removed by
the cleanup step, so the returned list holds the repositioned ball, whose
collider is still at `y = 882` while its Transform is at `y = 879`, and the
two other balls, synced. -/
theorem C18_synced_after_update_witness :
    Scene.Update exHost exSceneMixed 0 (1 / 60) =
      Outcome.running (Scene.afterCleanup exHost exSceneMixed 0 (1 / 60)).1
        (Scene.afterCleanup exHost exSceneMixed 0 (1 / 60)).2 ∧
    (((Scene.afterCleanup exHost exSceneMixed 0 (1 / 60)).1.mPlayerPaddle = (Scene.secondMotion exHost exSceneMixed 0 (1 / 60)).1.mPlayerPaddle ∧
        ∀ p, (Scene.afterCleanup exHost exSceneMixed 0 (1 / 60)).1.mPlayerPaddle = some p → p.toGameEntity.Synced) ∧
      ((Scene.afterCleanup exHost exSceneMixed 0 (1 / 60)).1.mDrops =
          (Scene.ballVsBrick exHost (Scene.firstMotion exHost exSceneMixed (1 / 60)).mBalls
            (Scene.firstMotion exHost exSceneMixed (1 / 60)).mBricks (Scene.firstMotion exHost exSceneMixed (1 / 60)).mDrops 0).drops ∧
        (Scene.afterCleanup exHost exSceneMixed 0 (1 / 60)).1.mDrops.take (Scene.firstMotion exHost exSceneMixed (1 / 60)).mDrops.length =
          (Scene.firstMotion exHost exSceneMixed (1 / 60)).mDrops ∧
        ∀ (i : Nat) (d : Drop ℚ), i < (Scene.firstMotion exHost exSceneMixed (1 / 60)).mDrops.length →
          (Scene.afterCleanup exHost exSceneMixed 0 (1 / 60)).1.mDrops[i]? = some d → d.toGameEntity.Synced) ∧
      (∀ (i : Nat) (b : Ball ℚ), (Scene.afterCleanup exHost exSceneMixed 0 (1 / 60)).1.mBalls[i]? = some b →
        ∃ (j : Nat) (b2 : Ball ℚ),
          (Scene.secondMotion exHost exSceneMixed 0 (1 / 60)).1.mBalls[j]? = some b2 ∧
          (Scene.passes exHost exSceneMixed 0 (1 / 60)).1.mBalls[j]? = some b ∧
          i = (((Scene.passes exHost exSceneMixed 0 (1 / 60)).1.mBalls.take j).filter
                (fun b => !Scene.ballIsOut b)).length ∧
          Scene.ballIsOut b = false ∧
          (Scene.ballIsRepositioned (Scene.secondMotion exHost exSceneMixed 0 (1 / 60)).1.mPlayerPaddle b2 = false →
            b = b2 ∧ b.toGameEntity.Synced))) ∧
    (Scene.firstMotion exHost exSceneMixed (1 / 60)).mDrops.length = 1 ∧
    ((Scene.afterCleanup exHost exSceneMixed 0 (1 / 60)).1.mDrops.map
      (fun d => (d.transform, d.collider))) =
        [(some ⟨300, 610 / 3, 16, 16⟩, some ⟨300, 610 / 3, 16, 16⟩),
         (some ⟨100, 100, 16, 16⟩, some ⟨0, 0, 16, 16⟩)] ∧
    ((Scene.secondMotion exHost exSceneMixed 0 (1 / 60)).1.mBalls.map
      (fun b => Scene.ballIsRepositioned
        (Scene.secondMotion exHost exSceneMixed 0 (1 / 60)).1.mPlayerPaddle b)) =
        [false, true, false, false] ∧
    ((Scene.afterCleanup exHost exSceneMixed 0 (1 / 60)).1.mBalls.map
      (fun b => (b.transform, b.collider))) =
        [(some ⟨720, 879, 20, 20⟩, some ⟨720, 882, 20, 20⟩),
         (some ⟨120, 151, 20, 20⟩, some ⟨120, 151, 20, 20⟩),
         (some ⟨102, 504, 20, 20⟩, some ⟨102, 504, 20, 20⟩)] :=
  have hrun : Scene.Update exHost exSceneMixed 0 (1 / 60) =
      Outcome.running (Scene.afterCleanup exHost exSceneMixed 0 (1 / 60)).1
        (Scene.afterCleanup exHost exSceneMixed 0 (1 / 60)).2 :=
    (Scene.Update_eq exHost exSceneMixed 0 (1 / 60)).trans
      (Scene.finish_of_running _ (by decide!) (by decide!))
  ⟨hrun, C18_synced_after_update exHost exSceneMixed 0 (1 / 60) _ _ hrun, by decide!,
    by decide!, by decide!, by decide!⟩

/-! ### Two motion passes per frame -/

/-- C19, as stated, fails.  In `exSceneWon` with `dt = 1/60` the ball at
`(100, 500)` with velocity `(0, 250)` reaches no wall in either motion pass,
intersects no active brick after the first and does not intersect the paddle
after the second; the passes leave it at `(100, 500 + 2 * 250 / 60)`, but the
frame clears the scene and the returned scene holds no ball.  In
`exSceneMixed` the ball at `(100, 998)` meets the same conditions, and the
cleanup step removes it: no ball of the returned scene is at
`(100, 998 + 2 * 250 / 60)`. -/
theorem C19_counterexample :
    (exSceneWon.mBalls[0]? = some (exBall ⟨100, 500, 20, 20⟩ 0 250) ∧
      ((0 : ℚ) < 100 + 1 * 0 * (1 / 60) ∧ (0 : ℚ) < 100 + 2 * 0 * (1 / 60) ∧
        (100 : ℚ) + 20 + 1 * 0 * (1 / 60) < 1600 ∧ (100 : ℚ) + 20 + 2 * 0 * (1 / 60) < 1600 ∧
        (500 : ℚ) + 1 * 250 * (1 / 60) > 0 ∧ (500 : ℚ) + 2 * 250 * (1 / 60) > 0) ∧
      (∀ br ∈ exSceneWon.mBricks,
        Scene.brickIsHit ⟨100 + 0 * (1 / 60), 500 + 250 * (1 / 60), 20, 20⟩ br = false) ∧
      (exSceneWon.mPlayerPaddle.map (fun p => (p.Update (1 / 60)).collider) =
          some (some ⟨700, 900, 100, 20⟩) ∧
        SDL_HasIntersectionF ⟨100 + 2 * 0 * (1 / 60), 500 + 2 * 250 * (1 / 60), 20, 20⟩
          (⟨700, 900, 100, 20⟩ : SDL_FRect ℚ) = false) ∧
      (Scene.passes exHost exSceneWon 0 (1 / 60)).1.mBalls.map (fun b => b.transform) =
        [some ⟨100 + 2 * 0 * (1 / 60), 500 + 2 * 250 * (1 / 60), 20, 20⟩] ∧
      Scene.Update exHost exSceneWon 0 (1 / 60) =
        Outcome.running
          { (Scene.afterCleanup exHost exSceneWon 0 (1 / 60)).1 with
            mBalls := [], mSceneIsActive := false }
          (Scene.afterCleanup exHost exSceneWon 0 (1 / 60)).2) ∧
    (exSceneMixed.mBalls[0]? = some (exBall ⟨100, 998, 20, 20⟩ 0 250) ∧
      ((0 : ℚ) < 100 + 1 * 0 * (1 / 60) ∧ (0 : ℚ) < 100 + 2 * 0 * (1 / 60) ∧
        (100 : ℚ) + 20 + 1 * 0 * (1 / 60) < 1600 ∧ (100 : ℚ) + 20 + 2 * 0 * (1 / 60) < 1600 ∧
        (998 : ℚ) + 1 * 250 * (1 / 60) > 0 ∧ (998 : ℚ) + 2 * 250 * (1 / 60) > 0) ∧
      (∀ br ∈ exSceneMixed.mBricks,
        Scene.brickIsHit ⟨100 + 0 * (1 / 60), 998 + 250 * (1 / 60), 20, 20⟩ br = false) ∧
      (exSceneMixed.mPlayerPaddle.map (fun p => (p.Update (1 / 60)).collider) =
          some (some ⟨700, 900, 100, 20⟩) ∧
        SDL_HasIntersectionF ⟨100 + 2 * 0 * (1 / 60), 998 + 2 * 250 * (1 / 60), 20, 20⟩
          (⟨700, 900, 100, 20⟩ : SDL_FRect ℚ) = false) ∧
      (Scene.passes exHost exSceneMixed 0 (1 / 60)).1.mBalls[0]?.map (fun b => b.transform) =
        some (some ⟨100 + 2 * 0 * (1 / 60), 998 + 2 * 250 * (1 / 60), 20, 20⟩) ∧
      Scene.Update exHost exSceneMixed 0 (1 / 60) =
        Outcome.running (Scene.afterCleanup exHost exSceneMixed 0 (1 / 60)).1
          (Scene.afterCleanup exHost exSceneMixed 0 (1 / 60)).2 ∧
      (Scene.afterCleanup exHost exSceneMixed 0 (1 / 60)).1.mBalls.length = 3 ∧
      ∀ b ∈ (Scene.afterCleanup exHost exSceneMixed 0 (1 / 60)).1.mBalls,
        b.transform ≠ some ⟨100 + 2 * 0 * (1 / 60), 998 + 2 * 250 * (1 / 60), 20, 20⟩) := by
  refine ⟨⟨by decide!, by decide!, by decide!, by decide!, by decide!, ?_⟩,
    ⟨by decide!, by decide!, by decide!, by decide!, by decide!, ?_, by decide!, by decide!⟩⟩
  · rw [Scene.Update_eq]
    unfold Scene.finish
    rw [if_neg (by decide!), if_pos (by decide!)]
  · rw [Scene.Update_eq]
    exact Scene.finish_of_running _ (by decide!) (by decide!)

/-- C19, amended: `Scene.Update` moves the balls twice and the drops once.
For a ball of the scene at index `i` with Transform `(x, y, w, h)` and
velocity `(vx, vy)` that reaches no wall in either motion pass, intersects no
active brick after the first pass, does not intersect the paddle after the
second, is not removed by the cleanup step (`y + 2*vy*dt ≤ 1000`), in a frame
after whose passes a breakable brick is still active: the call returns, and
the returned scene holds the ball with position `(x + 2*vx*dt, y + 2*vy*dt)`
and the same velocity, at the index `i` less the number of balls before it
that the cleanup step removed.  In every call that returns, a drop with a
Transform that is not picked up is in the returned drop list, moved down by
`mSpeed * dt`, once. -/
theorem C19_balls_move_twice_drops_once (host : Host F) (s : Scene F) (k : Nat) (dt : F)
    (i : Nat) (ball : Ball F) (tr : SDL_FRect F)
    (hi : s.mBalls[i]? = some ball) (htr : ball.transform = some tr)
    (hx1 : 0 < tr.x + 1 * ball.velX * dt) (hx2 : 0 < tr.x + 2 * ball.velX * dt)
    (hr1 : tr.x + tr.w + 1 * ball.velX * dt < 1600)
    (hr2 : tr.x + tr.w + 2 * ball.velX * dt < 1600)
    (hy1 : tr.y + 1 * ball.velY * dt > 0) (hy2 : tr.y + 2 * ball.velY * dt > 0)
    (hbrick : ∀ br ∈ s.mBricks,
      Scene.brickIsHit ⟨tr.x + ball.velX * dt, tr.y + ball.velY * dt, tr.w, tr.h⟩ br = false)
    (hpaddle : ∀ p paddleRect, s.mPlayerPaddle = some p →
      (p.Update dt).collider = some paddleRect →
      SDL_HasIntersectionF ⟨tr.x + 2 * ball.velX * dt, tr.y + 2 * ball.velY * dt, tr.w, tr.h⟩
        paddleRect = false)
    (hin : tr.y + 2 * ball.velY * dt ≤ 1000)
    (hnc : Scene.allCleared (Scene.passes host s k dt).1.mBricks = false) :
    (∃ (s' : Scene F) (k' : Nat) (ball' : Ball F),
      Scene.Update host s k dt = Outcome.running s' k' ∧
      (Scene.passes host s k dt).1.mBalls[i]? = some ball' ∧
      s'.mBalls[(((Scene.passes host s k dt).1.mBalls.take i).filter
          (fun b => !Scene.ballIsOut b)).length]? = some ball' ∧
      ball'.transform =
        some ⟨tr.x + 2 * ball.velX * dt, tr.y + 2 * ball.velY * dt, tr.w, tr.h⟩ ∧
      ball'.velX = ball.velX ∧ ball'.velY = ball.velY) ∧
    (∀ (s' : Scene F) (k' : Nat), Scene.Update host s k dt = Outcome.running s' k' →
      ∀ (d : Drop F) (dtr : SDL_FRect F), d ∈ s.mDrops → d.transform = some dtr →
        (∀ p paddleRect, s.mPlayerPaddle = some p → (p.Update dt).collider = some paddleRect →
          SDL_HasIntersectionF paddleRect ⟨dtr.x, dtr.y + d.mSpeed * dt, dtr.w, dtr.h⟩
            = false) →
        d.Update dt ∈ s'.mDrops ∧
        (d.Update dt).transform = some ⟨dtr.x, dtr.y + d.mSpeed * dt, dtr.w, dtr.h⟩) := by
  simp only [one_mul] at hx1 hr1 hy1
  constructor
  · -- first motion pass
    obtain ⟨ht1, hvx1, hvy1⟩ := Ball.Update_free ball tr dt htr hx1 hr1 hy1
    have h4 := Scene.firstMotion_getElem_balls host s dt i ball hi
    -- ball-vs-brick pass
    have h5 := Scene.ballVsBrick_getElem_miss host (Scene.firstMotion host s dt).mBalls
      s.mBricks (Scene.firstMotion host s dt).mDrops k i (ball.Update dt) _ h4 ht1 hbrick
    -- second motion pass
    obtain ⟨ht2, hvx2, hvy2⟩ := Ball.Update_free (ball.Update dt) _ dt ht1
      (by rw [hvx1]; simp only; linarith) (by rw [hvx1]; simp only; linarith)
      (by rw [hvy1]; simp only; linarith)
    have hrect : (⟨tr.x + ball.velX * dt + (ball.Update dt).velX * dt,
        tr.y + ball.velY * dt + (ball.Update dt).velY * dt, tr.w, tr.h⟩ : SDL_FRect F) =
        ⟨tr.x + 2 * ball.velX * dt, tr.y + 2 * ball.velY * dt, tr.w, tr.h⟩ := by
      rw [hvx1, hvy1]
      congr 1 <;> ring
    simp only at ht2
    rw [hrect] at ht2
    -- ball-vs-paddle pass
    have h7 : (Scene.passes host s k dt).1.mBalls[i]? = some ((ball.Update dt).Update dt) := by
      rw [Scene.passes_eq]
      apply Scene.ballVsPaddle_getElem_miss host _ _ i _ _ _ ht2
      · intro paddle paddleRect hp hc
        simp only [(Scene.firstMotion_fields host s dt).2.1, Option.map_eq_some'] at hp
        obtain ⟨p, hp, rfl⟩ := hp
        exact hpaddle p paddleRect hp hc
      · simp only [List.getElem?_map, h5, Option.map_some']
    -- cleanup
    have hf : (Scene.afterCleanup host s k dt).1.mBalls =
        (Scene.passes host s k dt).1.mBalls.filter (fun b => !Scene.ballIsOut b) :=
      Scene.cleanup_eq_filter _
    have hkeep : (!Scene.ballIsOut ((ball.Update dt).Update dt)) = true := by
      simp only [Scene.ballIsOut, ht2, Bool.not_eq_true', decide_eq_false_iff_not, not_lt]
      exact hin
    have hget := getElem?_filter_of_getElem? (fun b : Ball F => !Scene.ballIsOut b)
      (Scene.passes host s k dt).1.mBalls i _ h7 hkeep
    rw [← hf] at hget
    -- termination checks
    have hrun := (Scene.Update_eq host s k dt).trans
      (Scene.finish_of_running (Scene.afterCleanup host s k dt)
        (List.ne_nil_of_mem (List.getElem?_mem hget)) hnc)
    exact ⟨_, _, _, hrun, h7, hget, ht2, by rw [hvx2, hvx1], by rw [hvy2, hvy1]⟩
  · intro s' k' hrun d dtr hd hdtr hmiss
    rw [Scene.Update_eq] at hrun
    obtain ⟨_, _, hdrops, _, _⟩ := Scene.finish_running _ s' k' hrun
    have hdt : (d.Update dt).transform = some ⟨dtr.x, dtr.y + d.mSpeed * dt, dtr.w, dtr.h⟩ := by
      simp only [Drop.Update, hdtr, Collision2DComponent.Update_transform,
        TransformComponent.move]
    refine ⟨?_, hdt⟩
    rw [hdrops]
    have hpd : (Scene.afterCleanup host s k dt).1.mDrops = (Scene.passes host s k dt).1.mDrops :=
      rfl
    rw [hpd, (Scene.passes_fields host s k dt).2.1]
    obtain ⟨news, h1, _, _⟩ := Scene.ballVsBrick_drops host
      (Scene.firstMotion host s dt).mBalls s.mBricks (Scene.firstMotion host s dt).mDrops k
    rw [h1]
    apply List.mem_append_left
    apply Scene.firstMotion_mem_drops host s dt d hd
    intro p paddleRect hp hc
    simp only [Scene.dropIsPicked, hdt]
    exact hmiss p paddleRect hp hc

/-- Witness of the amended C19 on `exSceneMixed` with `dt = 1/60`: the ball at
index 3, at `(100, 500)` with velocity `(60, 120)`, ends at `(102, 504)` at
index 2 of the returned list, the first ball having been removed by the
cleanup step; the drop at `(300, 200)` with speed 200 ends at
`(300, 200 + 200/60)`. -/
theorem C19_balls_move_twice_drops_once_witness :
    (∃ (s' : Scene ℚ) (k' : Nat) (ball' : Ball ℚ),
      Scene.Update exHost exSceneMixed 0 (1 / 60) = Outcome.running s' k' ∧
      (Scene.passes exHost exSceneMixed 0 (1 / 60)).1.mBalls[3]? = some ball' ∧
      s'.mBalls[(((Scene.passes exHost exSceneMixed 0 (1 / 60)).1.mBalls.take 3).filter
          (fun b => !Scene.ballIsOut b)).length]? = some ball' ∧
      ball'.transform = some ⟨100 + 2 * (exBall ⟨100, 500, 20, 20⟩ 60 120).velX * (1 / 60),
        500 + 2 * (exBall ⟨100, 500, 20, 20⟩ 60 120).velY * (1 / 60), 20, 20⟩ ∧
      ball'.velX = (exBall ⟨100, 500, 20, 20⟩ 60 120).velX ∧
      ball'.velY = (exBall ⟨100, 500, 20, 20⟩ 60 120).velY) ∧
    (((Scene.passes exHost exSceneMixed 0 (1 / 60)).1.mBalls.take 3).filter
      (fun b => !Scene.ballIsOut b)).length = 2 ∧
    (Scene.afterCleanup exHost exSceneMixed 0 (1 / 60)).1.mBalls[2]?.map
      (fun b => (b.transform, b.velX, b.velY)) = some (some ⟨102, 504, 20, 20⟩, 60, 120) ∧
    (exDrop ⟨300, 200, 16, 16⟩).Update (1 / 60) ∈
      (Scene.afterCleanup exHost exSceneMixed 0 (1 / 60)).1.mDrops ∧
    ((exDrop ⟨300, 200, 16, 16⟩).Update (1 / 60)).transform =
      some ⟨300, 200 + (exDrop ⟨300, 200, 16, 16⟩).mSpeed * (1 / 60), 16, 16⟩ := by
  have hpad : ∀ (p : Paddle ℚ) (paddleRect : SDL_FRect ℚ),
      exSceneMixed.mPlayerPaddle = some p → (p.Update (1 / 60)).collider = some paddleRect →
      paddleRect = ⟨700, 900, 100, 20⟩ := by
    intro p paddleRect hp hc
    have hp' : exPaddle = p := Option.some.inj hp
    subst hp'
    have hc' : (exPaddle.Update (1 / 60)).collider = some ⟨700, 900, 100, 20⟩ := by decide!
    rw [hc'] at hc
    exact (Option.some.inj hc).symm
  have hrun : Scene.Update exHost exSceneMixed 0 (1 / 60) =
      Outcome.running (Scene.afterCleanup exHost exSceneMixed 0 (1 / 60)).1
        (Scene.afterCleanup exHost exSceneMixed 0 (1 / 60)).2 :=
    (Scene.Update_eq exHost exSceneMixed 0 (1 / 60)).trans
      (Scene.finish_of_running _ (by decide!) (by decide!))
  have h := C19_balls_move_twice_drops_once exHost exSceneMixed 0 (1 / 60) 3
    (exBall ⟨100, 500, 20, 20⟩ 60 120) ⟨100, 500, 20, 20⟩ (by decide!) rfl (by decide!)
    (by decide!) (by decide!) (by decide!) (by decide!) (by decide!) (by decide!)
    (by
      intro p paddleRect hp hc
      rw [hpad p paddleRect hp hc]
      decide!)
    (by decide!) (by decide!)
  refine ⟨h.1, by decide!, by decide!, ?_⟩
  exact h.2 _ _ hrun (exDrop ⟨300, 200, 16, 16⟩) ⟨300, 200, 16, 16⟩ (by decide!) rfl
    (by
      intro p paddleRect hp hc
      rw [hpad p paddleRect hp hc]
      decide!)

end Properties

end GameEngine
